import Mathlib

/-!
Shallow embedding of the intercpp scripting-language core
(Lexer.cpp, Parser.cpp, AST.cpp, Environment.cpp, Types.hpp).

Conventions of the embedding:
* C++ `double` is modelled as `Rat` (exact arithmetic; every literal used in
  the claims is exactly representable as a double).
* `std::unordered_map<std::string, T>` is modelled as an association list
  `List (String × T)`; `operator[]` inserts or updates, `at`/`find` return the
  first matching entry.
* `std::vector` of scopes: the C++ code pushes scopes at `back()` and walks
  `rbegin() → rend()`.  We keep the innermost scope at the HEAD of the list,
  so C++ `push_back`/`back`/`pop_back` become `cons`/`head`/`tail` and the
  reverse walk becomes a left-to-right walk.
* C++ exceptions: evaluation returns `Except String Value` together with the
  (possibly mutated) environment, because `Environment&` mutations performed
  before a throw survive the unwinding in the C++ code.
* Recursion in the interpreter and parser is made total with an explicit
  fuel parameter; running out of fuel yields the sentinel error `"FUEL"`,
  which corresponds to no behaviour of the C++ code (the C++ recursion is
  bounded only by the host stack).
-/

/-- Token kinds, from Types.hpp (the token enumeration of the current
pipeline; the older Lexer.hpp enumeration is a subset). -/
inductive TokenType where
  | IDENTIFIER
  | NUMBER
  | STRING_LITERAL
  | PLUS | MINUS | MULTIPLY | DIVIDE
  | ASSIGN
  | LPAREN | RPAREN
  | LBRACE | RBRACE
  | COMMA | SEMICOLON
  | AND | OR | NOT
  | EQUALS | NOT_EQUALS
  | LESS | LESS_EQUALS | GREATER | GREATER_EQUALS
  | FUNC | RETURN | IF | ELSE | WHILE | FOR
  | INT | FLOAT | BOOL | VOID_TYPE | STRING_TYPE
  | TRUE | FALSE | DO
  | PLUSPLUS | MINUSMINUS
  | ARRAY
  | MAP
  | IMPORT
  | RBRACKET
  | LBRACKET
  | CLASS
  | NEW
  | DOT
  | COLON
  | END
deriving DecidableEq, Repr

/-- Prefix/postfix marker for IncrementNode, from Types.hpp. -/
inductive IncrementType where
  | PREFIX
  | POSTFIX
deriving DecidableEq, Repr

/-- Declared value types, from Types.hpp. -/
inductive ValueType where
  | INT
  | FLOAT
  | BOOL
  | VOID_TYPE
  | STRING
  | ARRAY
  | MAP
  | CLASS
deriving DecidableEq, Repr

/-- AST node kinds.  The implementation file AST.cpp is present in the
repository but its matching header (the node declarations) is not; the
constructor fields below are exactly the fields each node's methods in
AST.cpp and Parser.cpp read and write.  `nullNode` stands for a C++ null
child pointer (`Parser::parseStatement` returns `nullptr` for `#import`
and the result is stored unchecked in some parent nodes).
`ObjectDeclarationNode` and `ObjectDeclarationAssignmentNode` have
`evaluate` methods in AST.cpp but no production in Parser.cpp builds
them (dead code), so they are omitted here. -/
inductive ASTNode where
  | ProgramNode (statements : List ASTNode)
  | ForNode (initializer : Option ASTNode) (condition : ASTNode)
      (update : Option ASTNode) (body : ASTNode)
  | BooleanNode (value : Bool)
  | StringNode (value : String)
  | NumberNode (value : Rat)
  | DoWhileNode (body : ASTNode) (condition : ASTNode)
  | IncrementNode (incrementType : IncrementType) (variableName : String)
  | BlockNode (statements : List ASTNode)
  | UnaryOpNode (op : TokenType) (operand : ASTNode)
  | BinaryOpNode (op : TokenType) (left : ASTNode) (right : ASTNode)
  | WhileNode (condition : ASTNode) (body : ASTNode)
  | IfNode (condition : ASTNode) (thenBranch : ASTNode)
      (elseBranch : Option ASTNode)
  | ReturnNode (returnValue : ASTNode)
  | FunctionCallNode (name : String) (arguments : List ASTNode)
  | FunctionNode (name : String) (returnType : ValueType)
      (parameters : List (String × ValueType))
      (parameterClassNames : List String) (body : ASTNode)
  | DeclarationNode (variableName : String) (type : ValueType)
      (initializer : Option ASTNode)
  | AssignmentNode (variableName : String) (index : Option ASTNode)
      (expression : ASTNode)
  | VariableNode (name : String)
  | ArrayNode (elements : List ASTNode)
  | MapNode (elements : List (String × ASTNode))
  | IndexNode (variableName : String) (indexExpression : ASTNode)
  | ClassDefinitionNode (className : String)
      (members : List (String × ASTNode)) (ctor : Option ASTNode)
  | ObjectInstantiationNode (className : String)
      (constructorArgs : List ASTNode)
  | MemberAccessNode (object : ASTNode) (memberName : String)
  | MemberFunctionCallNode (object : ASTNode) (methodName : String)
      (arguments : List ASTNode)
  | nullNode

/-- The runtime value variant `ValueVariant`/`VariableValue` from Types.hpp:
double, bool, string, vector of values, string-keyed map of values, or a
pointer to a FunctionNode. -/
inductive Value where
  | num (x : Rat)
  | bool (b : Bool)
  | str (s : String)
  | arr (elems : List Value)
  | map (entries : List (String × Value))
  | fnRef (fn : ASTNode)

/-- `std::variant::index()` for `ValueVariant` (declaration order in
Types.hpp: double, bool, string, vector, map, FunctionNode pointer). -/
def Value.variantIndex : Value → Nat
  | .num _ => 0
  | .bool _ => 1
  | .str _ => 2
  | .arr _ => 3
  | .map _ => 4
  | .fnRef _ => 5

/-- `VariableValue()` default-constructs the variant to its first
alternative, a `double` equal to `0.0`. -/
def Value.defaultVal : Value := .num 0

instance : Inhabited Value := ⟨Value.defaultVal⟩

/-- Association-list lookup: first entry with the given key
(`unordered_map::find` / `at` / `contains`). -/
def alistFind {α : Type} (entries : List (String × α)) (key : String) :
    Option α :=
  match entries with
  | [] => none
  | (k, v) :: rest => if k = key then some v else alistFind rest key

/-- `m.contains(key)`. -/
def alistContains {α : Type} (entries : List (String × α)) (key : String) :
    Bool :=
  (alistFind entries key).isSome

/-- `m[key] = v`: update the existing entry in place, or append a new one. -/
def alistInsert {α : Type} (entries : List (String × α)) (key : String)
    (v : α) : List (String × α) :=
  match entries with
  | [] => [(key, v)]
  | (k, w) :: rest =>
    if k = key then (k, v) :: rest else (k, w) :: alistInsert rest key v

/-- One variable scope: name → (value, declared type), as in
Environment.hpp's scope maps. -/
def Scope := List (String × (Value × ValueType))

/-- The runtime Environment (Environment.hpp / Environment.cpp).
`functionRegistry` holds host-provided `ScriptFunction`s; their bodies are
external C++ callables, so the registry is modelled by the set of
registered names and invocation is modelled by `nativeLog` (see
`evaluateFunction`).  `variableScopes` keeps the innermost scope first
(C++ `back()` = our head). -/
structure Environment where
  functionRegistry : List String
  nativeLog : List (String × List Value)
  userFunctionRegistry : List (String × ASTNode)
  classRegistry : List (String × ASTNode)
  variableTable : List (String × (Value × ValueType))
  variableScopes : List Scope
  currentObjectInstance : List (String × Value)

/-- `Environment::Environment()`: starts with one (global) scope. -/
def Environment.init : Environment :=
  { functionRegistry := []
    nativeLog := []
    userFunctionRegistry := []
    classRegistry := []
    variableTable := []
    variableScopes := [[]]
    currentObjectInstance := [] }

/-- `Environment::registerFunction`. -/
def Environment.registerFunction (env : Environment) (name : String) :
    Except String Environment :=
  if name ∈ env.functionRegistry then
    .error ("Function already registered: " ++ name)
  else
    .ok { env with functionRegistry := env.functionRegistry ++ [name] }

/-- `Environment::registerUserFunction`. -/
def Environment.registerUserFunction (env : Environment) (name : String)
    (functionNode : ASTNode) : Except String Environment :=
  if alistContains env.userFunctionRegistry name then
    .error ("User-defined function already registered: " ++ name)
  else
    .ok { env with userFunctionRegistry :=
            alistInsert env.userFunctionRegistry name functionNode }

/-- `Environment::registerClass`. -/
def Environment.registerClass (env : Environment) (name : String)
    (classDef : ASTNode) : Except String Environment :=
  if alistContains env.classRegistry name then
    .error ("Class already registered: " ++ name)
  else
    .ok { env with classRegistry :=
            alistInsert env.classRegistry name classDef }

/-- The default value a declaration gives a variable of each type, from the
switch in `Environment::declareVariable`.  The CLASS case additionally
requires the class to be registered; VOID (and any other) case throws. -/
def Environment.declareVariable (env : Environment) (name : String)
    (type : ValueType) (className : String := "") :
    Except String Environment := do
  let defaultValue : Value ←
    match type with
    | .INT => .ok (.num 0)
    | .FLOAT => .ok (.num 0)
    | .BOOL => .ok (.bool false)
    | .STRING => .ok (.str "")
    | .ARRAY => .ok (.arr [])
    | .MAP => .ok (.map [])
    | .CLASS =>
      if alistContains env.classRegistry className then
        .ok (.map [])
      else
        .error ("Undefined class type for variable: " ++ className)
    | _ => .error "Unsupported variable type for declaration."
  match env.variableScopes with
  | innermost :: rest =>
    if alistContains innermost name then
      .error ("Variable already declared in current scope: " ++ name)
    else
      .ok { env with variableScopes :=
              alistInsert innermost name (defaultValue, type) :: rest }
  | [] =>
    if alistContains env.variableTable name then
      .error ("Variable already declared in global scope: " ++ name)
    else
      .ok { env with variableTable :=
              alistInsert env.variableTable name (defaultValue, type) }

/-- Update the first scope (walking innermost → outermost) that binds the
name; mirrors the `rbegin()`→`rend()` loop of `Environment::setVariable`. -/
def setInScopes (scopes : List Scope) (name : String) (value : Value) :
    Option (List Scope) :=
  match scopes with
  | [] => none
  | scope :: rest =>
    match alistFind scope name with
    | some (_, type) =>
      some (alistInsert scope name (value, type) :: rest)
    | none =>
      match setInScopes rest name value with
      | some rest2 => some (scope :: rest2)
      | none => none

/-- `Environment::setVariable`: current object instance first, then local
scopes innermost → outermost, then the global table; otherwise an error.
No declared-type check is performed. -/
def Environment.setVariable (env : Environment) (name : String)
    (value : Value) : Except String Environment :=
  if alistContains env.currentObjectInstance name then
    .ok { env with currentObjectInstance :=
            alistInsert env.currentObjectInstance name value }
  else
    match setInScopes env.variableScopes name value with
    | some scopes => .ok { env with variableScopes := scopes }
    | none =>
      match alistFind env.variableTable name with
      | some (_, type) =>
        .ok { env with variableTable :=
                alistInsert env.variableTable name (value, type) }
      | none =>
        .error ("Undefined variable: " ++ name ++ ". Cannot assign value.")

/-- Search the scopes innermost → outermost, as in
`Environment::getVariable`. -/
def getInScopes (scopes : List Scope) (name : String) : Option Value :=
  match scopes with
  | [] => none
  | scope :: rest =>
    match alistFind scope name with
    | some (v, _) => some v
    | none => getInScopes rest name

/-- `Environment::getVariable`. -/
def Environment.getVariable (env : Environment) (name : String) :
    Except String Value :=
  match alistFind env.currentObjectInstance name with
  | some v => .ok v
  | none =>
    match getInScopes env.variableScopes name with
    | some v => .ok v
    | none =>
      match alistFind env.variableTable name with
      | some (v, _) => .ok v
      | none => .error ("Undefined variable: " ++ name)

/-- `Environment::pushScope`. -/
def Environment.pushScope (env : Environment) : Environment :=
  { env with variableScopes := [] :: env.variableScopes }

/-- `Environment::popScope` (Environment.hpp): refuses to pop the last
scope. -/
def Environment.popScope (env : Environment) : Except String Environment :=
  match env.variableScopes with
  | _ :: (s2 :: rest) => .ok { env with variableScopes := s2 :: rest }
  | _ => .error "Cannot pop the global scope."

/-- `Environment::isVariableDeclared`: checks the innermost scope only. -/
def Environment.isVariableDeclared (env : Environment) (name : String) :
    Bool :=
  match env.variableScopes with
  | innermost :: _ => alistContains innermost name
  | [] => false

/-- `Environment::isMemberFunction`. -/
def Environment.isMemberFunction (objMap : List (String × Value))
    (methodName : String) : Bool :=
  match alistFind objMap methodName with
  | some (.fnRef _) => true
  | _ => false

/-- Number of entries on the scope stack (`variableScopes.size()`); the
scope-balance claims are about this quantity. -/
def Environment.scopeDepth (env : Environment) : Nat :=
  env.variableScopes.length

/-- `static_cast<int>` on a double: truncation toward zero. -/
def castToInt (x : Rat) : Int :=
  if 0 ≤ x then x.floor else -((-x).floor)

/-- The operand dispatch of `BinaryOpNode::evaluate` (AST.cpp), after both
operands have been evaluated.  The C++ function is a sequence of guarded
blocks; control can fall from one block to the next, which the helper
functions below replicate:

* both operands numeric → arithmetic/comparison switch whose `default`
  throws (so `==`, `!=`, `&&`, `||` on two numbers throw here and never
  reach the later blocks);
* both operands strings → only `+` (concatenation), anything else throws;
* `&&`/`||` with boolean left operand and non-boolean right operand falls
  through to the equality block;
* `==`/`!=` on operands of equal variant index compute value equality for
  number/bool/string and `false` for every other variant (array, map,
  function reference) — returning a boolean, not throwing. -/
def equalitySection (op : TokenType) (leftValue rightValue : Value) :
    Except String Value :=
  if op = .EQUALS ∨ op = .NOT_EQUALS then
    if leftValue.variantIndex = rightValue.variantIndex then
      let result : Bool :=
        match leftValue, rightValue with
        | .num a, .num b => a = b
        | .bool a, .bool b => a = b
        | .str a, .str b => a = b
        | _, _ => false
      if op = .EQUALS then .ok (.bool result) else .ok (.bool (!result))
    else
      .error "Cannot compare different types for equality."
  else
    .error "Unsupported types for binary operation."

/-- The `&&`/`||` block of `BinaryOpNode::evaluate`; falls through to the
equality block when it does not return or throw. -/
def logicalSection (op : TokenType) (leftValue rightValue : Value) :
    Except String Value :=
  if op = .AND ∨ op = .OR then
    match leftValue with
    | .bool a =>
      match rightValue with
      | .bool b =>
        if op = .AND then .ok (.bool (a && b)) else .ok (.bool (a || b))
      | _ => equalitySection op leftValue rightValue
    | _ => .error "Logical operations require boolean values."
  else
    equalitySection op leftValue rightValue

def applyBinaryOp (op : TokenType) (leftValue rightValue : Value) :
    Except String Value :=
  match leftValue, rightValue with
  | .num a, .num b =>
    match op with
    | .PLUS => .ok (.num (a + b))
    | .MINUS => .ok (.num (a - b))
    | .MULTIPLY => .ok (.num (a * b))
    | .DIVIDE =>
      if b = 0 then .error "Division by zero." else .ok (.num (a / b))
    | .LESS => .ok (.bool (decide (a < b)))
    | .LESS_EQUALS => .ok (.bool (decide (a ≤ b)))
    | .GREATER => .ok (.bool (decide (b < a)))
    | .GREATER_EQUALS => .ok (.bool (decide (b ≤ a)))
    | _ => .error "Unsupported binary operation for doubles."
  | .str a, .str b =>
    if op = .PLUS then .ok (.str (a ++ b))
    else .error "Unsupported operation for strings."
  | _, _ => logicalSection op leftValue rightValue

/-- `UnaryOpNode::evaluate` after the operand has been evaluated. -/
def applyUnaryOp (op : TokenType) (operandValue : Value) :
    Except String Value :=
  match op with
  | .MINUS =>
    match operandValue with
    | .num x => .ok (.num (-x))
    | _ => .error "Unary minus can only be applied to numeric values."
  | .NOT =>
    match operandValue with
    | .bool b => .ok (.bool (!b))
    | _ => .error "Logical NOT can only be applied to boolean values."
  | _ => .error "Unsupported unary operation."

/-- The parameter-binding loop of `Environment::evaluateFunction`: the loop
bound is `args.size()` (checked equal to the parameter count).  The class
name for a CLASS-typed parameter is `parameterClassNames[i]`; the parser
always builds an empty `parameterClassNames` vector, which the code's own
empty-string check turns into an error (we model the read of a missing
entry as the empty string). -/
def bindParameters : List (String × ValueType) → List String → String →
    List Value → Environment → (Except String Unit) × Environment
  | _, _, _, [], env => (.ok (), env)
  | [], _, _, _ :: _, env => (.ok (), env)
  | (pname, ptype) :: ps, classNames, fname, arg :: restArgs, env =>
    let declRes : Except String Environment :=
      if ptype = ValueType.CLASS then
        let paramClassName := classNames.headD ""
        if paramClassName = "" then
          .error ("Missing class name for parameter '" ++ pname ++
            "' in function '" ++ fname ++ "'")
        else
          env.declareVariable pname ptype paramClassName
      else
        env.declareVariable pname ptype
    match declRes with
    | .error e => (.error e, env)
    | .ok env1 =>
      match env1.setVariable pname arg with
      | .error e => (.error e, env1)
      | .ok env2 => bindParameters ps classNames.tail fname restArgs env2

/-- The parameter-binding loops of `Environment::instantiateObject` and
`Environment::callMemberFunction`: the loop bound is the parameter count
and `args[i]` is read unchecked (`std::vector::operator[]` out of bounds
is undefined behaviour in C++; we model it as an error). -/
def bindParametersByParams : List (String × ValueType) → List Value →
    Environment → (Except String Unit) × Environment
  | [], _, env => (.ok (), env)
  | (pname, ptype) :: ps, args, env =>
    match args with
    | [] => (.error "vector index out of range", env)
    | arg :: restArgs =>
      match env.declareVariable pname ptype with
      | .error e => (.error e, env)
      | .ok env1 =>
        match env1.setVariable pname arg with
        | .error e => (.error e, env1)
        | .ok env2 => bindParametersByParams ps restArgs env2


/-- Sequencing of an evaluation step with C++ exception propagation: a
throw carries the environment as mutated so far past the rest of the
enclosing function; otherwise the continuation runs on the updated
environment. -/
def bindE {α β : Type} (r : (Except String α) × Environment)
    (k : α → Environment → (Except String β) × Environment) :
    (Except String β) × Environment :=
  match r with
  | (.error e, env1) => (.error e, env1)
  | (.ok v, env1) => k v env1

/-- Sequencing of an `Except`-returning primitive call (the given
environment is the state at the point of a throw). -/
def liftE {α β : Type} (r : Except String α) (env : Environment)
    (k : α → (Except String β) × Environment) :
    (Except String β) × Environment :=
  match r with
  | .error e => (.error e, env)
  | .ok v => k v

mutual

/-- `ASTNode::evaluate(Environment&)` for every node kind (AST.cpp).  The
environment is returned alongside the result even on error, because a C++
throw leaves the by-reference environment in its mutated state. -/
def evaluate (fuel : Nat) (node : ASTNode) (env : Environment) :
    (Except String Value) × Environment :=
  match fuel with
  | 0 => (.error "FUEL", env)
  | n + 1 =>
    match node with
    | .ProgramNode statements =>
      -- ProgramNode::evaluate: run every statement, return VariableValue()
      bindE (evalSeq n statements Value.defaultVal env)
        (fun _ env1 => (.ok Value.defaultVal, env1))
    | .BlockNode statements =>
      -- BlockNode::evaluate: value of the last statement (default if none)
      evalSeq n statements Value.defaultVal env
    | .BooleanNode value => (.ok (.bool value), env)
    | .StringNode value => (.ok (.str value), env)
    | .NumberNode value => (.ok (.num value), env)
    | .nullNode =>
      -- dereferencing a C++ null child pointer is undefined behaviour
      (.error "null AST node dereference", env)
    | .ForNode initializer condition update body =>
      match initializer with
      | some ini =>
        bindE (evaluate n ini env)
          (fun _ env1 => forLoop n condition update body env1)
      | none => forLoop n condition update body env
    | .DoWhileNode body condition => doWhileLoop n body condition env
    | .WhileNode condition body => whileLoop n condition body env
    | .IfNode condition thenBranch elseBranch =>
      bindE (evaluate n condition env) (fun condValue env1 =>
        match condValue with
        | .bool b =>
          if b then evaluate n thenBranch env1
          else
            match elseBranch with
            | some eb => evaluate n eb env1
            | none => (.ok Value.defaultVal, env1)
        | _ => (.error "Condition for 'if' must be a boolean.", env1))
    | .IncrementNode incrementType variableName =>
      liftE (env.getVariable variableName) env (fun value =>
        match value with
        | .num originalValue =>
          let result : Value :=
            match incrementType with
            | .PREFIX => .num (originalValue + 1)
            | .POSTFIX => .num originalValue
          liftE (env.setVariable variableName (.num (originalValue + 1)))
            env (fun env1 => (.ok result, env1))
        | _ =>
          (.error "Increment operation only supports numeric types.", env))
    | .UnaryOpNode op operand =>
      bindE (evaluate n operand env)
        (fun operandValue env1 => (applyUnaryOp op operandValue, env1))
    | .BinaryOpNode op left right =>
      bindE (evaluate n left env) (fun leftValue env1 =>
        bindE (evaluate n right env1) (fun rightValue env2 =>
          (applyBinaryOp op leftValue rightValue, env2)))
    | .ReturnNode returnValue =>
      -- ReturnNode::evaluate: evaluate and return (console output elided)
      evaluate n returnValue env
    | .FunctionCallNode name argumentsList =>
      bindE (evalArgs n argumentsList env) (fun argsAndNames env1 =>
        evaluateFunction n name argsAndNames.1 argsAndNames.2 env1)
    | .FunctionNode _ _ _ _ _ =>
      -- FunctionNode::evaluate does nothing (registration happens in the
      -- parser) and returns the default value
      (.ok Value.defaultVal, env)
    | .DeclarationNode variableName type initializer =>
      let defaultValueE : Except String Value :=
        match type with
        | .BOOL => .ok (.bool false)
        | .INT => .ok (.num 0)
        | .FLOAT => .ok (.num 0)
        | .STRING => .ok (.str "")
        | .ARRAY => .ok (.arr [])
        | .MAP => .ok (.map [])
        | _ =>
          .error ("Unknown variable type for declaration: " ++ variableName)
      liftE defaultValueE env (fun defaultValue =>
        liftE (env.declareVariable variableName type) env (fun env1 =>
          match initializer with
          | some ini =>
            bindE (evaluate n ini env1) (fun v env2 =>
              liftE (env2.setVariable variableName v) env2 (fun env3 =>
                liftE (env3.getVariable variableName) env3
                  (fun rv => (.ok rv, env3))))
          | none =>
            liftE (env1.setVariable variableName defaultValue) env1
              (fun env3 =>
                liftE (env3.getVariable variableName) env3
                  (fun rv => (.ok rv, env3)))))
    | .AssignmentNode variableName index expression =>
      match index with
      | none =>
        bindE (evaluate n expression env) (fun v env1 =>
          liftE (env1.setVariable variableName v) env1
            (fun env2 => (.ok v, env2)))
      | some indexNode =>
        liftE (env.getVariable variableName) env (fun container =>
          bindE (evaluate n indexNode env) (fun indexValue env1 =>
            bindE (evaluate n expression env1) (fun newValue env2 =>
              match container with
              | .arr elems =>
                match indexValue with
                | .num ix =>
                  let idx := castToInt ix
                  if 0 ≤ idx ∧ idx < (elems.length : Int) then
                    liftE (env2.setVariable variableName
                        (.arr (elems.set idx.toNat newValue))) env2
                      (fun env3 => (.ok newValue, env3))
                  else (.error "Array index out of bounds.", env2)
                | _ => (.error "Array index must be an integer.", env2)
              | .map entries =>
                match indexValue with
                | .str key =>
                  liftE (env2.setVariable variableName
                      (.map (alistInsert entries key newValue))) env2
                    (fun env3 => (.ok newValue, env3))
                | _ => (.error "Map key must be a string.", env2)
              | _ =>
                (.error "Cannot index non-array or non-map type.", env2))))
    | .VariableNode name =>
      liftE (env.getVariable name) env (fun v =>
        match v with
        | .fnRef _ =>
          (.error ("Expected numeric value for variable: " ++ name), env)
        | other => (.ok other, env))
    | .ArrayNode elements =>
      bindE (evalArgsPlain n elements env)
        (fun vs env1 => (.ok (.arr vs), env1))
    | .MapNode elements =>
      bindE (evalMapElems n elements [] env)
        (fun entries env1 => (.ok (.map entries), env1))
    | .IndexNode variableName indexExpression =>
      liftE (env.getVariable variableName) env (fun containerValue =>
        bindE (evaluate n indexExpression env) (fun indexValue env1 =>
          match containerValue with
          | .arr elems =>
            match indexValue with
            | .num ix =>
              let idx := castToInt ix
              if 0 ≤ idx ∧ idx < (elems.length : Int) then
                (.ok (elems.getD idx.toNat Value.defaultVal), env1)
              else
                (.error ("Array index out of bounds for variable: " ++
                  variableName), env1)
            | _ =>
              (.error "Array indexing requires a numeric index.", env1)
          | .map entries =>
            match indexValue with
            | .str key =>
              match alistFind entries key with
              | some v => (.ok v, env1)
              | none => (.error ("Key not found in map: " ++ key), env1)
            | _ => (.error "Map indexing requires a string key.", env1)
          | _ =>
            (.error ("Attempted to index a non-container variable: " ++
              variableName), env1)))
    | .ClassDefinitionNode className members ctor =>
      liftE (env.registerClass className
          (.ClassDefinitionNode className members ctor)) env
        (fun env1 => (.ok Value.defaultVal, env1))
    | .ObjectInstantiationNode className constructorArgs =>
      instantiateObject n className constructorArgs env
    | .MemberAccessNode object memberName =>
      bindE (evaluate n object env) (fun objValue env1 =>
        match objValue with
        | .map objMap =>
          match alistFind objMap memberName with
          | some v => (.ok v, env1)
          | none => (.error ("Member not found: " ++ memberName), env1)
        | _ =>
          (.error "Attempt to access a member of a non-object value.",
            env1))
    | .MemberFunctionCallNode object methodName argumentsList =>
      bindE (evaluate n object env) (fun objValue env1 =>
        match objValue with
        | .map objMap =>
          match alistFind objMap methodName with
          | some _ =>
            if Environment.isMemberFunction objMap methodName then
              bindE (evalArgsPlain n argumentsList env1)
                (fun evaluatedArgs env2 =>
                  callMemberFunction n objMap methodName evaluatedArgs env2)
            else
              (.error ("Member \"" ++ methodName ++ "\" is not callable."),
                env1)
          | none =>
            (.error ("Member function not found: " ++ methodName), env1)
        | _ =>
          (.error "Attempt to call a member function on a non-object value.",
            env1))

/-- Statement sequence with the running `lastValue` of
`BlockNode::evaluate` (also used by `ProgramNode::evaluate`, which
discards the value). -/
def evalSeq (fuel : Nat) (statements : List ASTNode) (lastValue : Value)
    (env : Environment) : (Except String Value) × Environment :=
  match fuel with
  | 0 => (.error "FUEL", env)
  | n + 1 =>
    match statements with
    | [] => (.ok lastValue, env)
    | s :: rest =>
      bindE (evaluate n s env) (fun v env1 => evalSeq n rest v env1)

/-- The argument loop of `FunctionCallNode::evaluate`: collects the textual
name of each argument that is a bare `VariableNode` (in order) and
evaluates every argument left to right. -/
def evalArgs (fuel : Nat) (argumentsList : List ASTNode)
    (env : Environment) :
    (Except String (List Value × List String)) × Environment :=
  match fuel with
  | 0 => (.error "FUEL", env)
  | n + 1 =>
    match argumentsList with
    | [] => (.ok ([], []), env)
    | arg :: rest =>
      let names : List String :=
        match arg with
        | .VariableNode vname => [vname]
        | _ => []
      bindE (evaluate n arg env) (fun v env1 =>
        bindE (evalArgs n rest env1) (fun vsns env2 =>
          (.ok (v :: vsns.1, names ++ vsns.2), env2)))

/-- Left-to-right evaluation of a node list (array literals, member-call
argument loops, constructor argument loops). -/
def evalArgsPlain (fuel : Nat) (nodes : List ASTNode) (env : Environment) :
    (Except String (List Value)) × Environment :=
  match fuel with
  | 0 => (.error "FUEL", env)
  | n + 1 =>
    match nodes with
    | [] => (.ok [], env)
    | node1 :: rest =>
      bindE (evaluate n node1 env) (fun v env1 =>
        bindE (evalArgsPlain n rest env1) (fun vs env2 =>
          (.ok (v :: vs), env2)))

/-- The element loop of `MapNode::evaluate` (iteration order of the
underlying `unordered_map` is unspecified in C++; we use list order). -/
def evalMapElems (fuel : Nat) (elements : List (String × ASTNode))
    (acc : List (String × Value)) (env : Environment) :
    (Except String (List (String × Value))) × Environment :=
  match fuel with
  | 0 => (.error "FUEL", env)
  | n + 1 =>
    match elements with
    | [] => (.ok acc, env)
    | (key, valueNode) :: rest =>
      bindE (evaluate n valueNode env) (fun v env1 =>
        evalMapElems n rest (alistInsert acc key v) env1)

/-- The loop of `WhileNode::evaluate`. -/
def whileLoop (fuel : Nat) (condition body : ASTNode) (env : Environment) :
    (Except String Value) × Environment :=
  match fuel with
  | 0 => (.error "FUEL", env)
  | n + 1 =>
    bindE (evaluate n condition env) (fun condValue env1 =>
      match condValue with
      | .bool b =>
        if !b then (.ok Value.defaultVal, env1)
        else
          bindE (evaluate n body env1)
            (fun _ env2 => whileLoop n condition body env2)
      | _ => (.error "Condition for 'while' must be a boolean.", env1))

/-- The loop of `DoWhileNode::evaluate` (body first, then condition). -/
def doWhileLoop (fuel : Nat) (body condition : ASTNode)
    (env : Environment) : (Except String Value) × Environment :=
  match fuel with
  | 0 => (.error "FUEL", env)
  | n + 1 =>
    bindE (evaluate n body env) (fun _ env1 =>
      bindE (evaluate n condition env1) (fun condValue env2 =>
        match condValue with
        | .bool b =>
          if !b then (.ok Value.defaultVal, env2)
          else doWhileLoop n body condition env2
        | _ => (.error "Condition for 'do-while' must be a boolean.",
            env2)))

/-- The loop of `ForNode::evaluate`: a boolean condition is tested as such;
a NUMERIC condition is accepted and treated as false exactly when it is 0;
any other kind throws. -/
def forLoop (fuel : Nat) (condition : ASTNode) (update : Option ASTNode)
    (body : ASTNode) (env : Environment) :
    (Except String Value) × Environment :=
  match fuel with
  | 0 => (.error "FUEL", env)
  | n + 1 =>
    bindE (evaluate n condition env) (fun condValue env1 =>
      match condValue with
      | .bool b =>
        if !b then (.ok Value.defaultVal, env1)
        else forLoopBody n condition update body env1
      | .num x =>
        if x = 0 then (.ok Value.defaultVal, env1)
        else forLoopBody n condition update body env1
      | _ =>
        (.error
          "Condition for 'for' must evaluate to a boolean or numeric value.",
          env1))

/-- Body-then-update step of the `for` loop. -/
def forLoopBody (fuel : Nat) (condition : ASTNode) (update : Option ASTNode)
    (body : ASTNode) (env : Environment) :
    (Except String Value) × Environment :=
  match fuel with
  | 0 => (.error "FUEL", env)
  | n + 1 =>
    bindE (evaluate n body env) (fun _ env1 =>
      match update with
      | some upd =>
        bindE (evaluate n upd env1)
          (fun _ env2 => forLoop n condition update body env2)
      | none => forLoop n condition update body env1)

/-- `Environment::evaluateFunction`: native registry first (the callable is
a host collaborator — we record the invocation in `nativeLog` and return
the default `VariableValue()`, which is what the harness's `print` native
returns), then the user-function registry: dynamic-cast check, arity
check, push a scope, bind parameters, evaluate the body, pop the scope
(only on the normal path — a throw from the body propagates before
`popScope()` is reached) and return the body's value. -/
def evaluateFunction (fuel : Nat) (name : String) (args : List Value)
    (argumentsNames : List String) (env : Environment) :
    (Except String Value) × Environment :=
  match fuel with
  | 0 => (.error "FUEL", env)
  | n + 1 =>
    if name ∈ env.functionRegistry then
      (.ok Value.defaultVal,
        { env with nativeLog := env.nativeLog ++ [(name, args)] })
    else
      match alistFind env.userFunctionRegistry name with
      | some fnNode =>
        match fnNode with
        | .FunctionNode fname _ parameters parameterClassNames body =>
          if args.length ≠ parameters.length then
            (.error ("Function " ++ name ++ " expects " ++
              toString parameters.length ++ " arguments, but got " ++
              toString args.length), env)
          else
            bindE (bindParameters parameters parameterClassNames fname args
                env.pushScope) (fun _ env2 =>
              bindE (evaluate n body env2) (fun returnValue env3 =>
                liftE env3.popScope env3
                  (fun env4 => (.ok returnValue, env4))))
        | _ =>
          (.error ("Function " ++ name ++ " is not properly defined."), env)
      | none => (.error ("Undefined function: " ++ name), env)

/-- `Environment::instantiateObject`: default-evaluate the member
declarations (side effects included — each member `DeclarationNode` also
declares into the current scope), then, if a constructor exists, evaluate
the constructor arguments, push a scope, bind parameters, run the body
with `currentObjectInstance` set to the member map, read the member map
back, clear the instance, pop the scope.  A throw from the body
propagates before the restore/clear/pop lines are reached. -/
def instantiateObject (fuel : Nat) (className : String)
    (args : List ASTNode) (env : Environment) :
    (Except String Value) × Environment :=
  match fuel with
  | 0 => (.error "FUEL", env)
  | n + 1 =>
    match alistFind env.classRegistry className with
    | none => (.error ("Undefined class: " ++ className), env)
    | some classDef =>
      match classDef with
      | .ClassDefinitionNode _ members ctorOpt =>
        bindE (evalMemberDecls n members [] env) (fun memberScope env1 =>
          match ctorOpt with
          | none => (.ok (.map memberScope), env1)
          | some ctor =>
            match ctor with
            | .FunctionNode _ _ parameters _ body =>
              bindE (evalArgsPlain n args env1) (fun evaluatedArgs env2 =>
                bindE (bindParametersByParams parameters evaluatedArgs
                    env2.pushScope) (fun _ env4 =>
                  bindE (evaluate n body
                      { env4 with currentObjectInstance := memberScope })
                    (fun _ env6 =>
                      let memberScope2 := env6.currentObjectInstance
                      let env7 :=
                        { env6 with currentObjectInstance := [] }
                      liftE env7.popScope env7
                        (fun env8 => (.ok (.map memberScope2), env8)))))
            | _ => (.error "Constructor is not a function node.", env1))
      | _ => (.error "Registered class is not a class definition.", env)

/-- The member-initialisation loop shared by `instantiateObject` and
`declareObject`: members that are `DeclarationNode`s are evaluated (with
their environment side effects); other members are skipped. -/
def evalMemberDecls (fuel : Nat) (members : List (String × ASTNode))
    (acc : List (String × Value)) (env : Environment) :
    (Except String (List (String × Value))) × Environment :=
  match fuel with
  | 0 => (.error "FUEL", env)
  | n + 1 =>
    match members with
    | [] => (.ok acc, env)
    | (memberName, memberNode) :: rest =>
      match memberNode with
      | .DeclarationNode v t i =>
        bindE (evaluate n (.DeclarationNode v t i) env) (fun value env1 =>
          evalMemberDecls n rest (alistInsert acc memberName value) env1)
      | _ => evalMemberDecls n rest acc env

/-- `Environment::callMemberFunction`: `std::get<FunctionNode*>` (wrong
variant throws `std::bad_variant_access`), push a scope, set the current
instance, bind parameters, evaluate the body, pop the scope and clear the
instance (both skipped when the body throws). -/
def callMemberFunction (fuel : Nat) (objMap : List (String × Value))
    (methodName : String) (args : List Value) (env : Environment) :
    (Except String Value) × Environment :=
  match fuel with
  | 0 => (.error "FUEL", env)
  | n + 1 =>
    if !(alistContains objMap methodName) then
      (.error ("Undefined member function: " ++ methodName), env)
    else
      match alistFind objMap methodName with
      | some (.fnRef fn) =>
        match fn with
        | .FunctionNode _ _ parameters _ body =>
          bindE (bindParametersByParams parameters args
              { env.pushScope with currentObjectInstance := objMap })
            (fun _ env3 =>
              bindE (evaluate n body env3) (fun returnValue env4 =>
                liftE env4.popScope env4 (fun env5 =>
                  (.ok returnValue,
                    { env5 with currentObjectInstance := [] }))))
        | _ =>
          (.error "Member function node is not a function definition.", env)
      | _ => (.error "std::bad_variant_access", env)

end


/-! ## Lexer (Lexer.cpp) -/

/-- A lexical token: kind plus optional numeric/string payload
(Types.hpp's `Token`). -/
structure Token where
  type : TokenType
  numberValue : Rat := 0
  stringValue : String := ""

/-- `isspace` on the ASCII characters the scripts use. -/
def isspaceChar (c : Char) : Bool :=
  c = ' ' ∨ c = '\t' ∨ c = '\n' ∨ c = '\r' ∨ c = Char.ofNat 11 ∨
    c = Char.ofNat 12

def isdigitChar (c : Char) : Bool := '0' ≤ c ∧ c ≤ '9'

def isalphaChar (c : Char) : Bool :=
  ('a' ≤ c ∧ c ≤ 'z') ∨ ('A' ≤ c ∧ c ≤ 'Z')

def isalnumChar (c : Char) : Bool := isalphaChar c ∨ isdigitChar c

/-- The opening/closing brace characters (written via their ASCII codes). -/
def lbraceChar : Char := Char.ofNat 123

def rbraceChar : Char := Char.ofNat 125

/-- `std::stod` restricted to the texts `Lexer::parseNumber` can produce
(they begin with a digit): an integer part, optionally followed by `.` and
a fractional part; any remaining text (e.g. a second dot) is ignored, as
`stod` stops at the first character that cannot extend the number. -/
def digitsToNat (cs : List Char) : Nat :=
  cs.foldl (fun a c => a * 10 + (c.toNat - 48)) 0

def stod (cs : List Char) : Rat :=
  let intDigits := cs.takeWhile isdigitChar
  let rest := cs.drop intDigits.length
  match rest with
  | '.' :: rest2 =>
    let fracDigits := rest2.takeWhile isdigitChar
    (digitsToNat intDigits : Rat) +
      (digitsToNat fracDigits : Rat) / ((10 : Rat) ^ fracDigits.length)
  | _ => (digitsToNat intDigits : Rat)

/-- Lexer state (Lexer.cpp): source text, cursor, bracket balance stack and
the set of already-imported paths.  `files` models the import
collaborator of spec §6 (`Lexer::readFile`): the text available for each
logical path (reading an unknown path fails). -/
structure Lexer where
  input : List Char
  pos : Nat
  balanceStack : List Char
  includedFiles : List String
  files : List (String × String)

/-- Scan of the `/* ... */` skip loop: the position of the closing `*` (or
the last position scanned when the comment is unterminated). -/
def blockCommentEnd (input : List Char) (pos : Nat) : Nat → Nat
  | 0 => pos
  | f + 1 =>
    if pos + 1 < input.length ∧
        ¬(input.get? pos = some '*' ∧ input.get? (pos + 1) = some '/') then
      blockCommentEnd input (pos + 1) f
    else pos

/-- `Lexer::parseIdentifier`: greedy run of alnum/underscore/`#`. -/
def lexIdentChars (input : List Char) (pos : Nat) : List Char :=
  (input.drop pos).takeWhile
    (fun c => isalnumChar c ∨ c = '_' ∨ c = '#')

/-- `Lexer::parseNumber`: greedy run of digits and dots, then `stod`. -/
def lexNumberChars (input : List Char) (pos : Nat) : List Char :=
  (input.drop pos).takeWhile (fun c => isdigitChar c ∨ c = '.')

/-- `Lexer::parseStringLiteral`, starting at the opening quote at `pos`:
the token and the lexer position after the closing quote. -/
def lexStringLiteral (lx : Lexer) : Except String (String × Lexer) :=
  let bodyChars := (lx.input.drop (lx.pos + 1)).takeWhile (· ≠ '"')
  if lx.pos + 1 + bodyChars.length ≥ lx.input.length then
    .error "Unterminated string literal"
  else
    .ok (String.mk bodyChars,
      { lx with pos := lx.pos + 1 + bodyChars.length + 1 })

/-- `Lexer::getNextToken` (Lexer.cpp).  The fuel bounds the
whitespace/comment skip loop; each pass either returns a token or
advances the cursor. -/
def getNextToken : Nat → Lexer → Except String (Token × Lexer)
  | 0, _ => .error "FUEL"
  | n + 1, lx =>
    match lx.input.get? lx.pos with
    | none =>
      if lx.balanceStack ≠ [] then .error "Unmatched opening symbols found"
      else .ok ({ type := .END }, lx)
    | some current =>
      if isspaceChar current then
        getNextToken n { lx with pos := lx.pos + 1 }
      else if current = '/' ∧ lx.input.get? (lx.pos + 1) = some '/' then
        let lineRest := (lx.input.drop (lx.pos + 2)).takeWhile (· ≠ '\n')
        getNextToken n { lx with pos := lx.pos + 2 + lineRest.length }
      else if current = '/' ∧ lx.input.get? (lx.pos + 1) = some '*' then
        getNextToken n
          { lx with
            pos := blockCommentEnd lx.input (lx.pos + 2) lx.input.length + 2 }
      else if isdigitChar current then
        let numChars := lexNumberChars lx.input lx.pos
        .ok ({ type := .NUMBER, numberValue := stod numChars },
          { lx with pos := lx.pos + numChars.length })
      else if current = '"' then
        match lexStringLiteral lx with
        | .error e => .error e
        | .ok (s, lx1) =>
          .ok ({ type := .STRING_LITERAL, stringValue := s }, lx1)
      else if isalphaChar current ∨ current = '#' then
        let wordChars := lexIdentChars lx.input lx.pos
        let word := String.mk wordChars
        let lx1 := { lx with pos := lx.pos + wordChars.length }
        if word = "true" then .ok ({ type := .TRUE }, lx1)
        else if word = "false" then .ok ({ type := .FALSE }, lx1)
        else if word = "array" then .ok ({ type := .ARRAY }, lx1)
        else if word = "map" then .ok ({ type := .MAP }, lx1)
        else if word = "class" then .ok ({ type := .CLASS }, lx1)
        else if word = "new" then .ok ({ type := .NEW }, lx1)
        else if word = "func" then .ok ({ type := .FUNC }, lx1)
        else if word = "int" then .ok ({ type := .INT }, lx1)
        else if word = "void" then .ok ({ type := .VOID_TYPE }, lx1)
        else if word = "float" then .ok ({ type := .FLOAT }, lx1)
        else if word = "bool" then .ok ({ type := .BOOL }, lx1)
        else if word = "string" then .ok ({ type := .STRING_TYPE }, lx1)
        else if word = "if" then .ok ({ type := .IF }, lx1)
        else if word = "else" then .ok ({ type := .ELSE }, lx1)
        else if word = "while" then .ok ({ type := .WHILE }, lx1)
        else if word = "for" then .ok ({ type := .FOR }, lx1)
        else if word = "do" then .ok ({ type := .DO }, lx1)
        else if word = "return" then .ok ({ type := .RETURN }, lx1)
        else if word = "#import" then
          let ws := (lx1.input.drop lx1.pos).takeWhile isspaceChar
          let lx2 := { lx1 with pos := lx1.pos + ws.length }
          if lx2.input.get? lx2.pos = some '"' then
            match lexStringLiteral lx2 with
            | .error e => .error e
            | .ok (filePath, lx3) =>
              if filePath ∈ lx3.includedFiles then
                .error ("File '" ++ filePath ++
                  "' has already been imported, preventing circular import.")
              else
                let lx4 :=
                  { lx3 with includedFiles :=
                      lx3.includedFiles ++ [filePath] }
                match alistFind lx4.files filePath with
                | none => .error ("Unable to open file: " ++ filePath)
                | some fileContent =>
                  .ok ({ type := .IMPORT },
                    { lx4 with input :=
                        lx4.input.take lx4.pos ++ fileContent.toList ++
                          lx4.input.drop lx4.pos })
          else .error "Expected a file path after #import"
        else .ok ({ type := .IDENTIFIER, stringValue := word }, lx1)
      else if current = '&' ∧ lx.input.get? (lx.pos + 1) = some '&' then
        .ok ({ type := .AND }, { lx with pos := lx.pos + 2 })
      else if current = '|' ∧ lx.input.get? (lx.pos + 1) = some '|' then
        .ok ({ type := .OR }, { lx with pos := lx.pos + 2 })
      else if current = '=' ∧ lx.input.get? (lx.pos + 1) = some '=' then
        .ok ({ type := .EQUALS }, { lx with pos := lx.pos + 2 })
      else if current = '!' ∧ lx.input.get? (lx.pos + 1) = some '=' then
        .ok ({ type := .NOT_EQUALS }, { lx with pos := lx.pos + 2 })
      else if current = '<' then
        if lx.input.get? (lx.pos + 1) = some '=' then
          .ok ({ type := .LESS_EQUALS }, { lx with pos := lx.pos + 2 })
        else .ok ({ type := .LESS }, { lx with pos := lx.pos + 1 })
      else if current = '>' then
        if lx.input.get? (lx.pos + 1) = some '=' then
          .ok ({ type := .GREATER_EQUALS }, { lx with pos := lx.pos + 2 })
        else .ok ({ type := .GREATER }, { lx with pos := lx.pos + 1 })
      else if current = '+' then
        if lx.input.get? (lx.pos + 1) = some '+' then
          .ok ({ type := .PLUSPLUS }, { lx with pos := lx.pos + 2 })
        else .ok ({ type := .PLUS }, { lx with pos := lx.pos + 1 })
      else if current = '-' then
        if lx.input.get? (lx.pos + 1) = some '-' then
          .ok ({ type := .MINUSMINUS }, { lx with pos := lx.pos + 2 })
        else .ok ({ type := .MINUS }, { lx with pos := lx.pos + 1 })
      else if current = '*' then
        .ok ({ type := .MULTIPLY }, { lx with pos := lx.pos + 1 })
      else if current = '/' then
        .ok ({ type := .DIVIDE }, { lx with pos := lx.pos + 1 })
      else if current = '=' then
        .ok ({ type := .ASSIGN }, { lx with pos := lx.pos + 1 })
      else if current = ':' then
        .ok ({ type := .COLON }, { lx with pos := lx.pos + 1 })
      else if current = '[' then
        .ok ({ type := .LBRACKET }, { lx with pos := lx.pos + 1 })
      else if current = ']' then
        .ok ({ type := .RBRACKET }, { lx with pos := lx.pos + 1 })
      else if current = '.' then
        .ok ({ type := .DOT }, { lx with pos := lx.pos + 1 })
      else if current = '!' then
        .ok ({ type := .NOT }, { lx with pos := lx.pos + 1 })
      else if current = '(' then
        .ok ({ type := .LPAREN },
          { lx with
            pos := lx.pos + 1
            balanceStack := '(' :: lx.balanceStack })
      else if current = ')' then
        match lx.balanceStack with
        | '(' :: rest =>
          .ok ({ type := .RPAREN },
            { lx with pos := lx.pos + 1, balanceStack := rest })
        | _ => .error "Unmatched closing parenthesis"
      else if current = lbraceChar then
        .ok ({ type := .LBRACE },
          { lx with
            pos := lx.pos + 1
            balanceStack := lbraceChar :: lx.balanceStack })
      else if current = rbraceChar then
        match lx.balanceStack with
        | c :: rest =>
          if c = lbraceChar then
            .ok ({ type := .RBRACE },
              { lx with pos := lx.pos + 1, balanceStack := rest })
          else .error "Unmatched closing brace"
        | [] => .error "Unmatched closing brace"
      else if current = ',' then
        .ok ({ type := .COMMA }, { lx with pos := lx.pos + 1 })
      else if current = ';' then
        .ok ({ type := .SEMICOLON }, { lx with pos := lx.pos + 1 })
      else .error "Unexpected character"

/-- One pull from the lexer; the fuel covers the cursor distance to the end
of the input, since every skip-loop pass advances the cursor. -/
def Lexer.nextToken (lx : Lexer) : Except String (Token × Lexer) :=
  getNextToken (lx.input.length - lx.pos + 2) lx

/-- A lexer over a source string, with an import collaborator that has no
files (the claims use no `#import`). -/
def Lexer.fromString (source : String) : Lexer :=
  { input := source.toList
    pos := 0
    balanceStack := []
    includedFiles := []
    files := [] }

/-! ## Parser (Parser.cpp) -/

/-- `Parser::tokenToString` (Parser.cpp).  The NUMBER case uses
`std::to_string(double)` in C++; the exact decimal formatting is not
observable by any claim, so the payload is rendered with `toString`. -/
def tokenToString (token : Token) : String :=
  match token.type with
  | .INT => "INT"
  | .FLOAT => "FLOAT"
  | .BOOL => "BOOL"
  | .STRING_TYPE => "STRING_TYPE"
  | .IDENTIFIER => "IDENTIFIER (" ++ token.stringValue ++ ")"
  | .NUMBER => "NUMBER (" ++ toString token.numberValue ++ ")"
  | .STRING_LITERAL => "STRING_LITERAL (" ++ token.stringValue ++ ")"
  | .FUNC => "FUNC"
  | .RETURN => "RETURN"
  | .IF => "IF"
  | .ELSE => "ELSE"
  | .WHILE => "WHILE"
  | .FOR => "FOR"
  | .DO => "DO"
  | .ASSIGN => "ASSIGN (=)"
  | .LPAREN => "LPAREN (()"
  | .RPAREN => "RPAREN ())"
  | .LBRACE => "LBRACE (\x7b)"
  | .RBRACE => "RBRACE (\x7d)"
  | .RBRACKET => "RBRACE (])"
  | .LBRACKET => "RBRACE ([)"
  | .COLON => "RBRACE (:)"
  | .MAP => "MAP"
  | .ARRAY => "ARRAY"
  | .SEMICOLON => "SEMICOLON (;)"
  | .PLUS => "PLUS (+)"
  | .MINUS => "MINUS (-)"
  | .MULTIPLY => "MULTIPLY (*)"
  | .DIVIDE => "DIVIDE (/)"
  | .AND => "AND (&&)"
  | .OR => "OR (||)"
  | .END => "END (EOF)"
  | .GREATER => "GREATER (>)"
  | .LESS => "LESS (<)"
  | .GREATER_EQUALS => "GREATER EQUALS (>=)"
  | .LESS_EQUALS => "LESS EQUALS (<=)"
  | .IMPORT => "#IMPORT"
  | _ => "UNKNOWN TOKEN"

/-- Parser state: the lexer it pulls from, the environment it registers
user functions into while parsing, the one-token lookahead, and the
consumed-token trace kept by `Parser::eat`. -/
structure Parser where
  lexer : Lexer
  env : Environment
  currentToken : Token
  previousTokens : List Token
  position : Nat

/-- The parser constructor pulls the first token. -/
def mkParser (lexer : Lexer) (env : Environment) : Except String Parser :=
  match lexer.nextToken with
  | .error e => .error e
  | .ok (tok, lx1) =>
    .ok { lexer := lx1, env := env, currentToken := tok,
          previousTokens := [], position := 0 }

/-- `Parser::eat` (Parser.cpp): record and consume the current token when
its kind matches, otherwise fail. -/
def Parser.eat (p : Parser) (type : TokenType) : Except String Parser :=
  if p.currentToken.type = type then
    match p.lexer.nextToken with
    | .error e => .error e
    | .ok (tok, lx1) =>
      .ok { p with
            lexer := lx1
            previousTokens := p.previousTokens ++ [p.currentToken]
            position := p.position + 1
            currentToken := tok }
  else .error "Unexpected token type"

/-- `Parser::parseType` (Parser.cpp); the C++ if-chain on the current
token kind is written as a single match (the tests are disjoint). -/
def parseType (p : Parser) : Except String (ValueType × Parser) :=
  match p.currentToken.type with
  | .INT =>
    match p.eat .INT with
    | .error e => .error e
    | .ok p1 => .ok (.INT, p1)
  | .FLOAT =>
    match p.eat .FLOAT with
    | .error e => .error e
    | .ok p1 => .ok (.FLOAT, p1)
  | .BOOL =>
    match p.eat .BOOL with
    | .error e => .error e
    | .ok p1 => .ok (.BOOL, p1)
  | .STRING_TYPE =>
    match p.eat .STRING_TYPE with
    | .error e => .error e
    | .ok p1 => .ok (.STRING, p1)
  | .VOID_TYPE =>
    match p.eat .VOID_TYPE with
    | .error e => .error e
    | .ok p1 => .ok (.VOID_TYPE, p1)
  | .ARRAY =>
    match p.eat .ARRAY with
    | .error e => .error e
    | .ok p1 => .ok (.ARRAY, p1)
  | .MAP =>
    match p.eat .MAP with
    | .error e => .error e
    | .ok p1 => .ok (.MAP, p1)
  | _ => .error "Expected type declaration"

/-- A null statement pointer (`#import`) stored as a child node. -/
def orNull (node : Option ASTNode) : ASTNode :=
  match node with
  | some nd => nd
  | none => ASTNode.nullNode

mutual

/-- `Parser::parseProgram` (Parser.cpp): statements until END; a null
statement (`#import`) is not pushed. -/
def parseProgram (fuel : Nat) (p : Parser) :
    Except String (ASTNode × Parser) :=
  match fuel with
  | 0 => .error "FUEL"
  | n + 1 => parseProgramLoop n [] p

def parseProgramLoop (fuel : Nat) (statements : List ASTNode) (p : Parser) :
    Except String (ASTNode × Parser) :=
  match fuel with
  | 0 => .error "FUEL"
  | n + 1 =>
    if p.currentToken.type = .END then
      .ok (.ProgramNode statements, p)
    else
      match parseStatement n p with
      | .error e => .error e
      | .ok (node, p1) =>
        match node with
        | some nd => parseProgramLoop n (statements ++ [nd]) p1
        | none => parseProgramLoop n statements p1

/-- `Parser::parseStatement` (Parser.cpp).  Returns `none` exactly where
the C++ function returns `nullptr` (the `#import` branch).  The C++
if-chain on the current token kind is written as a single match (the
tests are disjoint).  Both increment-statement branches create the node
with a conditional whose two arms are the same constant (`POSTFIX` after
an identifier, `PREFIX` before one), so `++` and `--` build the same
increment node kind. -/
def parseStatement (fuel : Nat) (p : Parser) :
    Except String (Option ASTNode × Parser) :=
  match fuel with
  | 0 => .error "FUEL"
  | n + 1 =>
    match p.currentToken.type with
    | .FUNC =>
      match parseFunctionDefinition n p with
      | .error e => .error e
      | .ok (nd, p1) => .ok (some nd, p1)
    | .INT | .FLOAT | .BOOL | .STRING_TYPE | .ARRAY | .MAP =>
      match parseDeclaration n p with
      | .error e => .error e
      | .ok (nd, p1) => .ok (some nd, p1)
    | .IDENTIFIER =>
      let identifier := p.currentToken.stringValue
      match p.eat .IDENTIFIER with
      | .error e => .error e
      | .ok p1 =>
        match p1.currentToken.type with
        | .ASSIGN =>
          match parseAssignment n identifier p1 with
          | .error e => .error e
          | .ok (nd, p2) => .ok (some nd, p2)
        | .LBRACKET =>
          match p1.eat .LBRACKET with
          | .error e => .error e
          | .ok p2 =>
            match parseExpression n p2 with
            | .error e => .error e
            | .ok (indexExpr, p3) =>
              match p3.eat .RBRACKET with
              | .error e => .error e
              | .ok p4 =>
                if p4.currentToken.type = .ASSIGN then
                  match p4.eat .ASSIGN with
                  | .error e => .error e
                  | .ok p5 =>
                    match parseExpression n p5 with
                    | .error e => .error e
                    | .ok (valueExpr, p6) =>
                      match p6.eat .SEMICOLON with
                      | .error e => .error e
                      | .ok p7 =>
                        .ok (some (.AssignmentNode identifier
                          (some indexExpr) valueExpr), p7)
                else
                  -- falls out of the if-chain to the trailing throw
                  .error ("Unexpected token in statement: " ++
                    tokenToString p4.currentToken)
        | .LPAREN =>
          match parseFunctionCall n identifier p1 with
          | .error e => .error e
          | .ok (nd, p2) => .ok (some nd, p2)
        | .PLUSPLUS =>
          match p1.eat .PLUSPLUS with
          | .error e => .error e
          | .ok p2 =>
            match p2.eat .SEMICOLON with
            | .error e => .error e
            | .ok p3 =>
              .ok (some (.IncrementNode .POSTFIX identifier), p3)
        | .MINUSMINUS =>
          match p1.eat .MINUSMINUS with
          | .error e => .error e
          | .ok p2 =>
            match p2.eat .SEMICOLON with
            | .error e => .error e
            | .ok p3 =>
              .ok (some (.IncrementNode .POSTFIX identifier), p3)
        | _ =>
          .error ("Unexpected token after identifier: " ++
            p1.currentToken.stringValue)
    | .PLUSPLUS =>
      match p.eat .PLUSPLUS with
      | .error e => .error e
      | .ok p1 =>
        let identifier := p1.currentToken.stringValue
        match p1.eat .IDENTIFIER with
        | .error e => .error e
        | .ok p2 =>
          match p2.eat .SEMICOLON with
          | .error e => .error e
          | .ok p3 => .ok (some (.IncrementNode .PREFIX identifier), p3)
    | .MINUSMINUS =>
      match p.eat .MINUSMINUS with
      | .error e => .error e
      | .ok p1 =>
        let identifier := p1.currentToken.stringValue
        match p1.eat .IDENTIFIER with
        | .error e => .error e
        | .ok p2 =>
          match p2.eat .SEMICOLON with
          | .error e => .error e
          | .ok p3 => .ok (some (.IncrementNode .PREFIX identifier), p3)
    | .RETURN =>
      match p.eat .RETURN with
      | .error e => .error e
      | .ok p1 =>
        match parseExpression n p1 with
        | .error e => .error e
        | .ok (expr, p2) =>
          match p2.eat .SEMICOLON with
          | .error e => .error e
          | .ok p3 => .ok (some (.ReturnNode expr), p3)
    | .IF =>
      match parseIfStatement n p with
      | .error e => .error e
      | .ok (nd, p1) => .ok (some nd, p1)
    | .WHILE =>
      match parseWhileStatement n p with
      | .error e => .error e
      | .ok (nd, p1) => .ok (some nd, p1)
    | .FOR =>
      match parseForStatement n p with
      | .error e => .error e
      | .ok (nd, p1) => .ok (some nd, p1)
    | .DO =>
      match parseDoWhileStatement n p with
      | .error e => .error e
      | .ok (nd, p1) => .ok (some nd, p1)
    | .LBRACE =>
      match p.eat .LBRACE with
      | .error e => .error e
      | .ok p1 =>
        match parseStatementsUntilRBrace n [] p1 with
        | .error e => .error e
        | .ok (bodyStatements, p2) =>
          match p2.eat .RBRACE with
          | .error e => .error e
          | .ok p3 => .ok (some (.BlockNode bodyStatements), p3)
    | .IMPORT =>
      match p.eat .IMPORT with
      | .error e => .error e
      | .ok p1 => .ok (none, p1)
    | _ =>
      .error ("Unexpected token in statement: " ++
        tokenToString p.currentToken)

/-- The `while (currentToken.type != RBRACE) bodyStatements.push_back(
parseStatement())` loops in for/while/function-definition bodies and in
block statements (a null statement pointer is pushed as such). -/
def parseStatementsUntilRBrace (fuel : Nat) (acc : List ASTNode)
    (p : Parser) : Except String (List ASTNode × Parser) :=
  match fuel with
  | 0 => .error "FUEL"
  | n + 1 =>
    if p.currentToken.type = .RBRACE then .ok (acc, p)
    else
      match parseStatement n p with
      | .error e => .error e
      | .ok (node, p1) =>
        parseStatementsUntilRBrace n (acc ++ [orNull node]) p1

/-- `Parser::parseForStatement` (Parser.cpp); the initializer and update
if-chains on the current token kind are written as matches (the tests
are disjoint). -/
def parseForStatement (fuel : Nat) (p : Parser) :
    Except String (ASTNode × Parser) :=
  match fuel with
  | 0 => .error "FUEL"
  | n + 1 =>
    match p.eat .FOR with
    | .error e => .error e
    | .ok p1 =>
      match p1.eat .LPAREN with
      | .error e => .error e
      | .ok p2 =>
        let initRes : Except String (Option ASTNode × Parser) :=
          match p2.currentToken.type with
          | .INT | .FLOAT | .BOOL | .STRING_TYPE =>
            match parseDeclaration n p2 with
            | .error e => .error e
            | .ok (nd, p3) => .ok (some nd, p3)
          | .IDENTIFIER =>
            let identifier := p2.currentToken.stringValue
            match p2.eat .IDENTIFIER with
            | .error e => .error e
            | .ok p3 =>
              match parseAssignment n identifier p3 with
              | .error e => .error e
              | .ok (nd, p4) => .ok (some nd, p4)
          | _ => .ok (none, p2)
        match initRes with
        | .error e => .error e
        | .ok (initializer, p3) =>
          match parseExpression n p3 with
          | .error e => .error e
          | .ok (condition, p4) =>
            match p4.eat .SEMICOLON with
            | .error e => .error e
            | .ok p5 =>
              let updRes : Except String (Option ASTNode × Parser) :=
                match p5.currentToken.type with
                | .RPAREN => .ok (none, p5)
                | .PLUSPLUS =>
                  match p5.eat .PLUSPLUS with
                  | .error e => .error e
                  | .ok p6 =>
                    let identifier := p6.currentToken.stringValue
                    match p6.eat .IDENTIFIER with
                    | .error e => .error e
                    | .ok p7 =>
                      .ok (some (.IncrementNode .PREFIX identifier), p7)
                | .MINUSMINUS =>
                  match p5.eat .MINUSMINUS with
                  | .error e => .error e
                  | .ok p6 =>
                    let identifier := p6.currentToken.stringValue
                    match p6.eat .IDENTIFIER with
                    | .error e => .error e
                    | .ok p7 =>
                      .ok (some (.IncrementNode .PREFIX identifier), p7)
                | .IDENTIFIER =>
                  let identifier := p5.currentToken.stringValue
                  match p5.eat .IDENTIFIER with
                  | .error e => .error e
                  | .ok p6 =>
                    match p6.currentToken.type with
                    | .PLUSPLUS =>
                      match p6.eat .PLUSPLUS with
                      | .error e => .error e
                      | .ok p7 =>
                        .ok (some (.IncrementNode .POSTFIX identifier), p7)
                    | .MINUSMINUS =>
                      match p6.eat .MINUSMINUS with
                      | .error e => .error e
                      | .ok p7 =>
                        .ok (some (.IncrementNode .POSTFIX identifier), p7)
                    | _ =>
                      match p6.eat .ASSIGN with
                      | .error e => .error e
                      | .ok p7 =>
                        match parseExpression n p7 with
                        | .error e => .error e
                        | .ok (valueExpr, p8) =>
                          .ok (some (.AssignmentNode identifier none
                            valueExpr), p8)
                | _ =>
                  match parseExpression n p5 with
                  | .error e => .error e
                  | .ok (nd, p6) => .ok (some nd, p6)
              match updRes with
              | .error e => .error e
              | .ok (update, p6) =>
                match p6.eat .RPAREN with
                | .error e => .error e
                | .ok p7 =>
                  match p7.eat .LBRACE with
                  | .error e => .error e
                  | .ok p8 =>
                    match parseStatementsUntilRBrace n [] p8 with
                    | .error e => .error e
                    | .ok (bodyStatements, p9) =>
                      match p9.eat .RBRACE with
                      | .error e => .error e
                      | .ok p10 =>
                        .ok (.ForNode initializer condition update
                          (.BlockNode bodyStatements), p10)

/-- `Parser::parseDoWhileStatement` (Parser.cpp). -/
def parseDoWhileStatement (fuel : Nat) (p : Parser) :
    Except String (ASTNode × Parser) :=
  match fuel with
  | 0 => .error "FUEL"
  | n + 1 =>
    match p.eat .DO with
    | .error e => .error e
    | .ok p1 =>
      match parseStatement n p1 with
      | .error e => .error e
      | .ok (body, p2) =>
        match p2.eat .WHILE with
        | .error e => .error e
        | .ok p3 =>
          match p3.eat .LPAREN with
          | .error e => .error e
          | .ok p4 =>
            match parseExpression n p4 with
            | .error e => .error e
            | .ok (condition, p5) =>
              match p5.eat .RPAREN with
              | .error e => .error e
              | .ok p6 =>
                match p6.eat .SEMICOLON with
                | .error e => .error e
                | .ok p7 =>
                  .ok (.DoWhileNode (orNull body) condition, p7)

/-- `Parser::parseFunctionDefinition` (Parser.cpp): parses the signature
and brace-delimited body, builds the `FunctionNode` (the C++ constructor
leaves `parameterClassNames` empty) and registers it into the
environment as a side effect of parsing. -/
def parseFunctionDefinition (fuel : Nat) (p : Parser) :
    Except String (ASTNode × Parser) :=
  match fuel with
  | 0 => .error "FUEL"
  | n + 1 =>
    match p.eat .FUNC with
    | .error e => .error e
    | .ok p1 =>
      match parseType p1 with
      | .error e => .error e
      | .ok (returnType, p2) =>
        let functionName := p2.currentToken.stringValue
        match p2.eat .IDENTIFIER with
        | .error e => .error e
        | .ok p3 =>
          match p3.eat .LPAREN with
          | .error e => .error e
          | .ok p4 =>
            match parseParams n [] p4 with
            | .error e => .error e
            | .ok (parameters, p5) =>
              match p5.eat .RPAREN with
              | .error e => .error e
              | .ok p6 =>
                match p6.eat .LBRACE with
                | .error e => .error e
                | .ok p7 =>
                  match parseStatementsUntilRBrace n [] p7 with
                  | .error e => .error e
                  | .ok (bodyStatements, p8) =>
                    match p8.eat .RBRACE with
                    | .error e => .error e
                    | .ok p9 =>
                      let functionNode : ASTNode :=
                        .FunctionNode functionName returnType parameters
                          [] (.BlockNode bodyStatements)
                      match p9.env.registerUserFunction functionName
                          functionNode with
                      | .error e => .error e
                      | .ok env1 =>
                        .ok (functionNode, { p9 with env := env1 })

/-- The parameter-list loop of `Parser::parseFunctionDefinition`. -/
def parseParams (fuel : Nat) (acc : List (String × ValueType))
    (p : Parser) : Except String (List (String × ValueType) × Parser) :=
  match fuel with
  | 0 => .error "FUEL"
  | n + 1 =>
    if p.currentToken.type = .RPAREN then .ok (acc, p)
    else
      match parseType p with
      | .error e => .error e
      | .ok (paramType, p1) =>
        let paramName := p1.currentToken.stringValue
        match p1.eat .IDENTIFIER with
        | .error e => .error e
        | .ok p2 =>
          let acc1 := acc ++ [(paramName, paramType)]
          if p2.currentToken.type = .COMMA then
            match p2.eat .COMMA with
            | .error e => .error e
            | .ok p3 => parseParams n acc1 p3
          else .ok (acc1, p2)

/-- `Parser::parseWhileStatement` (Parser.cpp). -/
def parseWhileStatement (fuel : Nat) (p : Parser) :
    Except String (ASTNode × Parser) :=
  match fuel with
  | 0 => .error "FUEL"
  | n + 1 =>
    match p.eat .WHILE with
    | .error e => .error e
    | .ok p1 =>
      match p1.eat .LPAREN with
      | .error e => .error e
      | .ok p2 =>
        match parseExpression n p2 with
        | .error e => .error e
        | .ok (condition, p3) =>
          match p3.eat .RPAREN with
          | .error e => .error e
          | .ok p4 =>
            match p4.eat .LBRACE with
            | .error e => .error e
            | .ok p5 =>
              match parseStatementsUntilRBrace n [] p5 with
              | .error e => .error e
              | .ok (bodyStatements, p6) =>
                match p6.eat .RBRACE with
                | .error e => .error e
                | .ok p7 =>
                  .ok (.WhileNode condition (.BlockNode bodyStatements),
                    p7)

/-- `Parser::parseDeclaration` (Parser.cpp): array/map declarations expect
the corresponding literal initialiser; the trailing semicolon is eaten
only if present. -/
def parseDeclaration (fuel : Nat) (p : Parser) :
    Except String (ASTNode × Parser) :=
  match fuel with
  | 0 => .error "FUEL"
  | n + 1 =>
    match parseType p with
    | .error e => .error e
    | .ok (type, p1) =>
      let variableName := p1.currentToken.stringValue
      match p1.eat .IDENTIFIER with
      | .error e => .error e
      | .ok p2 =>
        let initRes : Except String (Option ASTNode × Parser) :=
          if p2.currentToken.type = .ASSIGN then
            match p2.eat .ASSIGN with
            | .error e => .error e
            | .ok p3 =>
              if type = .ARRAY then
                match parseArrayLiteral n p3 with
                | .error e => .error e
                | .ok (nd, p4) => .ok (some nd, p4)
              else if type = .MAP then
                match parseMapLiteral n p3 with
                | .error e => .error e
                | .ok (nd, p4) => .ok (some nd, p4)
              else
                match parseExpression n p3 with
                | .error e => .error e
                | .ok (nd, p4) => .ok (some nd, p4)
          else .ok (none, p2)
        match initRes with
        | .error e => .error e
        | .ok (initializer, p3) =>
          if p3.currentToken.type = .SEMICOLON then
            match p3.eat .SEMICOLON with
            | .error e => .error e
            | .ok p4 =>
              .ok (.DeclarationNode variableName type initializer, p4)
          else .ok (.DeclarationNode variableName type initializer, p3)

/-- `Parser::parseAssignment` (Parser.cpp); the identifier has already
been eaten by the caller. -/
def parseAssignment (fuel : Nat) (identifier : String) (p : Parser) :
    Except String (ASTNode × Parser) :=
  match fuel with
  | 0 => .error "FUEL"
  | n + 1 =>
    match p.eat .ASSIGN with
    | .error e => .error e
    | .ok p1 =>
      match parseExpression n p1 with
      | .error e => .error e
      | .ok (valueExpr, p2) =>
        match p2.eat .SEMICOLON with
        | .error e => .error e
        | .ok p3 => .ok (.AssignmentNode identifier none valueExpr, p3)

/-- `Parser::parseFunctionCall` (Parser.cpp): argument list, closing
parenthesis, and then an unconditional semicolon — even when the call is
being parsed as a sub-expression. -/
def parseFunctionCall (fuel : Nat) (functionName : String) (p : Parser) :
    Except String (ASTNode × Parser) :=
  match fuel with
  | 0 => .error "FUEL"
  | n + 1 =>
    match p.eat .LPAREN with
    | .error e => .error e
    | .ok p1 =>
      let argsRes : Except String (List ASTNode × Parser) :=
        if p1.currentToken.type = .RPAREN then .ok ([], p1)
        else parseCallArgs n [] p1
      match argsRes with
      | .error e => .error e
      | .ok (argumentsList, p2) =>
        match p2.eat .RPAREN with
        | .error e => .error e
        | .ok p3 =>
          match p3.eat .SEMICOLON with
          | .error e => .error e
          | .ok p4 =>
            .ok (.FunctionCallNode functionName argumentsList, p4)

/-- The do-while argument loop of `Parser::parseFunctionCall`. -/
def parseCallArgs (fuel : Nat) (acc : List ASTNode) (p : Parser) :
    Except String (List ASTNode × Parser) :=
  match fuel with
  | 0 => .error "FUEL"
  | n + 1 =>
    match parseExpression n p with
    | .error e => .error e
    | .ok (arg, p1) =>
      let acc1 := acc ++ [arg]
      if p1.currentToken.type = .COMMA then
        match p1.eat .COMMA with
        | .error e => .error e
        | .ok p2 => parseCallArgs n acc1 p2
      else .ok (acc1, p1)

/-- `Parser::parseIfStatement` (Parser.cpp): parses the first
condition/branch, then loops over `else` clauses via
`parseIfElseChain`. -/
def parseIfStatement (fuel : Nat) (p : Parser) :
    Except String (ASTNode × Parser) :=
  match fuel with
  | 0 => .error "FUEL"
  | n + 1 =>
    match p.eat .IF with
    | .error e => .error e
    | .ok p1 =>
      match p1.eat .LPAREN with
      | .error e => .error e
      | .ok p2 =>
        match parseExpression n p2 with
        | .error e => .error e
        | .ok (condition, p3) =>
          match p3.eat .RPAREN with
          | .error e => .error e
          | .ok p4 =>
            match parseStatement n p4 with
            | .error e => .error e
            | .ok (thenBranch, p5) =>
              match parseIfElseChain n none p5 with
              | .error e => .error e
              | .ok (elseBranch, p6) =>
                .ok (.IfNode condition (orNull thenBranch) elseBranch, p6)

/-- The `while (currentToken.type == ELSE)` loop of
`Parser::parseIfStatement`: an `else if` wraps the PREVIOUS accumulated
else-branch inside the new `IfNode`'s else slot
(`elseBranch = new IfNode(cond, branch, elseBranch)`), and a plain
`else` OVERWRITES the accumulated else-branch with the plain-else
statement and stops the loop. -/
def parseIfElseChain (fuel : Nat) (elseBranch : Option ASTNode)
    (p : Parser) : Except String (Option ASTNode × Parser) :=
  match fuel with
  | 0 => .error "FUEL"
  | n + 1 =>
    if p.currentToken.type = .ELSE then
      match p.eat .ELSE with
      | .error e => .error e
      | .ok p1 =>
        if p1.currentToken.type = .IF then
          match p1.eat .IF with
          | .error e => .error e
          | .ok p2 =>
            match p2.eat .LPAREN with
            | .error e => .error e
            | .ok p3 =>
              match parseExpression n p3 with
              | .error e => .error e
              | .ok (elseIfCondition, p4) =>
                match p4.eat .RPAREN with
                | .error e => .error e
                | .ok p5 =>
                  match parseStatement n p5 with
                  | .error e => .error e
                  | .ok (elseIfBranch, p6) =>
                    parseIfElseChain n
                      (some (.IfNode elseIfCondition (orNull elseIfBranch)
                        elseBranch)) p6
        else
          match parseStatement n p1 with
          | .error e => .error e
          | .ok (plainElse, p2) => .ok (plainElse, p2)
    else .ok (elseBranch, p)

/-- `Parser::parseExpression` is `parseLogicalOr` (precedence climbing,
Parser.cpp). -/
def parseExpression (fuel : Nat) (p : Parser) :
    Except String (ASTNode × Parser) :=
  match fuel with
  | 0 => .error "FUEL"
  | n + 1 => parseLogicalOr n p

def parseLogicalOr (fuel : Nat) (p : Parser) :
    Except String (ASTNode × Parser) :=
  match fuel with
  | 0 => .error "FUEL"
  | n + 1 =>
    match parseLogicalAnd n p with
    | .error e => .error e
    | .ok (left, p1) => parseLogicalOrLoop n left p1

def parseLogicalOrLoop (fuel : Nat) (left : ASTNode) (p : Parser) :
    Except String (ASTNode × Parser) :=
  match fuel with
  | 0 => .error "FUEL"
  | n + 1 =>
    if p.currentToken.type = .OR then
      match p.eat .OR with
      | .error e => .error e
      | .ok p1 =>
        match parseLogicalAnd n p1 with
        | .error e => .error e
        | .ok (right, p2) =>
          parseLogicalOrLoop n (.BinaryOpNode .OR left right) p2
    else .ok (left, p)

def parseLogicalAnd (fuel : Nat) (p : Parser) :
    Except String (ASTNode × Parser) :=
  match fuel with
  | 0 => .error "FUEL"
  | n + 1 =>
    match parseEquality n p with
    | .error e => .error e
    | .ok (left, p1) => parseLogicalAndLoop n left p1

def parseLogicalAndLoop (fuel : Nat) (left : ASTNode) (p : Parser) :
    Except String (ASTNode × Parser) :=
  match fuel with
  | 0 => .error "FUEL"
  | n + 1 =>
    if p.currentToken.type = .AND then
      match p.eat .AND with
      | .error e => .error e
      | .ok p1 =>
        match parseEquality n p1 with
        | .error e => .error e
        | .ok (right, p2) =>
          parseLogicalAndLoop n (.BinaryOpNode .AND left right) p2
    else .ok (left, p)

def parseEquality (fuel : Nat) (p : Parser) :
    Except String (ASTNode × Parser) :=
  match fuel with
  | 0 => .error "FUEL"
  | n + 1 =>
    match parseComparison n p with
    | .error e => .error e
    | .ok (left, p1) => parseEqualityLoop n left p1

def parseEqualityLoop (fuel : Nat) (left : ASTNode) (p : Parser) :
    Except String (ASTNode × Parser) :=
  match fuel with
  | 0 => .error "FUEL"
  | n + 1 =>
    if p.currentToken.type = .EQUALS ∨
        p.currentToken.type = .NOT_EQUALS then
      let op := p.currentToken.type
      match p.eat op with
      | .error e => .error e
      | .ok p1 =>
        match parseComparison n p1 with
        | .error e => .error e
        | .ok (right, p2) =>
          parseEqualityLoop n (.BinaryOpNode op left right) p2
    else .ok (left, p)

def parseComparison (fuel : Nat) (p : Parser) :
    Except String (ASTNode × Parser) :=
  match fuel with
  | 0 => .error "FUEL"
  | n + 1 =>
    match parseTerm n p with
    | .error e => .error e
    | .ok (left, p1) => parseComparisonLoop n left p1

def parseComparisonLoop (fuel : Nat) (left : ASTNode) (p : Parser) :
    Except String (ASTNode × Parser) :=
  match fuel with
  | 0 => .error "FUEL"
  | n + 1 =>
    if p.currentToken.type = .LESS ∨
        p.currentToken.type = .LESS_EQUALS ∨
        p.currentToken.type = .GREATER ∨
        p.currentToken.type = .GREATER_EQUALS then
      let op := p.currentToken.type
      match p.eat op with
      | .error e => .error e
      | .ok p1 =>
        match parseTerm n p1 with
        | .error e => .error e
        | .ok (right, p2) =>
          parseComparisonLoop n (.BinaryOpNode op left right) p2
    else .ok (left, p)

def parseTerm (fuel : Nat) (p : Parser) :
    Except String (ASTNode × Parser) :=
  match fuel with
  | 0 => .error "FUEL"
  | n + 1 =>
    match parseFactor n p with
    | .error e => .error e
    | .ok (left, p1) => parseTermLoop n left p1

def parseTermLoop (fuel : Nat) (left : ASTNode) (p : Parser) :
    Except String (ASTNode × Parser) :=
  match fuel with
  | 0 => .error "FUEL"
  | n + 1 =>
    if p.currentToken.type = .PLUS ∨ p.currentToken.type = .MINUS then
      let op := p.currentToken.type
      match p.eat op with
      | .error e => .error e
      | .ok p1 =>
        match parseFactor n p1 with
        | .error e => .error e
        | .ok (right, p2) =>
          parseTermLoop n (.BinaryOpNode op left right) p2
    else .ok (left, p)

def parseFactor (fuel : Nat) (p : Parser) :
    Except String (ASTNode × Parser) :=
  match fuel with
  | 0 => .error "FUEL"
  | n + 1 =>
    match parseUnary n p with
    | .error e => .error e
    | .ok (left, p1) => parseFactorLoop n left p1

def parseFactorLoop (fuel : Nat) (left : ASTNode) (p : Parser) :
    Except String (ASTNode × Parser) :=
  match fuel with
  | 0 => .error "FUEL"
  | n + 1 =>
    if p.currentToken.type = .MULTIPLY ∨
        p.currentToken.type = .DIVIDE then
      let op := p.currentToken.type
      match p.eat op with
      | .error e => .error e
      | .ok p1 =>
        match parseUnary n p1 with
        | .error e => .error e
        | .ok (right, p2) =>
          parseFactorLoop n (.BinaryOpNode op left right) p2
    else .ok (left, p)

def parseUnary (fuel : Nat) (p : Parser) :
    Except String (ASTNode × Parser) :=
  match fuel with
  | 0 => .error "FUEL"
  | n + 1 =>
    if p.currentToken.type = .MINUS ∨ p.currentToken.type = .NOT then
      let op := p.currentToken.type
      match p.eat op with
      | .error e => .error e
      | .ok p1 =>
        match parseUnary n p1 with
        | .error e => .error e
        | .ok (operand, p2) => .ok (.UnaryOpNode op operand, p2)
    else parsePrimary n p

/-- `Parser::parsePrimary` (Parser.cpp).  Note the indexing branch eats a
SEMICOLON right after the closing bracket, and an identifier followed by
`(` goes through `parseFunctionCall` (which also demands a
semicolon). -/
def parsePrimary (fuel : Nat) (p : Parser) :
    Except String (ASTNode × Parser) :=
  match fuel with
  | 0 => .error "FUEL"
  | n + 1 =>
    match p.currentToken.type with
    | .NUMBER =>
      let value := p.currentToken.numberValue
      match p.eat .NUMBER with
      | .error e => .error e
      | .ok p1 => .ok (.NumberNode value, p1)
    | .STRING_LITERAL =>
      let value := p.currentToken.stringValue
      match p.eat .STRING_LITERAL with
      | .error e => .error e
      | .ok p1 => .ok (.StringNode value, p1)
    | .IDENTIFIER =>
      let name := p.currentToken.stringValue
      match p.eat .IDENTIFIER with
      | .error e => .error e
      | .ok p1 =>
        if p1.currentToken.type = .LBRACKET then
          match p1.eat .LBRACKET with
          | .error e => .error e
          | .ok p2 =>
            match parseExpression n p2 with
            | .error e => .error e
            | .ok (index, p3) =>
              match p3.eat .RBRACKET with
              | .error e => .error e
              | .ok p4 =>
                match p4.eat .SEMICOLON with
                | .error e => .error e
                | .ok p5 => .ok (.IndexNode name index, p5)
        else if p1.currentToken.type = .LPAREN then
          parseFunctionCall n name p1
        else .ok (.VariableNode name, p1)
    | .LPAREN =>
      match p.eat .LPAREN with
      | .error e => .error e
      | .ok p1 =>
        match parseExpression n p1 with
        | .error e => .error e
        | .ok (expr, p2) =>
          match p2.eat .RPAREN with
          | .error e => .error e
          | .ok p3 => .ok (expr, p3)
    | .TRUE =>
      match p.eat .TRUE with
      | .error e => .error e
      | .ok p1 => .ok (.BooleanNode true, p1)
    | .FALSE =>
      match p.eat .FALSE with
      | .error e => .error e
      | .ok p1 => .ok (.BooleanNode false, p1)
    | .LBRACE => parseMapLiteral n p
    | .LBRACKET => parseArrayLiteral n p
    | _ => .error "Unexpected token in primary"

/-- `Parser::parseMapLiteral` (Parser.cpp). -/
def parseMapLiteral (fuel : Nat) (p : Parser) :
    Except String (ASTNode × Parser) :=
  match fuel with
  | 0 => .error "FUEL"
  | n + 1 =>
    match p.eat .LBRACE with
    | .error e => .error e
    | .ok p1 =>
      match parseMapElems n [] p1 with
      | .error e => .error e
      | .ok (elements, p2) =>
        match p2.eat .RBRACE with
        | .error e => .error e
        | .ok p3 => .ok (.MapNode elements, p3)

/-- The key-value loop of `Parser::parseMapLiteral`: each key expression
must turn out to be a string literal node. -/
def parseMapElems (fuel : Nat) (acc : List (String × ASTNode))
    (p : Parser) : Except String (List (String × ASTNode) × Parser) :=
  match fuel with
  | 0 => .error "FUEL"
  | n + 1 =>
    if p.currentToken.type = .RBRACE then .ok (acc, p)
    else
      match parseExpression n p with
      | .error e => .error e
      | .ok (keyNode, p1) =>
        match keyNode with
        | .StringNode key =>
          match p1.eat .COLON with
          | .error e => .error e
          | .ok p2 =>
            match parseExpression n p2 with
            | .error e => .error e
            | .ok (valueNode, p3) =>
              let acc1 := alistInsert acc key valueNode
              if p3.currentToken.type = .COMMA then
                match p3.eat .COMMA with
                | .error e => .error e
                | .ok p4 => parseMapElems n acc1 p4
              else .ok (acc1, p3)
        | _ => .error "Map keys must be strings."

/-- `Parser::parseArrayLiteral` (Parser.cpp). -/
def parseArrayLiteral (fuel : Nat) (p : Parser) :
    Except String (ASTNode × Parser) :=
  match fuel with
  | 0 => .error "FUEL"
  | n + 1 =>
    match p.eat .LBRACKET with
    | .error e => .error e
    | .ok p1 =>
      match parseArrayElems n [] p1 with
      | .error e => .error e
      | .ok (elements, p2) =>
        match p2.eat .RBRACKET with
        | .error e => .error e
        | .ok p3 => .ok (.ArrayNode elements, p3)

/-- The element loop of `Parser::parseArrayLiteral`. -/
def parseArrayElems (fuel : Nat) (acc : List ASTNode) (p : Parser) :
    Except String (List ASTNode × Parser) :=
  match fuel with
  | 0 => .error "FUEL"
  | n + 1 =>
    if p.currentToken.type = .RBRACKET then .ok (acc, p)
    else
      match parseExpression n p with
      | .error e => .error e
      | .ok (element, p1) =>
        let acc1 := acc ++ [element]
        if p1.currentToken.type = .COMMA then
          match p1.eat .COMMA with
          | .error e => .error e
          | .ok p2 => parseArrayElems n acc1 p2
        else .ok (acc1, p1)

end

/-! ## Host wiring (Source.cpp harness pattern) -/

/-- Host invocation: build a `Lexer` over the source text and a `Parser`
over it (the constructor pulls the first token), then `parser.parse()`. -/
def parseSource (fuel : Nat) (source : String) (env : Environment) :
    Except String (ASTNode × Parser) :=
  match mkParser (Lexer.fromString source) env with
  | .error e => .error e
  | .ok p => parseProgram fuel p

/-- Host invocation: parse, then `root->evaluate(env)` against the
environment the parser used (the parser registers user functions into it
while parsing).  On a parse error the host never reaches evaluation; the
environment component is then the caller's original environment. -/
def runSource (fuel : Nat) (source : String) (env : Environment) :
    (Except String Value) × Environment :=
  match parseSource fuel source env with
  | .error e => (.error e, env)
  | .ok (root, p) => evaluate fuel root p.env

/-- Whole-input tokenization, to state that lexing an input succeeds
independently of parsing. -/
def lexAll (fuel : Nat) (lx : Lexer) : Except String (List Token) :=
  match fuel with
  | 0 => .error "FUEL"
  | n + 1 =>
    match lx.nextToken with
    | .error e => .error e
    | .ok (tok, lx1) =>
      if tok.type = .END then .ok [tok]
      else
        match lexAll n lx1 with
        | .error e => .error e
        | .ok toks => .ok (tok :: toks)

/-- The root the parser produces for a source text over a fresh
environment (`nullNode` on a parse error, so concrete parse results can be
stated as plain equations). -/
def parsedRoot (fuel : Nat) (source : String) : ASTNode :=
  match parseSource fuel source Environment.init with
  | .ok (root, _) => root
  | .error _ => .nullNode

/-- `env.registerFunction("print", print)` on a fresh environment, as in
the host harness. -/
def envWithPrint : Environment :=
  match Environment.init.registerFunction "print" with
  | .ok env => env
  | .error _ => Environment.init

/-- The end-to-end factorial scenario of spec §8 (claim C4). -/
def factProgram : String :=
  "func int fact(int n)\x7b int r=1; for(int i=1;i<=n;i=i+1)\x7b r=r*i; \x7d return r; \x7d print(fact(5));"

/-- Chained `if` / `else if` / `else` source (claim C3). -/
def elseIfSource : String :=
  "if (true) \x7b x = 1; \x7d else if (false) \x7b x = 2; \x7d else \x7b x = 3; \x7d"

/-- Chained `if` with two `else if` clauses and no final `else`
(claim C3). -/
def elseIfNoFinalSource : String :=
  "if (true) \x7b x = 1; \x7d else if (false) \x7b x = 2; \x7d else if (true) \x7b x = 3; \x7d"

/-- The environment after evaluating `int i = 5;` on a fresh
environment (claims C7/C10). -/
def envAfterIntDecl : Environment :=
  (evaluate 10 (.DeclarationNode "i" .INT (some (.NumberNode 5)))
    Environment.init).2

/-- A registered user function `f` whose body reads the undefined variable
`y` and therefore throws (claim C5). -/
def envWithThrowingFn : Environment :=
  { Environment.init with userFunctionRegistry :=
      [("f", .FunctionNode "f" .INT [] [] (.BlockNode [.VariableNode "y"]))] }

/-- The environment recorded after the native `print` is invoked once with
no arguments (claim C5 witness). -/
def envPrintLogged : Environment :=
  { envWithPrint with nativeLog := [("print", [])] }

/-! ## Concrete parser states

Intermediate `Parser` states reached while parsing the claim programs,
written out explicitly so that each parsing step is a small closed
computation (states were obtained by running the embedded parser).
States `c3q*` belong to `elseIfSource`; states `c4r*`/`c4f*` belong to
`factProgram`. -/

def c3q0 : Parser := { lexer := { input := elseIfSource.toList, pos := 2, balanceStack := [], includedFiles := [], files := [] }, env := Environment.init, currentToken := { type := TokenType.IF, numberValue := 0, stringValue := "" }, previousTokens := [], position := 0 }

def c3q1 : Parser := { lexer := { input := elseIfSource.toList, pos := 4, balanceStack := ['('], includedFiles := [], files := [] }, env := Environment.init, currentToken := { type := TokenType.LPAREN, numberValue := 0, stringValue := "" }, previousTokens := [{ type := TokenType.IF, numberValue := 0, stringValue := "" }], position := 1 }

def c3q2 : Parser := { lexer := { input := elseIfSource.toList, pos := 8, balanceStack := ['('], includedFiles := [], files := [] }, env := Environment.init, currentToken := { type := TokenType.TRUE, numberValue := 0, stringValue := "" }, previousTokens := [{ type := TokenType.IF, numberValue := 0, stringValue := "" }, { type := TokenType.LPAREN, numberValue := 0, stringValue := "" }], position := 2 }

def c3q3 : Parser := { lexer := { input := elseIfSource.toList, pos := 9, balanceStack := [], includedFiles := [], files := [] }, env := Environment.init, currentToken := { type := TokenType.RPAREN, numberValue := 0, stringValue := "" }, previousTokens := [{ type := TokenType.IF, numberValue := 0, stringValue := "" }, { type := TokenType.LPAREN, numberValue := 0, stringValue := "" }, { type := TokenType.TRUE, numberValue := 0, stringValue := "" }], position := 3 }

def c3q4 : Parser := { lexer := { input := elseIfSource.toList, pos := 11, balanceStack := ['{'], includedFiles := [], files := [] }, env := Environment.init, currentToken := { type := TokenType.LBRACE, numberValue := 0, stringValue := "" }, previousTokens := [{ type := TokenType.IF, numberValue := 0, stringValue := "" }, { type := TokenType.LPAREN, numberValue := 0, stringValue := "" }, { type := TokenType.TRUE, numberValue := 0, stringValue := "" }, { type := TokenType.RPAREN, numberValue := 0, stringValue := "" }], position := 4 }

def c3q5 : Parser := { lexer := { input := elseIfSource.toList, pos := 25, balanceStack := [], includedFiles := [], files := [] }, env := Environment.init, currentToken := { type := TokenType.ELSE, numberValue := 0, stringValue := "" }, previousTokens := [{ type := TokenType.IF, numberValue := 0, stringValue := "" }, { type := TokenType.LPAREN, numberValue := 0, stringValue := "" }, { type := TokenType.TRUE, numberValue := 0, stringValue := "" }, { type := TokenType.RPAREN, numberValue := 0, stringValue := "" }, { type := TokenType.LBRACE, numberValue := 0, stringValue := "" }, { type := TokenType.IDENTIFIER, numberValue := 0, stringValue := "x" }, { type := TokenType.ASSIGN, numberValue := 0, stringValue := "" }, { type := TokenType.NUMBER, numberValue := 1, stringValue := "" }, { type := TokenType.SEMICOLON, numberValue := 0, stringValue := "" }, { type := TokenType.RBRACE, numberValue := 0, stringValue := "" }], position := 10 }

def c3q6 : Parser := { lexer := { input := elseIfSource.toList, pos := 28, balanceStack := [], includedFiles := [], files := [] }, env := Environment.init, currentToken := { type := TokenType.IF, numberValue := 0, stringValue := "" }, previousTokens := [{ type := TokenType.IF, numberValue := 0, stringValue := "" }, { type := TokenType.LPAREN, numberValue := 0, stringValue := "" }, { type := TokenType.TRUE, numberValue := 0, stringValue := "" }, { type := TokenType.RPAREN, numberValue := 0, stringValue := "" }, { type := TokenType.LBRACE, numberValue := 0, stringValue := "" }, { type := TokenType.IDENTIFIER, numberValue := 0, stringValue := "x" }, { type := TokenType.ASSIGN, numberValue := 0, stringValue := "" }, { type := TokenType.NUMBER, numberValue := 1, stringValue := "" }, { type := TokenType.SEMICOLON, numberValue := 0, stringValue := "" }, { type := TokenType.RBRACE, numberValue := 0, stringValue := "" }, { type := TokenType.ELSE, numberValue := 0, stringValue := "" }], position := 11 }

def c3q7 : Parser := { lexer := { input := elseIfSource.toList, pos := 30, balanceStack := ['('], includedFiles := [], files := [] }, env := Environment.init, currentToken := { type := TokenType.LPAREN, numberValue := 0, stringValue := "" }, previousTokens := [{ type := TokenType.IF, numberValue := 0, stringValue := "" }, { type := TokenType.LPAREN, numberValue := 0, stringValue := "" }, { type := TokenType.TRUE, numberValue := 0, stringValue := "" }, { type := TokenType.RPAREN, numberValue := 0, stringValue := "" }, { type := TokenType.LBRACE, numberValue := 0, stringValue := "" }, { type := TokenType.IDENTIFIER, numberValue := 0, stringValue := "x" }, { type := TokenType.ASSIGN, numberValue := 0, stringValue := "" }, { type := TokenType.NUMBER, numberValue := 1, stringValue := "" }, { type := TokenType.SEMICOLON, numberValue := 0, stringValue := "" }, { type := TokenType.RBRACE, numberValue := 0, stringValue := "" }, { type := TokenType.ELSE, numberValue := 0, stringValue := "" }, { type := TokenType.IF, numberValue := 0, stringValue := "" }], position := 12 }

def c3q8 : Parser := { lexer := { input := elseIfSource.toList, pos := 35, balanceStack := ['('], includedFiles := [], files := [] }, env := Environment.init, currentToken := { type := TokenType.FALSE, numberValue := 0, stringValue := "" }, previousTokens := [{ type := TokenType.IF, numberValue := 0, stringValue := "" }, { type := TokenType.LPAREN, numberValue := 0, stringValue := "" }, { type := TokenType.TRUE, numberValue := 0, stringValue := "" }, { type := TokenType.RPAREN, numberValue := 0, stringValue := "" }, { type := TokenType.LBRACE, numberValue := 0, stringValue := "" }, { type := TokenType.IDENTIFIER, numberValue := 0, stringValue := "x" }, { type := TokenType.ASSIGN, numberValue := 0, stringValue := "" }, { type := TokenType.NUMBER, numberValue := 1, stringValue := "" }, { type := TokenType.SEMICOLON, numberValue := 0, stringValue := "" }, { type := TokenType.RBRACE, numberValue := 0, stringValue := "" }, { type := TokenType.ELSE, numberValue := 0, stringValue := "" }, { type := TokenType.IF, numberValue := 0, stringValue := "" }, { type := TokenType.LPAREN, numberValue := 0, stringValue := "" }], position := 13 }

def c3q9 : Parser := { lexer := { input := elseIfSource.toList, pos := 36, balanceStack := [], includedFiles := [], files := [] }, env := Environment.init, currentToken := { type := TokenType.RPAREN, numberValue := 0, stringValue := "" }, previousTokens := [{ type := TokenType.IF, numberValue := 0, stringValue := "" }, { type := TokenType.LPAREN, numberValue := 0, stringValue := "" }, { type := TokenType.TRUE, numberValue := 0, stringValue := "" }, { type := TokenType.RPAREN, numberValue := 0, stringValue := "" }, { type := TokenType.LBRACE, numberValue := 0, stringValue := "" }, { type := TokenType.IDENTIFIER, numberValue := 0, stringValue := "x" }, { type := TokenType.ASSIGN, numberValue := 0, stringValue := "" }, { type := TokenType.NUMBER, numberValue := 1, stringValue := "" }, { type := TokenType.SEMICOLON, numberValue := 0, stringValue := "" }, { type := TokenType.RBRACE, numberValue := 0, stringValue := "" }, { type := TokenType.ELSE, numberValue := 0, stringValue := "" }, { type := TokenType.IF, numberValue := 0, stringValue := "" }, { type := TokenType.LPAREN, numberValue := 0, stringValue := "" }, { type := TokenType.FALSE, numberValue := 0, stringValue := "" }], position := 14 }

def c3q10 : Parser := { lexer := { input := elseIfSource.toList, pos := 38, balanceStack := ['{'], includedFiles := [], files := [] }, env := Environment.init, currentToken := { type := TokenType.LBRACE, numberValue := 0, stringValue := "" }, previousTokens := [{ type := TokenType.IF, numberValue := 0, stringValue := "" }, { type := TokenType.LPAREN, numberValue := 0, stringValue := "" }, { type := TokenType.TRUE, numberValue := 0, stringValue := "" }, { type := TokenType.RPAREN, numberValue := 0, stringValue := "" }, { type := TokenType.LBRACE, numberValue := 0, stringValue := "" }, { type := TokenType.IDENTIFIER, numberValue := 0, stringValue := "x" }, { type := TokenType.ASSIGN, numberValue := 0, stringValue := "" }, { type := TokenType.NUMBER, numberValue := 1, stringValue := "" }, { type := TokenType.SEMICOLON, numberValue := 0, stringValue := "" }, { type := TokenType.RBRACE, numberValue := 0, stringValue := "" }, { type := TokenType.ELSE, numberValue := 0, stringValue := "" }, { type := TokenType.IF, numberValue := 0, stringValue := "" }, { type := TokenType.LPAREN, numberValue := 0, stringValue := "" }, { type := TokenType.FALSE, numberValue := 0, stringValue := "" }, { type := TokenType.RPAREN, numberValue := 0, stringValue := "" }], position := 15 }

def c3q11 : Parser := { lexer := { input := elseIfSource.toList, pos := 52, balanceStack := [], includedFiles := [], files := [] }, env := Environment.init, currentToken := { type := TokenType.ELSE, numberValue := 0, stringValue := "" }, previousTokens := [{ type := TokenType.IF, numberValue := 0, stringValue := "" }, { type := TokenType.LPAREN, numberValue := 0, stringValue := "" }, { type := TokenType.TRUE, numberValue := 0, stringValue := "" }, { type := TokenType.RPAREN, numberValue := 0, stringValue := "" }, { type := TokenType.LBRACE, numberValue := 0, stringValue := "" }, { type := TokenType.IDENTIFIER, numberValue := 0, stringValue := "x" }, { type := TokenType.ASSIGN, numberValue := 0, stringValue := "" }, { type := TokenType.NUMBER, numberValue := 1, stringValue := "" }, { type := TokenType.SEMICOLON, numberValue := 0, stringValue := "" }, { type := TokenType.RBRACE, numberValue := 0, stringValue := "" }, { type := TokenType.ELSE, numberValue := 0, stringValue := "" }, { type := TokenType.IF, numberValue := 0, stringValue := "" }, { type := TokenType.LPAREN, numberValue := 0, stringValue := "" }, { type := TokenType.FALSE, numberValue := 0, stringValue := "" }, { type := TokenType.RPAREN, numberValue := 0, stringValue := "" }, { type := TokenType.LBRACE, numberValue := 0, stringValue := "" }, { type := TokenType.IDENTIFIER, numberValue := 0, stringValue := "x" }, { type := TokenType.ASSIGN, numberValue := 0, stringValue := "" }, { type := TokenType.NUMBER, numberValue := 2, stringValue := "" }, { type := TokenType.SEMICOLON, numberValue := 0, stringValue := "" }, { type := TokenType.RBRACE, numberValue := 0, stringValue := "" }], position := 21 }

def c3q12 : Parser := { lexer := { input := elseIfSource.toList, pos := 54, balanceStack := ['{'], includedFiles := [], files := [] }, env := Environment.init, currentToken := { type := TokenType.LBRACE, numberValue := 0, stringValue := "" }, previousTokens := [{ type := TokenType.IF, numberValue := 0, stringValue := "" }, { type := TokenType.LPAREN, numberValue := 0, stringValue := "" }, { type := TokenType.TRUE, numberValue := 0, stringValue := "" }, { type := TokenType.RPAREN, numberValue := 0, stringValue := "" }, { type := TokenType.LBRACE, numberValue := 0, stringValue := "" }, { type := TokenType.IDENTIFIER, numberValue := 0, stringValue := "x" }, { type := TokenType.ASSIGN, numberValue := 0, stringValue := "" }, { type := TokenType.NUMBER, numberValue := 1, stringValue := "" }, { type := TokenType.SEMICOLON, numberValue := 0, stringValue := "" }, { type := TokenType.RBRACE, numberValue := 0, stringValue := "" }, { type := TokenType.ELSE, numberValue := 0, stringValue := "" }, { type := TokenType.IF, numberValue := 0, stringValue := "" }, { type := TokenType.LPAREN, numberValue := 0, stringValue := "" }, { type := TokenType.FALSE, numberValue := 0, stringValue := "" }, { type := TokenType.RPAREN, numberValue := 0, stringValue := "" }, { type := TokenType.LBRACE, numberValue := 0, stringValue := "" }, { type := TokenType.IDENTIFIER, numberValue := 0, stringValue := "x" }, { type := TokenType.ASSIGN, numberValue := 0, stringValue := "" }, { type := TokenType.NUMBER, numberValue := 2, stringValue := "" }, { type := TokenType.SEMICOLON, numberValue := 0, stringValue := "" }, { type := TokenType.RBRACE, numberValue := 0, stringValue := "" }, { type := TokenType.ELSE, numberValue := 0, stringValue := "" }], position := 22 }

def c3q13 : Parser := { lexer := { input := elseIfSource.toList, pos := 63, balanceStack := [], includedFiles := [], files := [] }, env := Environment.init, currentToken := { type := TokenType.END, numberValue := 0, stringValue := "" }, previousTokens := [{ type := TokenType.IF, numberValue := 0, stringValue := "" }, { type := TokenType.LPAREN, numberValue := 0, stringValue := "" }, { type := TokenType.TRUE, numberValue := 0, stringValue := "" }, { type := TokenType.RPAREN, numberValue := 0, stringValue := "" }, { type := TokenType.LBRACE, numberValue := 0, stringValue := "" }, { type := TokenType.IDENTIFIER, numberValue := 0, stringValue := "x" }, { type := TokenType.ASSIGN, numberValue := 0, stringValue := "" }, { type := TokenType.NUMBER, numberValue := 1, stringValue := "" }, { type := TokenType.SEMICOLON, numberValue := 0, stringValue := "" }, { type := TokenType.RBRACE, numberValue := 0, stringValue := "" }, { type := TokenType.ELSE, numberValue := 0, stringValue := "" }, { type := TokenType.IF, numberValue := 0, stringValue := "" }, { type := TokenType.LPAREN, numberValue := 0, stringValue := "" }, { type := TokenType.FALSE, numberValue := 0, stringValue := "" }, { type := TokenType.RPAREN, numberValue := 0, stringValue := "" }, { type := TokenType.LBRACE, numberValue := 0, stringValue := "" }, { type := TokenType.IDENTIFIER, numberValue := 0, stringValue := "x" }, { type := TokenType.ASSIGN, numberValue := 0, stringValue := "" }, { type := TokenType.NUMBER, numberValue := 2, stringValue := "" }, { type := TokenType.SEMICOLON, numberValue := 0, stringValue := "" }, { type := TokenType.RBRACE, numberValue := 0, stringValue := "" }, { type := TokenType.ELSE, numberValue := 0, stringValue := "" }, { type := TokenType.LBRACE, numberValue := 0, stringValue := "" }, { type := TokenType.IDENTIFIER, numberValue := 0, stringValue := "x" }, { type := TokenType.ASSIGN, numberValue := 0, stringValue := "" }, { type := TokenType.NUMBER, numberValue := 3, stringValue := "" }, { type := TokenType.SEMICOLON, numberValue := 0, stringValue := "" }, { type := TokenType.RBRACE, numberValue := 0, stringValue := "" }], position := 28 }

def c4r0 : Parser := { lexer := { input := factProgram.toList, pos := 4, balanceStack := [], includedFiles := [], files := [] }, env := envWithPrint, currentToken := { type := TokenType.FUNC, numberValue := 0, stringValue := "" }, previousTokens := [], position := 0 }

def c4r1 : Parser := { lexer := { input := factProgram.toList, pos := 8, balanceStack := [], includedFiles := [], files := [] }, env := envWithPrint, currentToken := { type := TokenType.INT, numberValue := 0, stringValue := "" }, previousTokens := [{ type := TokenType.FUNC, numberValue := 0, stringValue := "" }], position := 1 }

def c4r2 : Parser := { lexer := { input := factProgram.toList, pos := 13, balanceStack := [], includedFiles := [], files := [] }, env := envWithPrint, currentToken := { type := TokenType.IDENTIFIER, numberValue := 0, stringValue := "fact" }, previousTokens := [{ type := TokenType.FUNC, numberValue := 0, stringValue := "" }, { type := TokenType.INT, numberValue := 0, stringValue := "" }], position := 2 }

def c4r3 : Parser := { lexer := { input := factProgram.toList, pos := 14, balanceStack := ['('], includedFiles := [], files := [] }, env := envWithPrint, currentToken := { type := TokenType.LPAREN, numberValue := 0, stringValue := "" }, previousTokens := [{ type := TokenType.FUNC, numberValue := 0, stringValue := "" }, { type := TokenType.INT, numberValue := 0, stringValue := "" }, { type := TokenType.IDENTIFIER, numberValue := 0, stringValue := "fact" }], position := 3 }

def c4r4 : Parser := { lexer := { input := factProgram.toList, pos := 17, balanceStack := ['('], includedFiles := [], files := [] }, env := envWithPrint, currentToken := { type := TokenType.INT, numberValue := 0, stringValue := "" }, previousTokens := [{ type := TokenType.FUNC, numberValue := 0, stringValue := "" }, { type := TokenType.INT, numberValue := 0, stringValue := "" }, { type := TokenType.IDENTIFIER, numberValue := 0, stringValue := "fact" }, { type := TokenType.LPAREN, numberValue := 0, stringValue := "" }], position := 4 }

def c4r5 : Parser := { lexer := { input := factProgram.toList, pos := 20, balanceStack := [], includedFiles := [], files := [] }, env := envWithPrint, currentToken := { type := TokenType.RPAREN, numberValue := 0, stringValue := "" }, previousTokens := [{ type := TokenType.FUNC, numberValue := 0, stringValue := "" }, { type := TokenType.INT, numberValue := 0, stringValue := "" }, { type := TokenType.IDENTIFIER, numberValue := 0, stringValue := "fact" }, { type := TokenType.LPAREN, numberValue := 0, stringValue := "" }, { type := TokenType.INT, numberValue := 0, stringValue := "" }, { type := TokenType.IDENTIFIER, numberValue := 0, stringValue := "n" }], position := 6 }

def c4r6 : Parser := { lexer := { input := factProgram.toList, pos := 21, balanceStack := ['{'], includedFiles := [], files := [] }, env := envWithPrint, currentToken := { type := TokenType.LBRACE, numberValue := 0, stringValue := "" }, previousTokens := [{ type := TokenType.FUNC, numberValue := 0, stringValue := "" }, { type := TokenType.INT, numberValue := 0, stringValue := "" }, { type := TokenType.IDENTIFIER, numberValue := 0, stringValue := "fact" }, { type := TokenType.LPAREN, numberValue := 0, stringValue := "" }, { type := TokenType.INT, numberValue := 0, stringValue := "" }, { type := TokenType.IDENTIFIER, numberValue := 0, stringValue := "n" }, { type := TokenType.RPAREN, numberValue := 0, stringValue := "" }], position := 7 }

def c4r7 : Parser := { lexer := { input := factProgram.toList, pos := 25, balanceStack := ['{'], includedFiles := [], files := [] }, env := envWithPrint, currentToken := { type := TokenType.INT, numberValue := 0, stringValue := "" }, previousTokens := [{ type := TokenType.FUNC, numberValue := 0, stringValue := "" }, { type := TokenType.INT, numberValue := 0, stringValue := "" }, { type := TokenType.IDENTIFIER, numberValue := 0, stringValue := "fact" }, { type := TokenType.LPAREN, numberValue := 0, stringValue := "" }, { type := TokenType.INT, numberValue := 0, stringValue := "" }, { type := TokenType.IDENTIFIER, numberValue := 0, stringValue := "n" }, { type := TokenType.RPAREN, numberValue := 0, stringValue := "" }, { type := TokenType.LBRACE, numberValue := 0, stringValue := "" }], position := 8 }

def c4r8 : Parser := { lexer := { input := factProgram.toList, pos := 34, balanceStack := ['{'], includedFiles := [], files := [] }, env := envWithPrint, currentToken := { type := TokenType.FOR, numberValue := 0, stringValue := "" }, previousTokens := [{ type := TokenType.FUNC, numberValue := 0, stringValue := "" }, { type := TokenType.INT, numberValue := 0, stringValue := "" }, { type := TokenType.IDENTIFIER, numberValue := 0, stringValue := "fact" }, { type := TokenType.LPAREN, numberValue := 0, stringValue := "" }, { type := TokenType.INT, numberValue := 0, stringValue := "" }, { type := TokenType.IDENTIFIER, numberValue := 0, stringValue := "n" }, { type := TokenType.RPAREN, numberValue := 0, stringValue := "" }, { type := TokenType.LBRACE, numberValue := 0, stringValue := "" }, { type := TokenType.INT, numberValue := 0, stringValue := "" }, { type := TokenType.IDENTIFIER, numberValue := 0, stringValue := "r" }, { type := TokenType.ASSIGN, numberValue := 0, stringValue := "" }, { type := TokenType.NUMBER, numberValue := 1, stringValue := "" }, { type := TokenType.SEMICOLON, numberValue := 0, stringValue := "" }], position := 13 }

def c4f1 : Parser := { lexer := { input := factProgram.toList, pos := 35, balanceStack := ['(', '{'], includedFiles := [], files := [] }, env := envWithPrint, currentToken := { type := TokenType.LPAREN, numberValue := 0, stringValue := "" }, previousTokens := [{ type := TokenType.FUNC, numberValue := 0, stringValue := "" }, { type := TokenType.INT, numberValue := 0, stringValue := "" }, { type := TokenType.IDENTIFIER, numberValue := 0, stringValue := "fact" }, { type := TokenType.LPAREN, numberValue := 0, stringValue := "" }, { type := TokenType.INT, numberValue := 0, stringValue := "" }, { type := TokenType.IDENTIFIER, numberValue := 0, stringValue := "n" }, { type := TokenType.RPAREN, numberValue := 0, stringValue := "" }, { type := TokenType.LBRACE, numberValue := 0, stringValue := "" }, { type := TokenType.INT, numberValue := 0, stringValue := "" }, { type := TokenType.IDENTIFIER, numberValue := 0, stringValue := "r" }, { type := TokenType.ASSIGN, numberValue := 0, stringValue := "" }, { type := TokenType.NUMBER, numberValue := 1, stringValue := "" }, { type := TokenType.SEMICOLON, numberValue := 0, stringValue := "" }, { type := TokenType.FOR, numberValue := 0, stringValue := "" }], position := 14 }

def c4f2 : Parser := { lexer := { input := factProgram.toList, pos := 38, balanceStack := ['(', '{'], includedFiles := [], files := [] }, env := envWithPrint, currentToken := { type := TokenType.INT, numberValue := 0, stringValue := "" }, previousTokens := [{ type := TokenType.FUNC, numberValue := 0, stringValue := "" }, { type := TokenType.INT, numberValue := 0, stringValue := "" }, { type := TokenType.IDENTIFIER, numberValue := 0, stringValue := "fact" }, { type := TokenType.LPAREN, numberValue := 0, stringValue := "" }, { type := TokenType.INT, numberValue := 0, stringValue := "" }, { type := TokenType.IDENTIFIER, numberValue := 0, stringValue := "n" }, { type := TokenType.RPAREN, numberValue := 0, stringValue := "" }, { type := TokenType.LBRACE, numberValue := 0, stringValue := "" }, { type := TokenType.INT, numberValue := 0, stringValue := "" }, { type := TokenType.IDENTIFIER, numberValue := 0, stringValue := "r" }, { type := TokenType.ASSIGN, numberValue := 0, stringValue := "" }, { type := TokenType.NUMBER, numberValue := 1, stringValue := "" }, { type := TokenType.SEMICOLON, numberValue := 0, stringValue := "" }, { type := TokenType.FOR, numberValue := 0, stringValue := "" }, { type := TokenType.LPAREN, numberValue := 0, stringValue := "" }], position := 15 }

def c4f3 : Parser := { lexer := { input := factProgram.toList, pos := 44, balanceStack := ['(', '{'], includedFiles := [], files := [] }, env := envWithPrint, currentToken := { type := TokenType.IDENTIFIER, numberValue := 0, stringValue := "i" }, previousTokens := [{ type := TokenType.FUNC, numberValue := 0, stringValue := "" }, { type := TokenType.INT, numberValue := 0, stringValue := "" }, { type := TokenType.IDENTIFIER, numberValue := 0, stringValue := "fact" }, { type := TokenType.LPAREN, numberValue := 0, stringValue := "" }, { type := TokenType.INT, numberValue := 0, stringValue := "" }, { type := TokenType.IDENTIFIER, numberValue := 0, stringValue := "n" }, { type := TokenType.RPAREN, numberValue := 0, stringValue := "" }, { type := TokenType.LBRACE, numberValue := 0, stringValue := "" }, { type := TokenType.INT, numberValue := 0, stringValue := "" }, { type := TokenType.IDENTIFIER, numberValue := 0, stringValue := "r" }, { type := TokenType.ASSIGN, numberValue := 0, stringValue := "" }, { type := TokenType.NUMBER, numberValue := 1, stringValue := "" }, { type := TokenType.SEMICOLON, numberValue := 0, stringValue := "" }, { type := TokenType.FOR, numberValue := 0, stringValue := "" }, { type := TokenType.LPAREN, numberValue := 0, stringValue := "" }, { type := TokenType.INT, numberValue := 0, stringValue := "" }, { type := TokenType.IDENTIFIER, numberValue := 0, stringValue := "i" }, { type := TokenType.ASSIGN, numberValue := 0, stringValue := "" }, { type := TokenType.NUMBER, numberValue := 1, stringValue := "" }, { type := TokenType.SEMICOLON, numberValue := 0, stringValue := "" }], position := 20 }

def c4f4 : Parser := { lexer := { input := factProgram.toList, pos := 48, balanceStack := ['(', '{'], includedFiles := [], files := [] }, env := envWithPrint, currentToken := { type := TokenType.SEMICOLON, numberValue := 0, stringValue := "" }, previousTokens := [{ type := TokenType.FUNC, numberValue := 0, stringValue := "" }, { type := TokenType.INT, numberValue := 0, stringValue := "" }, { type := TokenType.IDENTIFIER, numberValue := 0, stringValue := "fact" }, { type := TokenType.LPAREN, numberValue := 0, stringValue := "" }, { type := TokenType.INT, numberValue := 0, stringValue := "" }, { type := TokenType.IDENTIFIER, numberValue := 0, stringValue := "n" }, { type := TokenType.RPAREN, numberValue := 0, stringValue := "" }, { type := TokenType.LBRACE, numberValue := 0, stringValue := "" }, { type := TokenType.INT, numberValue := 0, stringValue := "" }, { type := TokenType.IDENTIFIER, numberValue := 0, stringValue := "r" }, { type := TokenType.ASSIGN, numberValue := 0, stringValue := "" }, { type := TokenType.NUMBER, numberValue := 1, stringValue := "" }, { type := TokenType.SEMICOLON, numberValue := 0, stringValue := "" }, { type := TokenType.FOR, numberValue := 0, stringValue := "" }, { type := TokenType.LPAREN, numberValue := 0, stringValue := "" }, { type := TokenType.INT, numberValue := 0, stringValue := "" }, { type := TokenType.IDENTIFIER, numberValue := 0, stringValue := "i" }, { type := TokenType.ASSIGN, numberValue := 0, stringValue := "" }, { type := TokenType.NUMBER, numberValue := 1, stringValue := "" }, { type := TokenType.SEMICOLON, numberValue := 0, stringValue := "" }, { type := TokenType.IDENTIFIER, numberValue := 0, stringValue := "i" }, { type := TokenType.LESS_EQUALS, numberValue := 0, stringValue := "" }, { type := TokenType.IDENTIFIER, numberValue := 0, stringValue := "n" }], position := 23 }

def c4f5 : Parser := { lexer := { input := factProgram.toList, pos := 49, balanceStack := ['(', '{'], includedFiles := [], files := [] }, env := envWithPrint, currentToken := { type := TokenType.IDENTIFIER, numberValue := 0, stringValue := "i" }, previousTokens := [{ type := TokenType.FUNC, numberValue := 0, stringValue := "" }, { type := TokenType.INT, numberValue := 0, stringValue := "" }, { type := TokenType.IDENTIFIER, numberValue := 0, stringValue := "fact" }, { type := TokenType.LPAREN, numberValue := 0, stringValue := "" }, { type := TokenType.INT, numberValue := 0, stringValue := "" }, { type := TokenType.IDENTIFIER, numberValue := 0, stringValue := "n" }, { type := TokenType.RPAREN, numberValue := 0, stringValue := "" }, { type := TokenType.LBRACE, numberValue := 0, stringValue := "" }, { type := TokenType.INT, numberValue := 0, stringValue := "" }, { type := TokenType.IDENTIFIER, numberValue := 0, stringValue := "r" }, { type := TokenType.ASSIGN, numberValue := 0, stringValue := "" }, { type := TokenType.NUMBER, numberValue := 1, stringValue := "" }, { type := TokenType.SEMICOLON, numberValue := 0, stringValue := "" }, { type := TokenType.FOR, numberValue := 0, stringValue := "" }, { type := TokenType.LPAREN, numberValue := 0, stringValue := "" }, { type := TokenType.INT, numberValue := 0, stringValue := "" }, { type := TokenType.IDENTIFIER, numberValue := 0, stringValue := "i" }, { type := TokenType.ASSIGN, numberValue := 0, stringValue := "" }, { type := TokenType.NUMBER, numberValue := 1, stringValue := "" }, { type := TokenType.SEMICOLON, numberValue := 0, stringValue := "" }, { type := TokenType.IDENTIFIER, numberValue := 0, stringValue := "i" }, { type := TokenType.LESS_EQUALS, numberValue := 0, stringValue := "" }, { type := TokenType.IDENTIFIER, numberValue := 0, stringValue := "n" }, { type := TokenType.SEMICOLON, numberValue := 0, stringValue := "" }], position := 24 }

def c4f6 : Parser := { lexer := { input := factProgram.toList, pos := 50, balanceStack := ['(', '{'], includedFiles := [], files := [] }, env := envWithPrint, currentToken := { type := TokenType.ASSIGN, numberValue := 0, stringValue := "" }, previousTokens := [{ type := TokenType.FUNC, numberValue := 0, stringValue := "" }, { type := TokenType.INT, numberValue := 0, stringValue := "" }, { type := TokenType.IDENTIFIER, numberValue := 0, stringValue := "fact" }, { type := TokenType.LPAREN, numberValue := 0, stringValue := "" }, { type := TokenType.INT, numberValue := 0, stringValue := "" }, { type := TokenType.IDENTIFIER, numberValue := 0, stringValue := "n" }, { type := TokenType.RPAREN, numberValue := 0, stringValue := "" }, { type := TokenType.LBRACE, numberValue := 0, stringValue := "" }, { type := TokenType.INT, numberValue := 0, stringValue := "" }, { type := TokenType.IDENTIFIER, numberValue := 0, stringValue := "r" }, { type := TokenType.ASSIGN, numberValue := 0, stringValue := "" }, { type := TokenType.NUMBER, numberValue := 1, stringValue := "" }, { type := TokenType.SEMICOLON, numberValue := 0, stringValue := "" }, { type := TokenType.FOR, numberValue := 0, stringValue := "" }, { type := TokenType.LPAREN, numberValue := 0, stringValue := "" }, { type := TokenType.INT, numberValue := 0, stringValue := "" }, { type := TokenType.IDENTIFIER, numberValue := 0, stringValue := "i" }, { type := TokenType.ASSIGN, numberValue := 0, stringValue := "" }, { type := TokenType.NUMBER, numberValue := 1, stringValue := "" }, { type := TokenType.SEMICOLON, numberValue := 0, stringValue := "" }, { type := TokenType.IDENTIFIER, numberValue := 0, stringValue := "i" }, { type := TokenType.LESS_EQUALS, numberValue := 0, stringValue := "" }, { type := TokenType.IDENTIFIER, numberValue := 0, stringValue := "n" }, { type := TokenType.SEMICOLON, numberValue := 0, stringValue := "" }, { type := TokenType.IDENTIFIER, numberValue := 0, stringValue := "i" }], position := 25 }

def c4f7 : Parser := { lexer := { input := factProgram.toList, pos := 51, balanceStack := ['(', '{'], includedFiles := [], files := [] }, env := envWithPrint, currentToken := { type := TokenType.IDENTIFIER, numberValue := 0, stringValue := "i" }, previousTokens := [{ type := TokenType.FUNC, numberValue := 0, stringValue := "" }, { type := TokenType.INT, numberValue := 0, stringValue := "" }, { type := TokenType.IDENTIFIER, numberValue := 0, stringValue := "fact" }, { type := TokenType.LPAREN, numberValue := 0, stringValue := "" }, { type := TokenType.INT, numberValue := 0, stringValue := "" }, { type := TokenType.IDENTIFIER, numberValue := 0, stringValue := "n" }, { type := TokenType.RPAREN, numberValue := 0, stringValue := "" }, { type := TokenType.LBRACE, numberValue := 0, stringValue := "" }, { type := TokenType.INT, numberValue := 0, stringValue := "" }, { type := TokenType.IDENTIFIER, numberValue := 0, stringValue := "r" }, { type := TokenType.ASSIGN, numberValue := 0, stringValue := "" }, { type := TokenType.NUMBER, numberValue := 1, stringValue := "" }, { type := TokenType.SEMICOLON, numberValue := 0, stringValue := "" }, { type := TokenType.FOR, numberValue := 0, stringValue := "" }, { type := TokenType.LPAREN, numberValue := 0, stringValue := "" }, { type := TokenType.INT, numberValue := 0, stringValue := "" }, { type := TokenType.IDENTIFIER, numberValue := 0, stringValue := "i" }, { type := TokenType.ASSIGN, numberValue := 0, stringValue := "" }, { type := TokenType.NUMBER, numberValue := 1, stringValue := "" }, { type := TokenType.SEMICOLON, numberValue := 0, stringValue := "" }, { type := TokenType.IDENTIFIER, numberValue := 0, stringValue := "i" }, { type := TokenType.LESS_EQUALS, numberValue := 0, stringValue := "" }, { type := TokenType.IDENTIFIER, numberValue := 0, stringValue := "n" }, { type := TokenType.SEMICOLON, numberValue := 0, stringValue := "" }, { type := TokenType.IDENTIFIER, numberValue := 0, stringValue := "i" }, { type := TokenType.ASSIGN, numberValue := 0, stringValue := "" }], position := 26 }

def c4f8 : Parser := { lexer := { input := factProgram.toList, pos := 54, balanceStack := ['{'], includedFiles := [], files := [] }, env := envWithPrint, currentToken := { type := TokenType.RPAREN, numberValue := 0, stringValue := "" }, previousTokens := [{ type := TokenType.FUNC, numberValue := 0, stringValue := "" }, { type := TokenType.INT, numberValue := 0, stringValue := "" }, { type := TokenType.IDENTIFIER, numberValue := 0, stringValue := "fact" }, { type := TokenType.LPAREN, numberValue := 0, stringValue := "" }, { type := TokenType.INT, numberValue := 0, stringValue := "" }, { type := TokenType.IDENTIFIER, numberValue := 0, stringValue := "n" }, { type := TokenType.RPAREN, numberValue := 0, stringValue := "" }, { type := TokenType.LBRACE, numberValue := 0, stringValue := "" }, { type := TokenType.INT, numberValue := 0, stringValue := "" }, { type := TokenType.IDENTIFIER, numberValue := 0, stringValue := "r" }, { type := TokenType.ASSIGN, numberValue := 0, stringValue := "" }, { type := TokenType.NUMBER, numberValue := 1, stringValue := "" }, { type := TokenType.SEMICOLON, numberValue := 0, stringValue := "" }, { type := TokenType.FOR, numberValue := 0, stringValue := "" }, { type := TokenType.LPAREN, numberValue := 0, stringValue := "" }, { type := TokenType.INT, numberValue := 0, stringValue := "" }, { type := TokenType.IDENTIFIER, numberValue := 0, stringValue := "i" }, { type := TokenType.ASSIGN, numberValue := 0, stringValue := "" }, { type := TokenType.NUMBER, numberValue := 1, stringValue := "" }, { type := TokenType.SEMICOLON, numberValue := 0, stringValue := "" }, { type := TokenType.IDENTIFIER, numberValue := 0, stringValue := "i" }, { type := TokenType.LESS_EQUALS, numberValue := 0, stringValue := "" }, { type := TokenType.IDENTIFIER, numberValue := 0, stringValue := "n" }, { type := TokenType.SEMICOLON, numberValue := 0, stringValue := "" }, { type := TokenType.IDENTIFIER, numberValue := 0, stringValue := "i" }, { type := TokenType.ASSIGN, numberValue := 0, stringValue := "" }, { type := TokenType.IDENTIFIER, numberValue := 0, stringValue := "i" }, { type := TokenType.PLUS, numberValue := 0, stringValue := "" }, { type := TokenType.NUMBER, numberValue := 1, stringValue := "" }], position := 29 }

def c4f9 : Parser := { lexer := { input := factProgram.toList, pos := 55, balanceStack := ['{', '{'], includedFiles := [], files := [] }, env := envWithPrint, currentToken := { type := TokenType.LBRACE, numberValue := 0, stringValue := "" }, previousTokens := [{ type := TokenType.FUNC, numberValue := 0, stringValue := "" }, { type := TokenType.INT, numberValue := 0, stringValue := "" }, { type := TokenType.IDENTIFIER, numberValue := 0, stringValue := "fact" }, { type := TokenType.LPAREN, numberValue := 0, stringValue := "" }, { type := TokenType.INT, numberValue := 0, stringValue := "" }, { type := TokenType.IDENTIFIER, numberValue := 0, stringValue := "n" }, { type := TokenType.RPAREN, numberValue := 0, stringValue := "" }, { type := TokenType.LBRACE, numberValue := 0, stringValue := "" }, { type := TokenType.INT, numberValue := 0, stringValue := "" }, { type := TokenType.IDENTIFIER, numberValue := 0, stringValue := "r" }, { type := TokenType.ASSIGN, numberValue := 0, stringValue := "" }, { type := TokenType.NUMBER, numberValue := 1, stringValue := "" }, { type := TokenType.SEMICOLON, numberValue := 0, stringValue := "" }, { type := TokenType.FOR, numberValue := 0, stringValue := "" }, { type := TokenType.LPAREN, numberValue := 0, stringValue := "" }, { type := TokenType.INT, numberValue := 0, stringValue := "" }, { type := TokenType.IDENTIFIER, numberValue := 0, stringValue := "i" }, { type := TokenType.ASSIGN, numberValue := 0, stringValue := "" }, { type := TokenType.NUMBER, numberValue := 1, stringValue := "" }, { type := TokenType.SEMICOLON, numberValue := 0, stringValue := "" }, { type := TokenType.IDENTIFIER, numberValue := 0, stringValue := "i" }, { type := TokenType.LESS_EQUALS, numberValue := 0, stringValue := "" }, { type := TokenType.IDENTIFIER, numberValue := 0, stringValue := "n" }, { type := TokenType.SEMICOLON, numberValue := 0, stringValue := "" }, { type := TokenType.IDENTIFIER, numberValue := 0, stringValue := "i" }, { type := TokenType.ASSIGN, numberValue := 0, stringValue := "" }, { type := TokenType.IDENTIFIER, numberValue := 0, stringValue := "i" }, { type := TokenType.PLUS, numberValue := 0, stringValue := "" }, { type := TokenType.NUMBER, numberValue := 1, stringValue := "" }, { type := TokenType.RPAREN, numberValue := 0, stringValue := "" }], position := 30 }

def c4f10 : Parser := { lexer := { input := factProgram.toList, pos := 57, balanceStack := ['{', '{'], includedFiles := [], files := [] }, env := envWithPrint, currentToken := { type := TokenType.IDENTIFIER, numberValue := 0, stringValue := "r" }, previousTokens := [{ type := TokenType.FUNC, numberValue := 0, stringValue := "" }, { type := TokenType.INT, numberValue := 0, stringValue := "" }, { type := TokenType.IDENTIFIER, numberValue := 0, stringValue := "fact" }, { type := TokenType.LPAREN, numberValue := 0, stringValue := "" }, { type := TokenType.INT, numberValue := 0, stringValue := "" }, { type := TokenType.IDENTIFIER, numberValue := 0, stringValue := "n" }, { type := TokenType.RPAREN, numberValue := 0, stringValue := "" }, { type := TokenType.LBRACE, numberValue := 0, stringValue := "" }, { type := TokenType.INT, numberValue := 0, stringValue := "" }, { type := TokenType.IDENTIFIER, numberValue := 0, stringValue := "r" }, { type := TokenType.ASSIGN, numberValue := 0, stringValue := "" }, { type := TokenType.NUMBER, numberValue := 1, stringValue := "" }, { type := TokenType.SEMICOLON, numberValue := 0, stringValue := "" }, { type := TokenType.FOR, numberValue := 0, stringValue := "" }, { type := TokenType.LPAREN, numberValue := 0, stringValue := "" }, { type := TokenType.INT, numberValue := 0, stringValue := "" }, { type := TokenType.IDENTIFIER, numberValue := 0, stringValue := "i" }, { type := TokenType.ASSIGN, numberValue := 0, stringValue := "" }, { type := TokenType.NUMBER, numberValue := 1, stringValue := "" }, { type := TokenType.SEMICOLON, numberValue := 0, stringValue := "" }, { type := TokenType.IDENTIFIER, numberValue := 0, stringValue := "i" }, { type := TokenType.LESS_EQUALS, numberValue := 0, stringValue := "" }, { type := TokenType.IDENTIFIER, numberValue := 0, stringValue := "n" }, { type := TokenType.SEMICOLON, numberValue := 0, stringValue := "" }, { type := TokenType.IDENTIFIER, numberValue := 0, stringValue := "i" }, { type := TokenType.ASSIGN, numberValue := 0, stringValue := "" }, { type := TokenType.IDENTIFIER, numberValue := 0, stringValue := "i" }, { type := TokenType.PLUS, numberValue := 0, stringValue := "" }, { type := TokenType.NUMBER, numberValue := 1, stringValue := "" }, { type := TokenType.RPAREN, numberValue := 0, stringValue := "" }, { type := TokenType.LBRACE, numberValue := 0, stringValue := "" }], position := 31 }

def c4f11 : Parser := { lexer := { input := factProgram.toList, pos := 64, balanceStack := ['{'], includedFiles := [], files := [] }, env := envWithPrint, currentToken := { type := TokenType.RBRACE, numberValue := 0, stringValue := "" }, previousTokens := [{ type := TokenType.FUNC, numberValue := 0, stringValue := "" }, { type := TokenType.INT, numberValue := 0, stringValue := "" }, { type := TokenType.IDENTIFIER, numberValue := 0, stringValue := "fact" }, { type := TokenType.LPAREN, numberValue := 0, stringValue := "" }, { type := TokenType.INT, numberValue := 0, stringValue := "" }, { type := TokenType.IDENTIFIER, numberValue := 0, stringValue := "n" }, { type := TokenType.RPAREN, numberValue := 0, stringValue := "" }, { type := TokenType.LBRACE, numberValue := 0, stringValue := "" }, { type := TokenType.INT, numberValue := 0, stringValue := "" }, { type := TokenType.IDENTIFIER, numberValue := 0, stringValue := "r" }, { type := TokenType.ASSIGN, numberValue := 0, stringValue := "" }, { type := TokenType.NUMBER, numberValue := 1, stringValue := "" }, { type := TokenType.SEMICOLON, numberValue := 0, stringValue := "" }, { type := TokenType.FOR, numberValue := 0, stringValue := "" }, { type := TokenType.LPAREN, numberValue := 0, stringValue := "" }, { type := TokenType.INT, numberValue := 0, stringValue := "" }, { type := TokenType.IDENTIFIER, numberValue := 0, stringValue := "i" }, { type := TokenType.ASSIGN, numberValue := 0, stringValue := "" }, { type := TokenType.NUMBER, numberValue := 1, stringValue := "" }, { type := TokenType.SEMICOLON, numberValue := 0, stringValue := "" }, { type := TokenType.IDENTIFIER, numberValue := 0, stringValue := "i" }, { type := TokenType.LESS_EQUALS, numberValue := 0, stringValue := "" }, { type := TokenType.IDENTIFIER, numberValue := 0, stringValue := "n" }, { type := TokenType.SEMICOLON, numberValue := 0, stringValue := "" }, { type := TokenType.IDENTIFIER, numberValue := 0, stringValue := "i" }, { type := TokenType.ASSIGN, numberValue := 0, stringValue := "" }, { type := TokenType.IDENTIFIER, numberValue := 0, stringValue := "i" }, { type := TokenType.PLUS, numberValue := 0, stringValue := "" }, { type := TokenType.NUMBER, numberValue := 1, stringValue := "" }, { type := TokenType.RPAREN, numberValue := 0, stringValue := "" }, { type := TokenType.LBRACE, numberValue := 0, stringValue := "" }, { type := TokenType.IDENTIFIER, numberValue := 0, stringValue := "r" }, { type := TokenType.ASSIGN, numberValue := 0, stringValue := "" }, { type := TokenType.IDENTIFIER, numberValue := 0, stringValue := "r" }, { type := TokenType.MULTIPLY, numberValue := 0, stringValue := "" }, { type := TokenType.IDENTIFIER, numberValue := 0, stringValue := "i" }, { type := TokenType.SEMICOLON, numberValue := 0, stringValue := "" }], position := 37 }

def c4f12 : Parser := { lexer := { input := factProgram.toList, pos := 71, balanceStack := ['{'], includedFiles := [], files := [] }, env := envWithPrint, currentToken := { type := TokenType.RETURN, numberValue := 0, stringValue := "" }, previousTokens := [{ type := TokenType.FUNC, numberValue := 0, stringValue := "" }, { type := TokenType.INT, numberValue := 0, stringValue := "" }, { type := TokenType.IDENTIFIER, numberValue := 0, stringValue := "fact" }, { type := TokenType.LPAREN, numberValue := 0, stringValue := "" }, { type := TokenType.INT, numberValue := 0, stringValue := "" }, { type := TokenType.IDENTIFIER, numberValue := 0, stringValue := "n" }, { type := TokenType.RPAREN, numberValue := 0, stringValue := "" }, { type := TokenType.LBRACE, numberValue := 0, stringValue := "" }, { type := TokenType.INT, numberValue := 0, stringValue := "" }, { type := TokenType.IDENTIFIER, numberValue := 0, stringValue := "r" }, { type := TokenType.ASSIGN, numberValue := 0, stringValue := "" }, { type := TokenType.NUMBER, numberValue := 1, stringValue := "" }, { type := TokenType.SEMICOLON, numberValue := 0, stringValue := "" }, { type := TokenType.FOR, numberValue := 0, stringValue := "" }, { type := TokenType.LPAREN, numberValue := 0, stringValue := "" }, { type := TokenType.INT, numberValue := 0, stringValue := "" }, { type := TokenType.IDENTIFIER, numberValue := 0, stringValue := "i" }, { type := TokenType.ASSIGN, numberValue := 0, stringValue := "" }, { type := TokenType.NUMBER, numberValue := 1, stringValue := "" }, { type := TokenType.SEMICOLON, numberValue := 0, stringValue := "" }, { type := TokenType.IDENTIFIER, numberValue := 0, stringValue := "i" }, { type := TokenType.LESS_EQUALS, numberValue := 0, stringValue := "" }, { type := TokenType.IDENTIFIER, numberValue := 0, stringValue := "n" }, { type := TokenType.SEMICOLON, numberValue := 0, stringValue := "" }, { type := TokenType.IDENTIFIER, numberValue := 0, stringValue := "i" }, { type := TokenType.ASSIGN, numberValue := 0, stringValue := "" }, { type := TokenType.IDENTIFIER, numberValue := 0, stringValue := "i" }, { type := TokenType.PLUS, numberValue := 0, stringValue := "" }, { type := TokenType.NUMBER, numberValue := 1, stringValue := "" }, { type := TokenType.RPAREN, numberValue := 0, stringValue := "" }, { type := TokenType.LBRACE, numberValue := 0, stringValue := "" }, { type := TokenType.IDENTIFIER, numberValue := 0, stringValue := "r" }, { type := TokenType.ASSIGN, numberValue := 0, stringValue := "" }, { type := TokenType.IDENTIFIER, numberValue := 0, stringValue := "r" }, { type := TokenType.MULTIPLY, numberValue := 0, stringValue := "" }, { type := TokenType.IDENTIFIER, numberValue := 0, stringValue := "i" }, { type := TokenType.SEMICOLON, numberValue := 0, stringValue := "" }, { type := TokenType.RBRACE, numberValue := 0, stringValue := "" }], position := 38 }

def c4r10 : Parser := { lexer := { input := factProgram.toList, pos := 76, balanceStack := [], includedFiles := [], files := [] }, env := envWithPrint, currentToken := { type := TokenType.RBRACE, numberValue := 0, stringValue := "" }, previousTokens := [{ type := TokenType.FUNC, numberValue := 0, stringValue := "" }, { type := TokenType.INT, numberValue := 0, stringValue := "" }, { type := TokenType.IDENTIFIER, numberValue := 0, stringValue := "fact" }, { type := TokenType.LPAREN, numberValue := 0, stringValue := "" }, { type := TokenType.INT, numberValue := 0, stringValue := "" }, { type := TokenType.IDENTIFIER, numberValue := 0, stringValue := "n" }, { type := TokenType.RPAREN, numberValue := 0, stringValue := "" }, { type := TokenType.LBRACE, numberValue := 0, stringValue := "" }, { type := TokenType.INT, numberValue := 0, stringValue := "" }, { type := TokenType.IDENTIFIER, numberValue := 0, stringValue := "r" }, { type := TokenType.ASSIGN, numberValue := 0, stringValue := "" }, { type := TokenType.NUMBER, numberValue := 1, stringValue := "" }, { type := TokenType.SEMICOLON, numberValue := 0, stringValue := "" }, { type := TokenType.FOR, numberValue := 0, stringValue := "" }, { type := TokenType.LPAREN, numberValue := 0, stringValue := "" }, { type := TokenType.INT, numberValue := 0, stringValue := "" }, { type := TokenType.IDENTIFIER, numberValue := 0, stringValue := "i" }, { type := TokenType.ASSIGN, numberValue := 0, stringValue := "" }, { type := TokenType.NUMBER, numberValue := 1, stringValue := "" }, { type := TokenType.SEMICOLON, numberValue := 0, stringValue := "" }, { type := TokenType.IDENTIFIER, numberValue := 0, stringValue := "i" }, { type := TokenType.LESS_EQUALS, numberValue := 0, stringValue := "" }, { type := TokenType.IDENTIFIER, numberValue := 0, stringValue := "n" }, { type := TokenType.SEMICOLON, numberValue := 0, stringValue := "" }, { type := TokenType.IDENTIFIER, numberValue := 0, stringValue := "i" }, { type := TokenType.ASSIGN, numberValue := 0, stringValue := "" }, { type := TokenType.IDENTIFIER, numberValue := 0, stringValue := "i" }, { type := TokenType.PLUS, numberValue := 0, stringValue := "" }, { type := TokenType.NUMBER, numberValue := 1, stringValue := "" }, { type := TokenType.RPAREN, numberValue := 0, stringValue := "" }, { type := TokenType.LBRACE, numberValue := 0, stringValue := "" }, { type := TokenType.IDENTIFIER, numberValue := 0, stringValue := "r" }, { type := TokenType.ASSIGN, numberValue := 0, stringValue := "" }, { type := TokenType.IDENTIFIER, numberValue := 0, stringValue := "r" }, { type := TokenType.MULTIPLY, numberValue := 0, stringValue := "" }, { type := TokenType.IDENTIFIER, numberValue := 0, stringValue := "i" }, { type := TokenType.SEMICOLON, numberValue := 0, stringValue := "" }, { type := TokenType.RBRACE, numberValue := 0, stringValue := "" }, { type := TokenType.RETURN, numberValue := 0, stringValue := "" }, { type := TokenType.IDENTIFIER, numberValue := 0, stringValue := "r" }, { type := TokenType.SEMICOLON, numberValue := 0, stringValue := "" }], position := 41 }

def c4r11 : Parser := { lexer := { input := factProgram.toList, pos := 82, balanceStack := [], includedFiles := [], files := [] }, env := envWithPrint, currentToken := { type := TokenType.IDENTIFIER, numberValue := 0, stringValue := "print" }, previousTokens := [{ type := TokenType.FUNC, numberValue := 0, stringValue := "" }, { type := TokenType.INT, numberValue := 0, stringValue := "" }, { type := TokenType.IDENTIFIER, numberValue := 0, stringValue := "fact" }, { type := TokenType.LPAREN, numberValue := 0, stringValue := "" }, { type := TokenType.INT, numberValue := 0, stringValue := "" }, { type := TokenType.IDENTIFIER, numberValue := 0, stringValue := "n" }, { type := TokenType.RPAREN, numberValue := 0, stringValue := "" }, { type := TokenType.LBRACE, numberValue := 0, stringValue := "" }, { type := TokenType.INT, numberValue := 0, stringValue := "" }, { type := TokenType.IDENTIFIER, numberValue := 0, stringValue := "r" }, { type := TokenType.ASSIGN, numberValue := 0, stringValue := "" }, { type := TokenType.NUMBER, numberValue := 1, stringValue := "" }, { type := TokenType.SEMICOLON, numberValue := 0, stringValue := "" }, { type := TokenType.FOR, numberValue := 0, stringValue := "" }, { type := TokenType.LPAREN, numberValue := 0, stringValue := "" }, { type := TokenType.INT, numberValue := 0, stringValue := "" }, { type := TokenType.IDENTIFIER, numberValue := 0, stringValue := "i" }, { type := TokenType.ASSIGN, numberValue := 0, stringValue := "" }, { type := TokenType.NUMBER, numberValue := 1, stringValue := "" }, { type := TokenType.SEMICOLON, numberValue := 0, stringValue := "" }, { type := TokenType.IDENTIFIER, numberValue := 0, stringValue := "i" }, { type := TokenType.LESS_EQUALS, numberValue := 0, stringValue := "" }, { type := TokenType.IDENTIFIER, numberValue := 0, stringValue := "n" }, { type := TokenType.SEMICOLON, numberValue := 0, stringValue := "" }, { type := TokenType.IDENTIFIER, numberValue := 0, stringValue := "i" }, { type := TokenType.ASSIGN, numberValue := 0, stringValue := "" }, { type := TokenType.IDENTIFIER, numberValue := 0, stringValue := "i" }, { type := TokenType.PLUS, numberValue := 0, stringValue := "" }, { type := TokenType.NUMBER, numberValue := 1, stringValue := "" }, { type := TokenType.RPAREN, numberValue := 0, stringValue := "" }, { type := TokenType.LBRACE, numberValue := 0, stringValue := "" }, { type := TokenType.IDENTIFIER, numberValue := 0, stringValue := "r" }, { type := TokenType.ASSIGN, numberValue := 0, stringValue := "" }, { type := TokenType.IDENTIFIER, numberValue := 0, stringValue := "r" }, { type := TokenType.MULTIPLY, numberValue := 0, stringValue := "" }, { type := TokenType.IDENTIFIER, numberValue := 0, stringValue := "i" }, { type := TokenType.SEMICOLON, numberValue := 0, stringValue := "" }, { type := TokenType.RBRACE, numberValue := 0, stringValue := "" }, { type := TokenType.RETURN, numberValue := 0, stringValue := "" }, { type := TokenType.IDENTIFIER, numberValue := 0, stringValue := "r" }, { type := TokenType.SEMICOLON, numberValue := 0, stringValue := "" }, { type := TokenType.RBRACE, numberValue := 0, stringValue := "" }], position := 42 }

def factFnNode : ASTNode := ASTNode.FunctionNode "fact" (ValueType.INT) [("n", ValueType.INT)] [] (ASTNode.BlockNode [ASTNode.DeclarationNode "r" (ValueType.INT) (some (ASTNode.NumberNode 1)), ASTNode.ForNode (some (ASTNode.DeclarationNode "i" (ValueType.INT) (some (ASTNode.NumberNode 1)))) (ASTNode.BinaryOpNode (TokenType.LESS_EQUALS) (ASTNode.VariableNode "i") (ASTNode.VariableNode "n")) (some (ASTNode.AssignmentNode "i" none (ASTNode.BinaryOpNode (TokenType.PLUS) (ASTNode.VariableNode "i") (ASTNode.NumberNode 1)))) (ASTNode.BlockNode [ASTNode.AssignmentNode "r" none (ASTNode.BinaryOpNode (TokenType.MULTIPLY) (ASTNode.VariableNode "r") (ASTNode.VariableNode "i"))]), ASTNode.ReturnNode (ASTNode.VariableNode "r")])

def c4envReg : Environment := { functionRegistry := ["print"], nativeLog := [], userFunctionRegistry := [("fact", factFnNode)], classRegistry := [], variableTable := [], variableScopes := [[]], currentObjectInstance := [] }

def c4r12 : Parser := { c4r11 with env := c4envReg }

/-! ## Scope-depth bookkeeping (claim C5) -/

/-- Specification relating an environment to the result of one evaluator
call on it: the scope stack never ends up shallower than it started, and
a normally-returning call restores the starting depth exactly.  (On a
thrown error the depth may exceed the starting depth: the C++ call
operations only reach `popScope()` on the normal path.) -/
def DepthSpec {α : Type} (env : Environment)
    (r : (Except String α) × Environment) : Prop :=
  env.scopeDepth ≤ r.2.scopeDepth ∧
    ∀ v, r.1 = .ok v → r.2.scopeDepth = env.scopeDepth

/-! ## One-step unfolding lemmas for the parser

Concrete parse runs are proved by stepping statement by statement: each
step is a `rfl` fact about an explicit parser state, and the following
lemmas glue the steps together along the code paths actually taken. -/

theorem parseSource_ok {fuel : Nat} {source : String} {env : Environment}
    {p : Parser} (h : mkParser (Lexer.fromString source) env = .ok p) :
    parseSource fuel source env = parseProgram fuel p := by
  simp only [parseSource, h]

theorem parseProgram_succ (n : Nat) (p : Parser) :
    parseProgram (n + 1) p = parseProgramLoop n [] p := rfl

theorem parseProgramLoop_step {n : Nat} {acc : List ASTNode} {p p1 : Parser}
    {nd : ASTNode} (hne : ¬(p.currentToken.type = .END))
    (h : parseStatement n p = .ok (some nd, p1)) :
    parseProgramLoop (n + 1) acc p = parseProgramLoop n (acc ++ [nd]) p1 := by
  simp only [parseProgramLoop, h, if_neg hne]

theorem parseProgramLoop_error {n : Nat} {acc : List ASTNode} {p : Parser}
    {e : String} (hne : ¬(p.currentToken.type = .END))
    (h : parseStatement n p = .error e) :
    parseProgramLoop (n + 1) acc p = .error e := by
  simp only [parseProgramLoop, h, if_neg hne]

theorem parseProgramLoop_end {n : Nat} {acc : List ASTNode} {p : Parser}
    (h : p.currentToken.type = .END) :
    parseProgramLoop (n + 1) acc p = .ok (.ProgramNode acc, p) := by
  simp only [parseProgramLoop, if_pos h]

theorem parseIfStatement_unfold {n : Nat} {p p1 p2 p3 p4 p5 p6 : Parser}
    {cond : ASTNode} {tb eb : Option ASTNode}
    (h1 : p.eat .IF = .ok p1) (h2 : p1.eat .LPAREN = .ok p2)
    (h3 : parseExpression n p2 = .ok (cond, p3))
    (h4 : p3.eat .RPAREN = .ok p4)
    (h5 : parseStatement n p4 = .ok (tb, p5))
    (h6 : parseIfElseChain n none p5 = .ok (eb, p6)) :
    parseIfStatement (n + 1) p = .ok (.IfNode cond (orNull tb) eb, p6) := by
  simp only [parseIfStatement, h1, h2, h3, h4, h5, h6]

theorem parseIfElseChain_elseif {n : Nat} {p p1 p2 p3 p4 p5 p6 : Parser}
    {eb0 : Option ASTNode} {c : ASTNode} {br : Option ASTNode}
    (hE : p.currentToken.type = .ELSE) (h1 : p.eat .ELSE = .ok p1)
    (hIf : p1.currentToken.type = .IF) (h2 : p1.eat .IF = .ok p2)
    (h3 : p2.eat .LPAREN = .ok p3)
    (h4 : parseExpression n p3 = .ok (c, p4))
    (h5 : p4.eat .RPAREN = .ok p5)
    (h6 : parseStatement n p5 = .ok (br, p6)) :
    parseIfElseChain (n + 1) eb0 p =
      parseIfElseChain n (some (.IfNode c (orNull br) eb0)) p6 := by
  simp only [parseIfElseChain, if_pos hE, h1, hIf, h2, h3, h4, h5, h6,
    eq_self_iff_true, if_true]

theorem parseIfElseChain_else {n : Nat} {p p1 p2 : Parser}
    {eb0 pe : Option ASTNode}
    (hE : p.currentToken.type = .ELSE) (h1 : p.eat .ELSE = .ok p1)
    (hnIf : ¬(p1.currentToken.type = .IF))
    (h2 : parseStatement n p1 = .ok (pe, p2)) :
    parseIfElseChain (n + 1) eb0 p = .ok (pe, p2) := by
  simp only [parseIfElseChain, if_pos hE, h1, if_neg hnIf, h2]

theorem parseIfElseChain_none {n : Nat} {p : Parser} {eb0 : Option ASTNode}
    (h : ¬(p.currentToken.type = .ELSE)) :
    parseIfElseChain (n + 1) eb0 p = .ok (eb0, p) := by
  simp only [parseIfElseChain, if_neg h]

theorem parseStatementsUntilRBrace_step {n : Nat} {acc : List ASTNode}
    {p p1 : Parser} {nd : Option ASTNode}
    (hne : ¬(p.currentToken.type = .RBRACE))
    (h : parseStatement n p = .ok (nd, p1)) :
    parseStatementsUntilRBrace (n + 1) acc p =
      parseStatementsUntilRBrace n (acc ++ [orNull nd]) p1 := by
  simp only [parseStatementsUntilRBrace, if_neg hne, h]

theorem parseStatementsUntilRBrace_end {n : Nat} {acc : List ASTNode}
    {p : Parser} (h : p.currentToken.type = .RBRACE) :
    parseStatementsUntilRBrace (n + 1) acc p = .ok (acc, p) := by
  simp only [parseStatementsUntilRBrace, if_pos h]

theorem parseStatement_if {n : Nat} {p p1 : Parser} {nd : ASTNode}
    (hTy : p.currentToken.type = .IF)
    (h : parseIfStatement n p = .ok (nd, p1)) :
    parseStatement (n + 1) p = .ok (some nd, p1) := by
  simp only [parseStatement, hTy, h]

theorem parseStatement_for {n : Nat} {p p1 : Parser} {nd : ASTNode}
    (hTy : p.currentToken.type = .FOR)
    (h : parseForStatement n p = .ok (nd, p1)) :
    parseStatement (n + 1) p = .ok (some nd, p1) := by
  simp only [parseStatement, hTy, h]

theorem parseStatement_func {n : Nat} {p p1 : Parser} {nd : ASTNode}
    (hTy : p.currentToken.type = .FUNC)
    (h : parseFunctionDefinition n p = .ok (nd, p1)) :
    parseStatement (n + 1) p = .ok (some nd, p1) := by
  simp only [parseStatement, hTy, h]

theorem parseFunctionDefinition_unfold {n : Nat}
    {p p1 p2 p3 p4 p5 p6 p7 p8 p9 : Parser} {rt : ValueType}
    {fname : String} {params : List (String × ValueType)}
    {body : List ASTNode} {env1 : Environment}
    (h1 : p.eat .FUNC = .ok p1)
    (h2 : parseType p1 = .ok (rt, p2))
    (hname : p2.currentToken.stringValue = fname)
    (h3 : p2.eat .IDENTIFIER = .ok p3)
    (h4 : p3.eat .LPAREN = .ok p4)
    (h5 : parseParams n [] p4 = .ok (params, p5))
    (h6 : p5.eat .RPAREN = .ok p6)
    (h7 : p6.eat .LBRACE = .ok p7)
    (h8 : parseStatementsUntilRBrace n [] p7 = .ok (body, p8))
    (h9 : p8.eat .RBRACE = .ok p9)
    (h10 : p9.env.registerUserFunction fname
      (.FunctionNode fname rt params [] (.BlockNode body)) = .ok env1) :
    parseFunctionDefinition (n + 1) p =
      .ok (.FunctionNode fname rt params [] (.BlockNode body),
        { p9 with env := env1 }) := by
  simp only [parseFunctionDefinition, h1, h2, hname, h3, h4, h5, h6, h7, h8,
    h9, h10]

theorem parseForStatement_unfold {n : Nat}
    {p p1 p2 p3 p4 p5 p6 p7 p8 p9 p10 p11 p12 : Parser}
    {ini c ue : ASTNode} {ident : String} {body : List ASTNode}
    (h1 : p.eat .FOR = .ok p1)
    (h2 : p1.eat .LPAREN = .ok p2)
    (hInit : p2.currentToken.type = .INT)
    (h3 : parseDeclaration n p2 = .ok (ini, p3))
    (h4 : parseExpression n p3 = .ok (c, p4))
    (h5 : p4.eat .SEMICOLON = .ok p5)
    (hUpdTy : p5.currentToken.type = .IDENTIFIER)
    (hUpdName : p5.currentToken.stringValue = ident)
    (h6 : p5.eat .IDENTIFIER = .ok p6)
    (hAsn : p6.currentToken.type = .ASSIGN)
    (h7 : p6.eat .ASSIGN = .ok p7)
    (h8 : parseExpression n p7 = .ok (ue, p8))
    (h9 : p8.eat .RPAREN = .ok p9)
    (h10 : p9.eat .LBRACE = .ok p10)
    (h11 : parseStatementsUntilRBrace n [] p10 = .ok (body, p11))
    (h12 : p11.eat .RBRACE = .ok p12) :
    parseForStatement (n + 1) p =
      .ok (.ForNode (some ini) c
        (some (.AssignmentNode ident none ue)) (.BlockNode body), p12) := by
  simp only [parseForStatement, h1, h2, hInit, h3, h4, h5, hUpdTy, hUpdName,
    h6, hAsn, h7, h8, h9, h10, h11, h12]

/-! ## Concrete parsing steps for the claim programs -/

theorem c3m0 : mkParser (Lexer.fromString elseIfSource) Environment.init =
  .ok c3q0 := by rfl

theorem c3e1 : c3q0.eat .IF = .ok c3q1 := by rfl
theorem c3e2 : c3q1.eat .LPAREN = .ok c3q2 := by rfl
theorem c3e3 : c3q3.eat .RPAREN = .ok c3q4 := by rfl
theorem c3e4 : c3q5.eat .ELSE = .ok c3q6 := by rfl
theorem c3e5 : c3q6.eat .IF = .ok c3q7 := by rfl
theorem c3e6 : c3q7.eat .LPAREN = .ok c3q8 := by rfl
theorem c3e7 : c3q9.eat .RPAREN = .ok c3q10 := by rfl
theorem c3e8 : c3q11.eat .ELSE = .ok c3q12 := by rfl

theorem c3x1 (m : Nat) : parseExpression (m + 26) c3q2 =
  .ok (.BooleanNode true, c3q3) := by rfl
theorem c3s1 (m : Nat) : parseStatement (m + 26) c3q4 =
  .ok (some (.BlockNode [.AssignmentNode "x" none (.NumberNode 1)]), c3q5) := by rfl
theorem c3x2 (m : Nat) : parseExpression (m + 25) c3q8 =
  .ok (.BooleanNode false, c3q9) := by rfl
theorem c3s2 (m : Nat) : parseStatement (m + 25) c3q10 =
  .ok (some (.BlockNode [.AssignmentNode "x" none (.NumberNode 2)]), c3q11) := by rfl
theorem c3s3 (m : Nat) : parseStatement (m + 24) c3q12 =
  .ok (some (.BlockNode [.AssignmentNode "x" none (.NumberNode 3)]), c3q13) := by rfl

theorem c3chain (m : Nat) : parseIfElseChain (m + 26) none c3q5 =
    .ok (some (.BlockNode [.AssignmentNode "x" none (.NumberNode 3)]),
      c3q13) := by
  rw [parseIfElseChain_elseif rfl c3e4 rfl c3e5 c3e6 (c3x2 m) c3e7 (c3s2 m)]
  rw [parseIfElseChain_else rfl c3e8 (by decide) (c3s3 m)]

theorem c3ifthm (m : Nat) : parseIfStatement (m + 27) c3q0 =
    .ok (.IfNode (.BooleanNode true)
      (.BlockNode [.AssignmentNode "x" none (.NumberNode 1)])
      (some (.BlockNode [.AssignmentNode "x" none (.NumberNode 3)])),
      c3q13) := by
  have h := parseIfStatement_unfold c3e1 c3e2 (c3x1 m) c3e3 (c3s1 m)
    (c3chain m)
  simpa [orNull] using h

theorem c3stmt (m : Nat) : parseStatement (m + 28) c3q0 =
    .ok (some (.IfNode (.BooleanNode true)
      (.BlockNode [.AssignmentNode "x" none (.NumberNode 1)])
      (some (.BlockNode [.AssignmentNode "x" none (.NumberNode 3)]))),
      c3q13) :=
  parseStatement_if rfl (c3ifthm m)

theorem c4m0 : mkParser (Lexer.fromString factProgram) envWithPrint =
  .ok c4r0 := by rfl

theorem c4e1 : c4r0.eat .FUNC = .ok c4r1 := by rfl
theorem c4t1 : parseType c4r1 = .ok (.INT, c4r2) := by rfl
theorem c4e2 : c4r2.eat .IDENTIFIER = .ok c4r3 := by rfl
theorem c4e3 : c4r3.eat .LPAREN = .ok c4r4 := by rfl
theorem c4p1 (m : Nat) : parseParams (m + 36) [] c4r4 =
  .ok ([("n", .INT)], c4r5) := by rfl
theorem c4e4 : c4r5.eat .RPAREN = .ok c4r6 := by rfl
theorem c4e5 : c4r6.eat .LBRACE = .ok c4r7 := by rfl
theorem c4s1 (m : Nat) : parseStatement (m + 35) c4r7 =
  .ok (some (.DeclarationNode "r" .INT (some (.NumberNode 1))), c4r8) := by
  rfl
theorem c4e6 : c4r8.eat .FOR = .ok c4f1 := by rfl
theorem c4e7 : c4f1.eat .LPAREN = .ok c4f2 := by rfl
theorem c4d1 (m : Nat) : parseDeclaration (m + 32) c4f2 =
  .ok (.DeclarationNode "i" .INT (some (.NumberNode 1)), c4f3) := by rfl
theorem c4x1 (m : Nat) : parseExpression (m + 32) c4f3 =
  .ok (.BinaryOpNode .LESS_EQUALS (.VariableNode "i") (.VariableNode "n"),
    c4f4) := by rfl
theorem c4e8 : c4f4.eat .SEMICOLON = .ok c4f5 := by rfl
theorem c4e9 : c4f5.eat .IDENTIFIER = .ok c4f6 := by rfl
theorem c4e10 : c4f6.eat .ASSIGN = .ok c4f7 := by rfl
theorem c4x2 (m : Nat) : parseExpression (m + 32) c4f7 =
  .ok (.BinaryOpNode .PLUS (.VariableNode "i") (.NumberNode 1), c4f8) := by
  rfl
theorem c4e11 : c4f8.eat .RPAREN = .ok c4f9 := by rfl
theorem c4e12 : c4f9.eat .LBRACE = .ok c4f10 := by rfl
theorem c4s2 (m : Nat) : parseStatement (m + 31) c4f10 =
  .ok (some (.AssignmentNode "r" none
    (.BinaryOpNode .MULTIPLY (.VariableNode "r") (.VariableNode "i"))),
    c4f11) := by rfl
theorem c4e13 : c4f11.eat .RBRACE = .ok c4f12 := by rfl
theorem c4s3 (m : Nat) : parseStatement (m + 33) c4f12 =
  .ok (some (.ReturnNode (.VariableNode "r")), c4r10) := by rfl
theorem c4e14 : c4r10.eat .RBRACE = .ok c4r11 := by rfl
theorem c4reg : c4r11.env.registerUserFunction "fact" factFnNode =
  .ok c4envReg := by rfl
theorem c4err (m : Nat) : parseStatement (m + 37) c4r12 =
  .error "Unexpected token type" := by rfl

theorem c4forBody (m : Nat) : parseStatementsUntilRBrace (m + 32) [] c4f10 =
    .ok ([.AssignmentNode "r" none
      (.BinaryOpNode .MULTIPLY (.VariableNode "r") (.VariableNode "i"))],
      c4f11) := by
  rw [parseStatementsUntilRBrace_step (by decide) (c4s2 m)]
  rw [parseStatementsUntilRBrace_end rfl]
  rfl

theorem c4for (m : Nat) : parseForStatement (m + 33) c4r8 =
    .ok (.ForNode
      (some (.DeclarationNode "i" .INT (some (.NumberNode 1))))
      (.BinaryOpNode .LESS_EQUALS (.VariableNode "i") (.VariableNode "n"))
      (some (.AssignmentNode "i" none
        (.BinaryOpNode .PLUS (.VariableNode "i") (.NumberNode 1))))
      (.BlockNode [.AssignmentNode "r" none
        (.BinaryOpNode .MULTIPLY (.VariableNode "r") (.VariableNode "i"))]),
      c4f12) :=
  parseForStatement_unfold c4e6 c4e7 rfl (c4d1 m) (c4x1 m) c4e8 rfl rfl
    c4e9 rfl c4e10 (c4x2 m) c4e11 c4e12 (c4forBody m) c4e13

theorem c4funcBody (m : Nat) :
    parseStatementsUntilRBrace (m + 36) [] c4r7 =
    .ok ([.DeclarationNode "r" .INT (some (.NumberNode 1)),
      .ForNode
        (some (.DeclarationNode "i" .INT (some (.NumberNode 1))))
        (.BinaryOpNode .LESS_EQUALS (.VariableNode "i") (.VariableNode "n"))
        (some (.AssignmentNode "i" none
          (.BinaryOpNode .PLUS (.VariableNode "i") (.NumberNode 1))))
        (.BlockNode [.AssignmentNode "r" none
          (.BinaryOpNode .MULTIPLY (.VariableNode "r")
            (.VariableNode "i"))]),
      .ReturnNode (.VariableNode "r")], c4r10) := by
  rw [parseStatementsUntilRBrace_step (by decide) (c4s1 m)]
  rw [parseStatementsUntilRBrace_step (by decide)
    (parseStatement_for rfl (c4for m))]
  rw [parseStatementsUntilRBrace_step (by decide) (c4s3 m)]
  rw [parseStatementsUntilRBrace_end rfl]
  rfl

theorem c4fd (m : Nat) : parseFunctionDefinition (m + 37) c4r0 =
    .ok (factFnNode, c4r12) :=
  parseFunctionDefinition_unfold c4e1 c4t1 rfl c4e2 c4e3 (c4p1 m) c4e4 c4e5
    (c4funcBody m) c4e14 c4reg

/-! ## Claim theorems -/

/-- C3 (code bug): parsing `if (true) { x = 1; } else if (false) { x = 2; }
else { x = 3; }` does NOT produce the order-preserving nesting
`If(true, s1, If(false, s2, s3))` the claim describes: the trailing plain
`else` overwrites the accumulated `else if` chain, so the parser yields
`If(true, s1, s3)` and the `(false, s2)` arm is dropped entirely. -/
theorem parseIf_elseif_chain_dropped (m : Nat) :
    parseSource (m + 30) elseIfSource Environment.init =
      .ok (.ProgramNode [.IfNode (.BooleanNode true)
        (.BlockNode [.AssignmentNode "x" none (.NumberNode 1)])
        (some (.BlockNode [.AssignmentNode "x" none (.NumberNode 3)]))],
        c3q13) := by
  rw [parseSource_ok c3m0, parseProgram_succ,
    parseProgramLoop_step (by decide) (c3stmt m),
    parseProgramLoop_end rfl]
  rfl

set_option maxHeartbeats 30000000 in
/-- C4 (code bug): the end-to-end factorial scenario lexes successfully but
fails to PARSE: `Parser::parseFunctionCall` unconditionally demands a
semicolon after the closing parenthesis, so the inner call `fact(5)` used
as an argument of `print(...)` raises "Unexpected token type"; evaluation
(and the expected single `print(120)` invocation) is never reached. -/
theorem fact_program_fails_to_parse (m : Nat) :
    (lexAll 400 (Lexer.fromString factProgram)).isOk = true ∧
    parseSource (m + 40) factProgram envWithPrint =
      .error "Unexpected token type" := by
  constructor
  · rfl
  · rw [parseSource_ok c4m0, parseProgram_succ,
      parseProgramLoop_step (by decide) (parseStatement_func rfl (c4fd m)),
      parseProgramLoop_error (by decide) (c4err m)]


set_option maxHeartbeats 8000000 in
/-- C2 (code bug): declaring `int x = 2.5;` does NOT raise a type error.
`Environment::setVariable` performs no declared-type check, so the program
runs to completion and `x` holds `stod "2.5" = 5/2` rather than its
truncation; a later direct assignment of the same non-integral value to
the `int`-declared variable also succeeds. -/
theorem int_declaration_accepts_nonintegral :
    (runSource 40 "int x = 2.5;" Environment.init).1 = .ok Value.defaultVal ∧
    (runSource 40 "int x = 2.5;" Environment.init).2.getVariable "x"
      = .ok (.num (stod ['2', '.', '5'])) ∧
    stod ['2', '.', '5'] = 5 / 2 ∧
    (envAfterIntDecl.setVariable "i" (.num (stod ['2', '.', '5']))).isOk
      = true := by
  refine ⟨rfl, rfl, ?_, rfl⟩
  have h : stod ['2', '.', '5']
      = ((2 : Nat) : Rat) + ((5 : Nat) : Rat) / (10 : Rat) ^ 1 := rfl
  rw [h]; norm_num

/-- C6 (code bug): `==`/`!=` on two numbers or two strings THROW (the
arithmetic switch's default case and the string block run first and have
no equality cases), `==`/`!=` on two booleans work, two containers of the
same kind compare as always-unequal booleans instead of raising a type
error, and only operands of different kinds raise the comparison type
error the claim describes. -/
theorem equality_operator_semantics :
    applyBinaryOp .EQUALS (.num 5) (.num 5)
      = .error "Unsupported binary operation for doubles." ∧
    applyBinaryOp .NOT_EQUALS (.num 5) (.num 6)
      = .error "Unsupported binary operation for doubles." ∧
    applyBinaryOp .EQUALS (.str "a") (.str "a")
      = .error "Unsupported operation for strings." ∧
    applyBinaryOp .EQUALS (.bool true) (.bool true) = .ok (.bool true) ∧
    applyBinaryOp .NOT_EQUALS (.bool true) (.bool false)
      = .ok (.bool true) ∧
    applyBinaryOp .EQUALS (.arr []) (.arr []) = .ok (.bool false) ∧
    applyBinaryOp .NOT_EQUALS (.map []) (.map []) = .ok (.bool true) ∧
    applyBinaryOp .EQUALS (.num 1) (.bool true)
      = .error "Cannot compare different types for equality." :=
  ⟨rfl, rfl, rfl, rfl, rfl, rfl, rfl, rfl⟩

set_option maxHeartbeats 8000000 in
/-- C7 (confirmed): `i++;` parses to a POSTFIX increment and `++i;` to a
PREFIX increment (the operator's position relative to the identifier picks
the node's marker); on a binding `int i = 5;` the postfix form yields the
old value 5 and the prefix form yields the new value 5 + 1, and both leave
`i` bound to 5 + 1 = 6. -/
theorem increment_prefix_postfix_semantics :
    parsedRoot 20 "i++;" = .ProgramNode [.IncrementNode .POSTFIX "i"] ∧
    parsedRoot 20 "++i;" = .ProgramNode [.IncrementNode .PREFIX "i"] ∧
    (evaluate 10 (.IncrementNode .POSTFIX "i") envAfterIntDecl).1
      = .ok (.num 5) ∧
    (evaluate 10 (.IncrementNode .POSTFIX "i") envAfterIntDecl).2.getVariable
      "i" = .ok (.num (5 + 1)) ∧
    (evaluate 10 (.IncrementNode .PREFIX "i") envAfterIntDecl).1
      = .ok (.num (5 + 1)) ∧
    (evaluate 10 (.IncrementNode .PREFIX "i") envAfterIntDecl).2.getVariable
      "i" = .ok (.num (5 + 1)) ∧
    (5 : Rat) + 1 = 6 := by
  refine ⟨rfl, rfl, rfl, rfl, rfl, rfl, ?_⟩
  norm_num

/-- C8 (confirmed): dividing two numeric values with a non-zero divisor
yields their exact quotient, and any numeric value divided by zero raises
the division-by-zero error. -/
theorem division_semantics (n : Nat) (a b : Rat) (env : Environment)
    (hb : b ≠ 0) :
    evaluate (n + 2) (.BinaryOpNode .DIVIDE (.NumberNode a) (.NumberNode b))
        env = (.ok (.num (a / b)), env) ∧
    evaluate (n + 2) (.BinaryOpNode .DIVIDE (.NumberNode a) (.NumberNode 0))
        env = (.error "Division by zero.", env) := by
  constructor
  · simp only [evaluate, bindE, applyBinaryOp, if_neg hb]
  · simp only [evaluate, bindE, applyBinaryOp, if_pos rfl, if_true]

/-- Witness for `division_semantics` at `a = 7`, `b = 3`. -/
theorem division_semantics_witness :
    (3 : Rat) ≠ 0 ∧
    (evaluate 2 (.BinaryOpNode .DIVIDE (.NumberNode 7) (.NumberNode 3))
        Environment.init = (.ok (.num (7 / 3)), Environment.init) ∧
     evaluate 2 (.BinaryOpNode .DIVIDE (.NumberNode 7) (.NumberNode 0))
        Environment.init = (.error "Division by zero.", Environment.init)) :=
  ⟨by norm_num, division_semantics 0 7 3 Environment.init (by norm_num)⟩

/-- C1 (corrected): `if`, `while` and `do-while` reject EVERY non-boolean
condition value with their respective type errors, while
`ForNode::evaluate` deliberately also accepts a NUMERIC condition,
treating 0 as false and any other number as true (numeric truthiness),
and raises its type error only for the remaining kinds (string, array,
map, function reference). -/
theorem for_numeric_condition_truthiness (n : Nat)
    (cond upd body : ASTNode) (env env1 : Environment) (v : Value)
    (hc : evaluate n cond env = (.ok v, env1))
    (hnb : ∀ b, v ≠ .bool b) :
    evaluate (n + 1) (.IfNode cond body none) env
      = (.error "Condition for 'if' must be a boolean.", env1) ∧
    whileLoop (n + 1) cond body env
      = (.error "Condition for 'while' must be a boolean.", env1) ∧
    (∀ env0 bv, evaluate n body env0 = (.ok bv, env) →
      doWhileLoop (n + 1) body cond env0
        = (.error "Condition for 'do-while' must be a boolean.", env1)) ∧
    (∀ x : Rat, v = .num x → x = 0 →
      forLoop (n + 1) cond (some upd) body env
        = (.ok Value.defaultVal, env1)) ∧
    (∀ x : Rat, v = .num x → x ≠ 0 →
      forLoop (n + 1) cond (some upd) body env
        = forLoopBody n cond (some upd) body env1) ∧
    ((∀ x : Rat, v ≠ .num x) →
      forLoop (n + 1) cond (some upd) body env
        = (.error
            "Condition for 'for' must evaluate to a boolean or numeric value.",
            env1)) := by
  refine ⟨?_, ?_, ?_, ?_, ?_, ?_⟩
  · cases v <;>
      first
      | exact absurd rfl (hnb _)
      | simp only [evaluate, bindE, hc]
  · cases v <;>
      first
      | exact absurd rfl (hnb _)
      | simp only [whileLoop, bindE, hc]
  · intro env0 bv hb
    cases v <;>
      first
      | exact absurd rfl (hnb _)
      | simp only [doWhileLoop, bindE, hb, hc]
  · intro x hvx hx
    subst hvx
    simp only [forLoop, bindE, hc, if_pos hx]
  · intro x hvx hx
    subst hvx
    simp only [forLoop, bindE, hc, if_neg hx]
  · intro hnn
    cases v <;>
      first
      | exact absurd rfl (hnb _)
      | exact absurd rfl (hnn _)
      | simp only [forLoop, bindE, hc]

/-- Witness for `for_numeric_condition_truthiness` at the STRING condition
value `"s"`, a kind that is neither boolean nor numeric. -/
theorem for_numeric_condition_truthiness_witness :
    evaluate 1 (.StringNode "s") Environment.init
      = (.ok (.str "s"), Environment.init) ∧
    (∀ b, Value.str "s" ≠ Value.bool b) ∧
    (evaluate 2 (.IfNode (.StringNode "s") (.BlockNode []) none)
        Environment.init
      = (.error "Condition for 'if' must be a boolean.",
          Environment.init) ∧
     whileLoop 2 (.StringNode "s") (.BlockNode []) Environment.init
      = (.error "Condition for 'while' must be a boolean.",
          Environment.init) ∧
     (∀ env0 bv,
        evaluate 1 (.BlockNode []) env0 = (.ok bv, Environment.init) →
        doWhileLoop 2 (.BlockNode []) (.StringNode "s") env0
          = (.error "Condition for 'do-while' must be a boolean.",
              Environment.init)) ∧
     (∀ x : Rat, Value.str "s" = .num x → x = 0 →
        forLoop 2 (.StringNode "s") (some (.NumberNode 0)) (.BlockNode [])
            Environment.init
          = (.ok Value.defaultVal, Environment.init)) ∧
     (∀ x : Rat, Value.str "s" = .num x → x ≠ 0 →
        forLoop 2 (.StringNode "s") (some (.NumberNode 0)) (.BlockNode [])
            Environment.init
          = forLoopBody 1 (.StringNode "s") (some (.NumberNode 0))
              (.BlockNode []) Environment.init) ∧
     ((∀ x : Rat, Value.str "s" ≠ .num x) →
        forLoop 2 (.StringNode "s") (some (.NumberNode 0)) (.BlockNode [])
            Environment.init
          = (.error
              "Condition for 'for' must evaluate to a boolean or numeric value.",
              Environment.init))) :=
  by
  refine ⟨rfl, ?_, ?_⟩
  · intro b h
    cases h
  · exact for_numeric_condition_truthiness 1 (.StringNode "s")
      (.NumberNode 0) (.BlockNode []) Environment.init Environment.init
      (.str "s") rfl (by intro b h; cases h)

set_option maxHeartbeats 8000000 in
/-- C10 (confirmed): the statement parser maps `i--;` to the same POSTFIX
increment node as `i++;` and `--i;` to the same PREFIX node as `++i;`
(there is no decrement node kind), and `IncrementNode::evaluate`
unconditionally stores `x + 1` over the old numeric value `x`, so a
decrement statement increases the variable by exactly 1. -/
theorem decrement_maps_to_increment (n : Nat) (t : IncrementType)
    (name : String) (x : Rat) (env env1 : Environment)
    (hget : env.getVariable name = .ok (.num x))
    (hset : env.setVariable name (.num (x + 1)) = .ok env1) :
    parsedRoot 20 "i--;" = .ProgramNode [.IncrementNode .POSTFIX "i"] ∧
    parsedRoot 20 "--i;" = .ProgramNode [.IncrementNode .PREFIX "i"] ∧
    evaluate (n + 1) (.IncrementNode t name) env
      = (.ok (match t with
          | .PREFIX => Value.num (x + 1)
          | .POSTFIX => Value.num x), env1) := by
  refine ⟨rfl, rfl, ?_⟩
  cases t <;> simp only [evaluate, liftE, hget, hset]

set_option maxHeartbeats 8000000 in
/-- Witness for `decrement_maps_to_increment` on the binding
`int i = 5;`. -/
theorem decrement_maps_to_increment_witness :
    envAfterIntDecl.getVariable "i" = .ok (.num 5) ∧
    envAfterIntDecl.setVariable "i" (.num (5 + 1))
      = .ok (evaluate 10 (.IncrementNode .POSTFIX "i") envAfterIntDecl).2 ∧
    (parsedRoot 20 "i--;" = .ProgramNode [.IncrementNode .POSTFIX "i"] ∧
     parsedRoot 20 "--i;" = .ProgramNode [.IncrementNode .PREFIX "i"] ∧
     evaluate 10 (.IncrementNode .POSTFIX "i") envAfterIntDecl
       = (.ok (.num 5),
          (evaluate 10 (.IncrementNode .POSTFIX "i") envAfterIntDecl).2)) :=
  ⟨rfl, rfl,
    decrement_maps_to_increment 9 .POSTFIX "i" 5 envAfterIntDecl
      (evaluate 10 (.IncrementNode .POSTFIX "i") envAfterIntDecl).2 rfl rfl⟩

/-- C9 (confirmed): with an outer binding of `x` visible, pushing a scope
and declaring a fresh `x` there succeeds; assignments and lookups then
target the inner binding (the lookup returns the inner value `w`), and
popping the scope returns exactly the original environment, so the outer
`x` still holds its original value. -/
theorem shadowing_preserves_outer (x : String) (w vOuter : Value)
    (env : Environment) (s : Scope) (ss : List Scope)
    (hobj : alistFind env.currentObjectInstance x = none)
    (hscopes : env.variableScopes = s :: ss)
    (hget : env.getVariable x = .ok vOuter) :
    ∃ env2 env3 : Environment,
      env.pushScope.declareVariable x .INT = .ok env2 ∧
      env2.setVariable x w = .ok env3 ∧
      env3.getVariable x = .ok w ∧
      env3.popScope = .ok env ∧
      env.getVariable x = .ok vOuter := by
  refine ⟨{ env with variableScopes :=
      [(x, (Value.num 0, ValueType.INT))] :: env.variableScopes },
    { env with variableScopes :=
      [(x, (w, ValueType.INT))] :: env.variableScopes },
    rfl, ?_, ?_, ?_, hget⟩
  · simp [Environment.setVariable, alistContains, hobj, setInScopes,
      alistFind, alistInsert]
  · simp [Environment.getVariable, hobj, getInScopes, alistFind]
  · rw [hscopes]
    show (Except.ok { env with variableScopes := s :: ss } :
      Except String Environment) = .ok env
    rw [← hscopes]

/-- Witness for `shadowing_preserves_outer` on the binding `int i = 5;`
shadowed by a string-valued inner `i`. -/
theorem shadowing_preserves_outer_witness :
    alistFind envAfterIntDecl.currentObjectInstance "i" = none ∧
    envAfterIntDecl.variableScopes
      = [[("i", (Value.num 5, ValueType.INT))]] ∧
    envAfterIntDecl.getVariable "i" = .ok (.num 5) ∧
    (∃ env2 env3 : Environment,
      envAfterIntDecl.pushScope.declareVariable "i" .INT = .ok env2 ∧
      env2.setVariable "i" (.str "inner") = .ok env3 ∧
      env3.getVariable "i" = .ok (.str "inner") ∧
      env3.popScope = .ok envAfterIntDecl ∧
      envAfterIntDecl.getVariable "i" = .ok (.num 5)) :=
  ⟨rfl, rfl, rfl,
    shadowing_preserves_outer "i" (.str "inner") (.num 5) envAfterIntDecl
      [("i", (Value.num 5, ValueType.INT))] [] rfl rfl rfl⟩

theorem DepthSpec_self {α : Type} (env : Environment)
    (res : Except String α) : DepthSpec env (res, env) :=
  ⟨le_refl _, fun _ _ => rfl⟩

theorem DepthSpec_of_depth_eq {α : Type} {env env2 : Environment}
    (h : env2.scopeDepth = env.scopeDepth) (res : Except String α) :
    DepthSpec env (res, env2) :=
  ⟨h.ge, fun _ _ => h⟩

theorem DepthSpec_of_le {α : Type} {env env2 : Environment}
    (h : env.scopeDepth ≤ env2.scopeDepth) (e : String) :
    DepthSpec env ((.error e : Except String α), env2) :=
  ⟨h, fun v hv => absurd hv (by simp)⟩

theorem DepthSpec_mono_base {α : Type} {env env' : Environment}
    {r : (Except String α) × Environment}
    (h : env'.scopeDepth = env.scopeDepth) (hr : DepthSpec env' r) :
    DepthSpec env r :=
  ⟨h ▸ hr.1, fun v hv => (hr.2 v hv).trans h⟩

theorem DepthSpec_bindE {α β : Type} {env : Environment}
    {r : (Except String α) × Environment}
    {k : α → Environment → (Except String β) × Environment}
    (hr : DepthSpec env r)
    (hk : ∀ v env1, r = (.ok v, env1) → DepthSpec env1 (k v env1)) :
    DepthSpec env (bindE r k) := by
  obtain ⟨r1, env1⟩ := r
  cases r1 with
  | error e =>
    show DepthSpec env ((Except.error e : Except String β), env1)
    exact DepthSpec_of_le hr.1 e
  | ok v =>
    have heq : env1.scopeDepth = env.scopeDepth := hr.2 v rfl
    have h2 := hk v env1 rfl
    exact ⟨le_trans heq.ge h2.1, fun w hw => (h2.2 w hw).trans heq⟩

theorem DepthSpec_liftE {α β : Type} {env : Environment}
    {r : Except String α} {k : α → (Except String β) × Environment}
    (hk : ∀ v, r = .ok v → DepthSpec env (k v)) :
    DepthSpec env (liftE r env k) := by
  cases r with
  | error e => exact DepthSpec_self env _
  | ok v => exact hk v rfl

theorem DepthSpec_liftE2 {α β : Type} {env envL : Environment}
    {r : Except String α} {k : α → (Except String β) × Environment}
    (herr : ∀ e, r = .error e →
      DepthSpec env ((.error e : Except String β), envL))
    (hok : ∀ v, r = .ok v → DepthSpec env (k v)) :
    DepthSpec env (liftE r envL k) := by
  cases r with
  | error e => exact herr e rfl
  | ok v => exact hok v rfl

theorem DepthSpec_bindE_ok {α β : Type} {env env1 : Environment} {v : α}
    {k : α → Environment → (Except String β) × Environment}
    (h : DepthSpec env (k v env1)) :
    DepthSpec env (bindE (.ok v, env1) k) := h

theorem scopeDepth_pushScope (env : Environment) :
    env.pushScope.scopeDepth = env.scopeDepth + 1 := rfl

theorem scopeDepth_popScope {env env' : Environment}
    (h : env.popScope = .ok env') :
    env'.scopeDepth + 1 = env.scopeDepth := by
  simp only [Environment.popScope] at h
  split at h
  · injection h with h2
    subst h2
    simp_all [Environment.scopeDepth]
  · exact absurd h (by simp)

theorem scopeDepth_registerClass {env env' : Environment} {n : String}
    {d : ASTNode} (h : env.registerClass n d = .ok env') :
    env'.scopeDepth = env.scopeDepth := by
  simp only [Environment.registerClass] at h
  split at h
  · exact absurd h (by simp)
  · injection h with h2
    subst h2
    rfl

theorem setInScopes_length {scopes : List Scope} {name : String}
    {v : Value} {scopes' : List Scope}
    (h : setInScopes scopes name v = some scopes') :
    scopes'.length = scopes.length := by
  induction scopes generalizing scopes' with
  | nil => simp [setInScopes] at h
  | cons s rest ih =>
    simp only [setInScopes] at h
    split at h
    · injection h with h2
      subst h2
      simp
    · split at h
      · injection h with h2
        subst h2
        simp_all
      · exact absurd h (by simp)

theorem scopeDepth_setVariable {env env' : Environment} {name : String}
    {v : Value} (h : env.setVariable name v = .ok env') :
    env'.scopeDepth = env.scopeDepth := by
  simp only [Environment.setVariable] at h
  repeat' split at h
  all_goals
    first
    | (injection h with h2
       subst h2
       rfl)
    | (injection h with h2
       subst h2
       simpa [Environment.scopeDepth] using setInScopes_length ‹_›)
    | injection h

theorem scopeDepth_declareVariable {env env' : Environment}
    {name : String} {type : ValueType} {className : String}
    (h : env.declareVariable name type className = .ok env') :
    env'.scopeDepth = env.scopeDepth := by
  simp only [Environment.declareVariable, bind, Except.bind] at h
  repeat' split at h
  all_goals
    first
    | (injection h with h2
       subst h2
       rfl)
    | (injection h with h2
       subst h2
       simp_all [Environment.scopeDepth])
    | injection h

theorem scopeDepth_bindParameters (ps : List (String × ValueType))
    (cns : List String) (f : String) (args : List Value)
    (env : Environment) :
    (bindParameters ps cns f args env).2.scopeDepth = env.scopeDepth := by
  induction ps generalizing cns args env with
  | nil => cases args <;> rfl
  | cons p rest ih =>
    obtain ⟨pname, ptype⟩ := p
    cases args with
    | nil => rfl
    | cons a ras =>
      simp only [bindParameters]
      split
      · rfl
      · rename_i env1 hdecl
        have h1 : env1.scopeDepth = env.scopeDepth := by
          revert hdecl
          split
          · split
            · intro hdecl
              exact absurd hdecl (by simp)
            · exact fun hdecl => scopeDepth_declareVariable hdecl
          · exact fun hdecl => scopeDepth_declareVariable hdecl
        split
        · exact h1
        · rename_i env2 hset
          exact ((ih _ _ _).trans (scopeDepth_setVariable hset)).trans h1

theorem scopeDepth_bindParametersByParams
    (ps : List (String × ValueType)) (args : List Value)
    (env : Environment) :
    (bindParametersByParams ps args env).2.scopeDepth = env.scopeDepth := by
  induction ps generalizing args env with
  | nil => rfl
  | cons p rest ih =>
    obtain ⟨pname, ptype⟩ := p
    cases args with
    | nil => rfl
    | cons a ras =>
      simp only [bindParametersByParams]
      split
      · rfl
      · rename_i env1 hdecl
        have h1 : env1.scopeDepth = env.scopeDepth :=
          scopeDepth_declareVariable hdecl
        split
        · exact h1
        · rename_i env2 hset
          exact ((ih _ _).trans (scopeDepth_setVariable hset)).trans h1

set_option maxHeartbeats 2000000 in
theorem depth_invariant (fuel : Nat) :
    (∀ node env, DepthSpec env (evaluate fuel node env)) ∧
    (∀ stmts lv env, DepthSpec env (evalSeq fuel stmts lv env)) ∧
    (∀ args env, DepthSpec env (evalArgs fuel args env)) ∧
    (∀ nodes env, DepthSpec env (evalArgsPlain fuel nodes env)) ∧
    (∀ elems acc env, DepthSpec env (evalMapElems fuel elems acc env)) ∧
    (∀ c b env, DepthSpec env (whileLoop fuel c b env)) ∧
    (∀ b c env, DepthSpec env (doWhileLoop fuel b c env)) ∧
    (∀ c u b env, DepthSpec env (forLoop fuel c u b env)) ∧
    (∀ c u b env, DepthSpec env (forLoopBody fuel c u b env)) ∧
    (∀ name args ans env,
      DepthSpec env (evaluateFunction fuel name args ans env)) ∧
    (∀ cn args env, DepthSpec env (instantiateObject fuel cn args env)) ∧
    (∀ members acc env,
      DepthSpec env (evalMemberDecls fuel members acc env)) ∧
    (∀ om mn args env,
      DepthSpec env (callMemberFunction fuel om mn args env)) := by
  induction fuel with
  | zero =>
    refine ⟨?_, ?_, ?_, ?_, ?_, ?_, ?_, ?_, ?_, ?_, ?_, ?_, ?_⟩ <;>
      intros <;> exact DepthSpec_self _ _
  | succ n ih =>
    obtain ⟨ihEval, ihSeq, ihArgs, ihArgsP, ihMapE, ihWhile, ihDo, ihFor,
      ihForB, ihFn, ihInst, ihMemD, ihCallM⟩ := ih
    refine ⟨?_, ?_, ?_, ?_, ?_, ?_, ?_, ?_, ?_, ?_, ?_, ?_, ?_⟩
    · -- evaluate
      intro node env
      cases node with
      | ProgramNode statements =>
        exact DepthSpec_bindE (ihSeq _ _ _) fun v env1 _ =>
          DepthSpec_self _ _
      | BlockNode statements => exact ihSeq _ _ _
      | BooleanNode value => exact DepthSpec_self _ _
      | StringNode value => exact DepthSpec_self _ _
      | NumberNode value => exact DepthSpec_self _ _
      | nullNode => exact DepthSpec_self _ _
      | FunctionNode a b c d e => exact DepthSpec_self _ _
      | ForNode initializer condition update body =>
        cases initializer with
        | some ini =>
          exact DepthSpec_bindE (ihEval _ _) fun v env1 _ =>
            ihFor _ _ _ _
        | none => exact ihFor _ _ _ _
      | DoWhileNode body condition => exact ihDo _ _ _
      | WhileNode condition body => exact ihWhile _ _ _
      | IfNode condition thenBranch elseBranch =>
        refine DepthSpec_bindE (ihEval _ _) fun v env1 _ => ?_
        cases v with
        | bool b =>
          cases b with
          | true => exact ihEval _ _
          | false =>
            cases elseBranch with
            | some eb => exact ihEval _ _
            | none => exact DepthSpec_self _ _
        | num x => exact DepthSpec_self _ _
        | str s1 => exact DepthSpec_self _ _
        | arr a1 => exact DepthSpec_self _ _
        | map m1 => exact DepthSpec_self _ _
        | fnRef f1 => exact DepthSpec_self _ _
      | IncrementNode incrementType variableName =>
        refine DepthSpec_liftE fun v _ => ?_
        cases v with
        | num x =>
          exact DepthSpec_liftE fun env1 hset =>
            DepthSpec_of_depth_eq (scopeDepth_setVariable hset) _
        | bool b => exact DepthSpec_self _ _
        | str s1 => exact DepthSpec_self _ _
        | arr a1 => exact DepthSpec_self _ _
        | map m1 => exact DepthSpec_self _ _
        | fnRef f1 => exact DepthSpec_self _ _
      | UnaryOpNode op operand =>
        exact DepthSpec_bindE (ihEval _ _) fun v env1 _ =>
          DepthSpec_self _ _
      | BinaryOpNode op left right =>
        exact DepthSpec_bindE (ihEval _ _) fun v1 env1 _ =>
          DepthSpec_bindE (ihEval _ _) fun v2 env2 _ =>
            DepthSpec_self _ _
      | ReturnNode returnValue => exact ihEval _ _
      | FunctionCallNode name argumentsList =>
        exact DepthSpec_bindE (ihArgs _ _) fun an env1 _ =>
          ihFn _ _ _ _
      | DeclarationNode variableName type initializer =>
        refine DepthSpec_liftE fun dv _ => ?_
        refine DepthSpec_liftE fun env1 hdecl => ?_
        have h1 := scopeDepth_declareVariable hdecl
        cases initializer with
        | some ini =>
          refine DepthSpec_bindE (DepthSpec_mono_base h1 (ihEval _ _))
            fun v env2 _ => ?_
          refine DepthSpec_liftE fun env3 hset => ?_
          exact DepthSpec_mono_base (scopeDepth_setVariable hset)
            (DepthSpec_liftE fun rv _ => DepthSpec_self _ _)
        | none =>
          refine DepthSpec_mono_base h1 ?_
          refine DepthSpec_liftE fun env3 hset => ?_
          exact DepthSpec_mono_base (scopeDepth_setVariable hset)
            (DepthSpec_liftE fun rv _ => DepthSpec_self _ _)
      | AssignmentNode variableName index expression =>
        cases index with
        | none =>
          exact DepthSpec_bindE (ihEval _ _) fun v env1 _ =>
            DepthSpec_liftE fun env2 hset =>
              DepthSpec_of_depth_eq (scopeDepth_setVariable hset) _
        | some indexNode =>
          refine DepthSpec_liftE fun container _ => ?_
          refine DepthSpec_bindE (ihEval _ _) fun iv env1 _ => ?_
          refine DepthSpec_bindE (ihEval _ _) fun nv env2 _ => ?_
          cases container with
          | arr elems =>
            cases iv with
            | num ix =>
              show DepthSpec env2
                (if 0 ≤ castToInt ix ∧ castToInt ix < (elems.length : Int)
                 then
                   liftE (env2.setVariable variableName
                       (.arr (elems.set (castToInt ix).toNat nv))) env2
                     (fun env3 => (.ok nv, env3))
                 else (.error "Array index out of bounds.", env2))
              split
              · exact DepthSpec_liftE fun env3 hset =>
                  DepthSpec_of_depth_eq (scopeDepth_setVariable hset) _
              · exact DepthSpec_self _ _
            | bool b => exact DepthSpec_self _ _
            | str s1 => exact DepthSpec_self _ _
            | arr a1 => exact DepthSpec_self _ _
            | map m1 => exact DepthSpec_self _ _
            | fnRef f1 => exact DepthSpec_self _ _
          | map entries =>
            cases iv with
            | str key =>
              exact DepthSpec_liftE fun env3 hset =>
                DepthSpec_of_depth_eq (scopeDepth_setVariable hset) _
            | num x => exact DepthSpec_self _ _
            | bool b => exact DepthSpec_self _ _
            | arr a1 => exact DepthSpec_self _ _
            | map m1 => exact DepthSpec_self _ _
            | fnRef f1 => exact DepthSpec_self _ _
          | num x => exact DepthSpec_self _ _
          | bool b => exact DepthSpec_self _ _
          | str s1 => exact DepthSpec_self _ _
          | fnRef f1 => exact DepthSpec_self _ _
      | VariableNode name =>
        refine DepthSpec_liftE fun v _ => ?_
        cases v <;> exact DepthSpec_self _ _
      | ArrayNode elements =>
        exact DepthSpec_bindE (ihArgsP _ _) fun vs env1 _ =>
          DepthSpec_self _ _
      | MapNode elements =>
        exact DepthSpec_bindE (ihMapE _ _ _) fun es env1 _ =>
          DepthSpec_self _ _
      | IndexNode variableName indexExpression =>
        refine DepthSpec_liftE fun cv _ => ?_
        refine DepthSpec_bindE (ihEval _ _) fun iv env1 _ => ?_
        cases cv with
        | arr elems =>
          cases iv with
          | num ix =>
            show DepthSpec env1
              (if 0 ≤ castToInt ix ∧ castToInt ix < (elems.length : Int)
               then (.ok (elems.getD (castToInt ix).toNat Value.defaultVal),
                  env1)
               else (.error ("Array index out of bounds for variable: " ++
                  variableName), env1))
            split
            · exact DepthSpec_self _ _
            · exact DepthSpec_self _ _
          | bool b => exact DepthSpec_self _ _
          | str s1 => exact DepthSpec_self _ _
          | arr a1 => exact DepthSpec_self _ _
          | map m1 => exact DepthSpec_self _ _
          | fnRef f1 => exact DepthSpec_self _ _
        | map entries =>
          cases iv with
          | str key =>
            show DepthSpec env1
              (match alistFind entries key with
               | some v => (Except.ok v, env1)
               | none =>
                 (Except.error ("Key not found in map: " ++ key), env1))
            cases alistFind entries key <;> exact DepthSpec_self _ _
          | num x => exact DepthSpec_self _ _
          | bool b => exact DepthSpec_self _ _
          | arr a1 => exact DepthSpec_self _ _
          | map m1 => exact DepthSpec_self _ _
          | fnRef f1 => exact DepthSpec_self _ _
        | num x => exact DepthSpec_self _ _
        | bool b => exact DepthSpec_self _ _
        | str s1 => exact DepthSpec_self _ _
        | fnRef f1 => exact DepthSpec_self _ _
      | ClassDefinitionNode className members ctor =>
        exact DepthSpec_liftE fun env1 hreg =>
          DepthSpec_of_depth_eq (scopeDepth_registerClass hreg) _
      | ObjectInstantiationNode className constructorArgs =>
        exact ihInst _ _ _
      | MemberAccessNode object memberName =>
        refine DepthSpec_bindE (ihEval _ _) fun v env1 _ => ?_
        cases v with
        | map objMap =>
          show DepthSpec env1
            (match alistFind objMap memberName with
             | some v => (Except.ok v, env1)
             | none =>
               (Except.error ("Member not found: " ++ memberName), env1))
          cases alistFind objMap memberName <;> exact DepthSpec_self _ _
        | num x => exact DepthSpec_self _ _
        | bool b => exact DepthSpec_self _ _
        | str s1 => exact DepthSpec_self _ _
        | arr a1 => exact DepthSpec_self _ _
        | fnRef f1 => exact DepthSpec_self _ _
      | MemberFunctionCallNode object methodName argumentsList =>
        refine DepthSpec_bindE (ihEval _ _) fun v env1 _ => ?_
        cases v with
        | map objMap =>
          show DepthSpec env1
            (match alistFind objMap methodName with
             | some x =>
               if Environment.isMemberFunction objMap methodName then
                 bindE (evalArgsPlain n argumentsList env1)
                   (fun evaluatedArgs env2 =>
                     callMemberFunction n objMap methodName evaluatedArgs
                       env2)
               else
                 (Except.error ("Member \"" ++ methodName ++
                   "\" is not callable."), env1)
             | none =>
               (Except.error ("Member function not found: " ++ methodName),
                 env1))
          cases alistFind objMap methodName with
          | some x =>
            cases Environment.isMemberFunction objMap methodName
            · exact DepthSpec_self _ _
            · exact DepthSpec_bindE (ihArgsP _ _) fun ea env2 _ =>
                ihCallM _ _ _ _
          | none => exact DepthSpec_self _ _
        | num x => exact DepthSpec_self _ _
        | bool b => exact DepthSpec_self _ _
        | str s1 => exact DepthSpec_self _ _
        | arr a1 => exact DepthSpec_self _ _
        | fnRef f1 => exact DepthSpec_self _ _
    · -- evalSeq
      intro stmts lv env
      cases stmts with
      | nil => exact DepthSpec_self _ _
      | cons s rest =>
        exact DepthSpec_bindE (ihEval _ _) fun v env1 _ => ihSeq _ _ _
    · -- evalArgs
      intro args env
      cases args with
      | nil => exact DepthSpec_self _ _
      | cons a rest =>
        exact DepthSpec_bindE (ihEval _ _) fun v env1 _ =>
          DepthSpec_bindE (ihArgs _ _) fun vs env2 _ =>
            DepthSpec_self _ _
    · -- evalArgsPlain
      intro nodes env
      cases nodes with
      | nil => exact DepthSpec_self _ _
      | cons node1 rest =>
        exact DepthSpec_bindE (ihEval _ _) fun v env1 _ =>
          DepthSpec_bindE (ihArgsP _ _) fun vs env2 _ =>
            DepthSpec_self _ _
    · -- evalMapElems
      intro elems acc env
      cases elems with
      | nil => exact DepthSpec_self _ _
      | cons e rest =>
        obtain ⟨key, vnode⟩ := e
        exact DepthSpec_bindE (ihEval _ _) fun v env1 _ => ihMapE _ _ _
    · -- whileLoop
      intro c b env
      refine DepthSpec_bindE (ihEval _ _) fun cv env1 _ => ?_
      cases cv with
      | bool bb =>
        cases bb with
        | false => exact DepthSpec_self _ _
        | true =>
          exact DepthSpec_bindE (ihEval _ _) fun v env2 _ =>
            ihWhile _ _ _
      | num x => exact DepthSpec_self _ _
      | str s1 => exact DepthSpec_self _ _
      | arr a1 => exact DepthSpec_self _ _
      | map m1 => exact DepthSpec_self _ _
      | fnRef f1 => exact DepthSpec_self _ _
    · -- doWhileLoop
      intro b c env
      refine DepthSpec_bindE (ihEval _ _) fun v env1 _ => ?_
      refine DepthSpec_bindE (ihEval _ _) fun cv env2 _ => ?_
      cases cv with
      | bool bb =>
        cases bb with
        | false => exact DepthSpec_self _ _
        | true => exact ihDo _ _ _
      | num x => exact DepthSpec_self _ _
      | str s1 => exact DepthSpec_self _ _
      | arr a1 => exact DepthSpec_self _ _
      | map m1 => exact DepthSpec_self _ _
      | fnRef f1 => exact DepthSpec_self _ _
    · -- forLoop
      intro c u b env
      refine DepthSpec_bindE (ihEval _ _) fun cv env1 _ => ?_
      cases cv with
      | bool bb =>
        cases bb with
        | false => exact DepthSpec_self _ _
        | true => exact ihForB _ _ _ _
      | num x =>
        show DepthSpec env1
          (if x = 0 then (.ok Value.defaultVal, env1)
           else forLoopBody n c u b env1)
        split
        · exact DepthSpec_self _ _
        · exact ihForB _ _ _ _
      | str s1 => exact DepthSpec_self _ _
      | arr a1 => exact DepthSpec_self _ _
      | map m1 => exact DepthSpec_self _ _
      | fnRef f1 => exact DepthSpec_self _ _
    · -- forLoopBody
      intro c u b env
      refine DepthSpec_bindE (ihEval _ _) fun v env1 _ => ?_
      cases u with
      | some upd =>
        exact DepthSpec_bindE (ihEval _ _) fun v2 env2 _ =>
          ihFor _ _ _ _
      | none => exact ihFor _ _ _ _
    · -- evaluateFunction
      intro name args ans env
      simp only [evaluateFunction]
      split
      · exact DepthSpec_of_depth_eq rfl _
      · split
        · split
          · rename_i fname rt parameters pcns body hfn
            split
            · exact DepthSpec_self _ _
            · have hbp := scopeDepth_bindParameters parameters pcns fname
                args env.pushScope
              rcases hres : bindParameters parameters pcns fname args
                env.pushScope with ⟨r1, env2⟩
              rw [hres] at hbp
              have hbp2 : env2.scopeDepth = env.scopeDepth + 1 := hbp
              cases r1 with
              | error e => exact DepthSpec_of_le (by omega) e
              | ok u =>
                refine DepthSpec_bindE_ok ?_
                have hIH := ihEval body env2
                rcases hres2 : evaluate n body env2 with ⟨r2, env3⟩
                rw [hres2] at hIH
                have h31 : env2.scopeDepth ≤ env3.scopeDepth := hIH.1
                cases r2 with
                | error e => exact DepthSpec_of_le (by omega) e
                | ok rv =>
                  have h3 : env3.scopeDepth = env2.scopeDepth :=
                    hIH.2 rv rfl
                  refine DepthSpec_bindE_ok ?_
                  refine DepthSpec_liftE2
                    (fun e _ => DepthSpec_of_le (by omega) e)
                    (fun env4 hpop => ?_)
                  have h4 := scopeDepth_popScope hpop
                  exact DepthSpec_of_depth_eq (by omega) _
          · exact DepthSpec_self _ _
        · exact DepthSpec_self _ _
    · -- instantiateObject
      intro cn args env
      simp only [instantiateObject]
      split
      · exact DepthSpec_self _ _
      · split
        · rename_i classDef cn2 members ctorOpt heqc
          refine DepthSpec_bindE (ihMemD _ _ _)
            fun memberScope env1 _ => ?_
          cases ctorOpt with
          | none => exact DepthSpec_self _ _
          | some ctor =>
            cases ctor with
            | FunctionNode f1 f2 parameters f4 body =>
              refine DepthSpec_bindE (ihArgsP _ _) fun ea env2 _ => ?_
              have hbp := scopeDepth_bindParametersByParams parameters ea
                env2.pushScope
              rcases hres : bindParametersByParams parameters ea
                env2.pushScope with ⟨r1, env4⟩
              rw [hres] at hbp
              have hbp2 : env4.scopeDepth = env2.scopeDepth + 1 := hbp
              cases r1 with
              | error e => exact DepthSpec_of_le (by omega) e
              | ok u =>
                refine DepthSpec_bindE_ok ?_
                have hIH := ihEval body
                  { env4 with currentObjectInstance := memberScope }
                rcases hres2 : evaluate n body
                  { env4 with currentObjectInstance := memberScope }
                  with ⟨r2, env6⟩
                rw [hres2] at hIH
                have h61 : env4.scopeDepth ≤ env6.scopeDepth := hIH.1
                cases r2 with
                | error e => exact DepthSpec_of_le (by omega) e
                | ok rv =>
                  have h6 : env6.scopeDepth = env4.scopeDepth :=
                    hIH.2 rv rfl
                  refine DepthSpec_bindE_ok ?_
                  refine DepthSpec_liftE2 (fun e _ => ?_)
                    (fun env8 hpop => ?_)
                  · refine DepthSpec_of_le ?_ e
                    show env2.scopeDepth ≤
                      ({ env6 with currentObjectInstance :=
                        ([] : List (String × Value)) } :
                        Environment).scopeDepth
                    have hrec2 : ({ env6 with currentObjectInstance :=
                        ([] : List (String × Value)) } :
                        Environment).scopeDepth = env6.scopeDepth := rfl
                    omega
                  · have h8 := scopeDepth_popScope hpop
                    have hrec2 : ({ env6 with currentObjectInstance :=
                        ([] : List (String × Value)) } :
                        Environment).scopeDepth = env6.scopeDepth := rfl
                    rw [hrec2] at h8
                    exact DepthSpec_of_depth_eq (by omega) _
            | ProgramNode a => exact DepthSpec_self _ _
            | ForNode a b c d => exact DepthSpec_self _ _
            | BooleanNode a => exact DepthSpec_self _ _
            | StringNode a => exact DepthSpec_self _ _
            | NumberNode a => exact DepthSpec_self _ _
            | DoWhileNode a b => exact DepthSpec_self _ _
            | IncrementNode a b => exact DepthSpec_self _ _
            | BlockNode a => exact DepthSpec_self _ _
            | UnaryOpNode a b => exact DepthSpec_self _ _
            | BinaryOpNode a b c => exact DepthSpec_self _ _
            | WhileNode a b => exact DepthSpec_self _ _
            | IfNode a b c => exact DepthSpec_self _ _
            | ReturnNode a => exact DepthSpec_self _ _
            | FunctionCallNode a b => exact DepthSpec_self _ _
            | DeclarationNode a b c => exact DepthSpec_self _ _
            | AssignmentNode a b c => exact DepthSpec_self _ _
            | VariableNode a => exact DepthSpec_self _ _
            | ArrayNode a => exact DepthSpec_self _ _
            | MapNode a => exact DepthSpec_self _ _
            | IndexNode a b => exact DepthSpec_self _ _
            | ClassDefinitionNode a b c => exact DepthSpec_self _ _
            | ObjectInstantiationNode a b => exact DepthSpec_self _ _
            | MemberAccessNode a b => exact DepthSpec_self _ _
            | MemberFunctionCallNode a b c => exact DepthSpec_self _ _
            | nullNode => exact DepthSpec_self _ _
        · exact DepthSpec_self _ _
    · -- evalMemberDecls
      intro members acc env
      cases members with
      | nil => exact DepthSpec_self _ _
      | cons m rest =>
        obtain ⟨memberName, memberNode⟩ := m
        cases memberNode <;>
          first
          | exact DepthSpec_bindE (ihEval _ _) fun v env1 _ =>
              ihMemD _ _ _
          | exact ihMemD _ _ _
    · -- callMemberFunction
      intro om mn args env
      simp only [callMemberFunction]
      split
      · exact DepthSpec_self _ _
      · split
        · split
          · rename_i fn f1 f2 parameters f4 body hfn2
            have hbp := scopeDepth_bindParametersByParams parameters args
              { env.pushScope with currentObjectInstance := om }
            rcases hres : bindParametersByParams parameters args
              { env.pushScope with currentObjectInstance := om }
              with ⟨r1, env3⟩
            rw [hres] at hbp
            have hbp2 : env3.scopeDepth = env.scopeDepth + 1 := hbp
            cases r1 with
            | error e => exact DepthSpec_of_le (by omega) e
            | ok u =>
              refine DepthSpec_bindE_ok ?_
              have hIH := ihEval body env3
              rcases hres2 : evaluate n body env3 with ⟨r2, env4⟩
              rw [hres2] at hIH
              have h41 : env3.scopeDepth ≤ env4.scopeDepth := hIH.1
              cases r2 with
              | error e => exact DepthSpec_of_le (by omega) e
              | ok rv =>
                have h4 : env4.scopeDepth = env3.scopeDepth := hIH.2 rv rfl
                refine DepthSpec_bindE_ok ?_
                refine DepthSpec_liftE2
                  (fun e _ => DepthSpec_of_le (by omega) e)
                  (fun env5 hpop => ?_)
                have h5 := scopeDepth_popScope hpop
                refine DepthSpec_of_depth_eq ?_ _
                show ({ env5 with currentObjectInstance :=
                    ([] : List (String × Value)) } :
                    Environment).scopeDepth = env.scopeDepth
                have h51 : ({ env5 with currentObjectInstance :=
                    ([] : List (String × Value)) } :
                    Environment).scopeDepth = env5.scopeDepth := rfl
                omega
          · exact DepthSpec_self _ _
        · exact DepthSpec_self _ _

/-- C5 (corrected): the scope stack is restored to its starting depth on
every NORMAL completion of a user-function call, a constructor execution
and a member-function call; but when the call body throws, `popScope()` is
never reached and the pushed scope leaks: calling the registered function
`f` (whose body reads the undefined `y`) on an environment of depth 1
propagates the error and leaves the scope stack at depth 2. -/
theorem call_scope_depth_balance (fuel : Nat) (name : String)
    (args : List Value) (ans : List String) (cn : String)
    (argNodes : List ASTNode) (om : List (String × Value)) (mn : String)
    (margs : List Value) (env : Environment) :
    (∀ v env', evaluateFunction fuel name args ans env = (.ok v, env') →
      env'.scopeDepth = env.scopeDepth) ∧
    (∀ v env', instantiateObject fuel cn argNodes env = (.ok v, env') →
      env'.scopeDepth = env.scopeDepth) ∧
    (∀ v env', callMemberFunction fuel om mn margs env = (.ok v, env') →
      env'.scopeDepth = env.scopeDepth) ∧
    envWithThrowingFn.scopeDepth = 1 ∧
    (evaluateFunction 10 "f" [] [] envWithThrowingFn).1
      = .error "Undefined variable: y" ∧
    (evaluateFunction 10 "f" [] [] envWithThrowingFn).2.scopeDepth = 2 := by
  refine ⟨?_, ?_, ?_, rfl, rfl, rfl⟩
  · intro v env' h
    have hs := (depth_invariant fuel).2.2.2.2.2.2.2.2.2.1 name args ans env
    rw [h] at hs
    exact hs.2 v rfl
  · intro v env' h
    have hs := (depth_invariant fuel).2.2.2.2.2.2.2.2.2.2.1 cn argNodes env
    rw [h] at hs
    exact hs.2 v rfl
  · intro v env' h
    have hs := (depth_invariant fuel).2.2.2.2.2.2.2.2.2.2.2.2 om mn margs
      env
    rw [h] at hs
    exact hs.2 v rfl

/-- Witness for `call_scope_depth_balance`: a successful native call
preserves the scope depth. -/
theorem call_scope_depth_balance_witness :
    evaluateFunction 1 "print" [] [] envWithPrint
      = (.ok Value.defaultVal, envPrintLogged) ∧
    envPrintLogged.scopeDepth = envWithPrint.scopeDepth ∧
    envWithPrint.scopeDepth = 1 := by
  refine ⟨rfl, ?_, rfl⟩
  exact (call_scope_depth_balance 1 "print" [] [] "C" [] [] "m" []
      envWithPrint).1 Value.defaultVal envPrintLogged rfl

/-- Counterexample to C1 as stated: a `for` loop whose condition evaluates
to the NUMBER 0 does not raise a type error — it completes normally, the
0 being treated as false. -/
theorem for_numeric_condition_counterexample :
    evaluate 3 (.ForNode none (.NumberNode 0) none (.BlockNode []))
        Environment.init = (.ok Value.defaultVal, Environment.init) := rfl

/-- Counterexample to C5 as stated: calling the registered function `f`
(whose body reads the undefined `y` and throws) on an environment with
scope depth 1 propagates the error and leaves the scope stack at depth 2:
the pushed call scope leaks on the error exit path. -/
theorem call_scope_depth_counterexample :
    envWithThrowingFn.scopeDepth = 1 ∧
    (evaluateFunction 10 "f" [] [] envWithThrowingFn).1
      = .error "Undefined variable: y" ∧
    (evaluateFunction 10 "f" [] [] envWithThrowingFn).2.scopeDepth = 2 :=
  ⟨rfl, rfl, rfl⟩
